import Mathlib

/-!
# vulkan-triangle: a shallow embedding of `src/main.cc`

The program is a single class `LearnVulkanApp` whose methods call into the
Vulkan and GLFW libraries.  The embedding keeps the program's own control flow
and treats the libraries as an environment:

* handles are natural numbers, `0` being `VK_NULL_HANDLE`; a physical device
  is kept together with what its driver answers about it, and the member that
  may hold none is an `Option`;
* enumerations of the Vulkan headers are their numeric codes;
* `uint32_t` values are naturals, reduced modulo `2^32` where the program
  computes with them;
* what a library call answers is an argument of the embedded method;
* a method that only decides returns an `Outcome`: `returned`,
  `exit_failure` for `exit(EXIT_FAILURE)` with the diagnostic written to
  `std::cerr`, `uncaught` for an escaping exception, or `undefined` for an
  out-of-range element access;
* a method whose library calls matter returns a `Run`: the calls it issued,
  in order, and its `Outcome`.
-/

namespace LearnVulkanApp

/-! ## Vulkan header values -/

namespace vk

/-- Type `VkResult`, as its numeric code. -/
abbrev Result := Int

/-- Value `VK_SUCCESS`. -/
def Result.eSuccess : Result := 0
/-- Value `VK_TIMEOUT`. -/
def Result.eTimeout : Result := 2
/-- Value `VK_SUBOPTIMAL_KHR`. -/
def Result.eSuboptimalKHR : Result := 1000001003
/-- Value `VK_ERROR_DEVICE_LOST`. -/
def Result.eErrorDeviceLost : Result := -4
/-- Value `VK_ERROR_SURFACE_LOST_KHR`. -/
def Result.eErrorSurfaceLostKHR : Result := -1000000000
/-- Value `VK_ERROR_OUT_OF_DATE_KHR`. -/
def Result.eErrorOutOfDateKHR : Result := -1000001004

/-- Type `VkFormat`, as its numeric code. -/
abbrev Format := Nat

/-- Value `VK_FORMAT_R8G8B8A8_SRGB`. -/
def Format.eR8G8B8A8Srgb : Format := 43
/-- Value `VK_FORMAT_B8G8R8A8_UNORM`. -/
def Format.eB8G8R8A8Unorm : Format := 44
/-- Value `VK_FORMAT_B8G8R8A8_SRGB`. -/
def Format.eB8G8R8A8Srgb : Format := 50

/-- Type `VkColorSpaceKHR`, as its numeric code. -/
abbrev ColorSpaceKHR := Nat

/-- Value `VK_COLOR_SPACE_SRGB_NONLINEAR_KHR`. -/
def ColorSpaceKHR.eSrgbNonlinear : ColorSpaceKHR := 0
/-- Value `VK_COLOR_SPACE_DISPLAY_P3_NONLINEAR_EXT`. -/
def ColorSpaceKHR.eDisplayP3NonlinearEXT : ColorSpaceKHR := 1000104001

/-- Type `VkPresentModeKHR`, as its numeric code. -/
abbrev PresentModeKHR := Nat

/-- Value `VK_PRESENT_MODE_IMMEDIATE_KHR`. -/
def PresentModeKHR.eImmediate : PresentModeKHR := 0
/-- Value `VK_PRESENT_MODE_MAILBOX_KHR`. -/
def PresentModeKHR.eMailbox : PresentModeKHR := 1
/-- Value `VK_PRESENT_MODE_FIFO_KHR`. -/
def PresentModeKHR.eFifo : PresentModeKHR := 2
/-- Value `VK_PRESENT_MODE_FIFO_RELAXED_KHR`. -/
def PresentModeKHR.eFifoRelaxed : PresentModeKHR := 3

/-- Type `VkSurfaceFormatKHR`. -/
structure SurfaceFormatKHR where
  format : Format
  colorSpace : ColorSpaceKHR
deriving DecidableEq, Repr

/-- Type `VkExtent2D`. -/
structure Extent2D where
  width : Nat
  height : Nat
deriving DecidableEq, Repr

/-- Type `VkSurfaceCapabilitiesKHR`, the fields the program reads. -/
structure SurfaceCapabilitiesKHR where
  minImageCount : Nat
  maxImageCount : Nat
  currentExtent : Extent2D
  minImageExtent : Extent2D
  maxImageExtent : Extent2D
  currentTransform : Nat
deriving DecidableEq, Repr

/-- Type `vk::ResultValue<T>`: what a call answers when vulkan.hpp is built
without exceptions, a status and a value. -/
structure ResultValue (α : Type) where
  result : Result
  value : α
deriving DecidableEq, Repr

/-- Function `vk::to_string` on the status codes named above; the headers
print any other code as `invalid`. -/
def to_string (result : Result) : String :=
  if result = 0 then "Success"
  else if result = 2 then "Timeout"
  else if result = 1000001003 then "SuboptimalKHR"
  else if result = -4 then "ErrorDeviceLost"
  else if result = -1000000000 then "ErrorSurfaceLostKHR"
  else if result = -1000001004 then "ErrorOutOfDateKHR"
  else "invalid"

/-- Type `VkExtensionProperties`. -/
structure ExtensionProperties where
  extensionName : String
  specVersion : Nat
deriving DecidableEq, Repr

/-- Type `VkLayerProperties`, the fields that identify a layer. -/
structure LayerProperties where
  layerName : String
  specVersion : Nat
deriving DecidableEq, Repr

/-- Value `VK_INSTANCE_CREATE_ENUMERATE_PORTABILITY_BIT_KHR`. -/
def InstanceCreateFlagBits.eEnumeratePortabilityKHR : Nat := 1

/-- Value `VK_QUEUE_GRAPHICS_BIT`. -/
def QueueFlagBits.eGraphics : Nat := 1
/-- Value `VK_QUEUE_COMPUTE_BIT`. -/
def QueueFlagBits.eCompute : Nat := 2
/-- Value `VK_QUEUE_TRANSFER_BIT`. -/
def QueueFlagBits.eTransfer : Nat := 4

/-- Type `VkQueueFamilyProperties`, the fields the program reads. -/
structure QueueFamilyProperties where
  queueFlags : Nat
  queueCount : Nat
deriving DecidableEq, Repr

end vk

/-- Value `std::numeric_limits<uint32_t>::max()`. -/
def UINT32_MAX : Nat := 4294967295

/-- Conversion `static_cast<uint32_t>` of a C `int`. -/
def static_cast_uint32 (x : Int) : Nat := (x % 4294967296).toNat

/-- Function `std::clamp(v, lo, hi)` on unsigned values: `lo` when `v < lo`, `hi` when
`hi < v`, else `v`.  The standard leaves the call undefined when `hi < lo`,
which is `none` here. -/
def std_clamp (v lo hi : Nat) : Option Nat :=
  if hi < lo then none
  else if v < lo then some lo
  else if hi < v then some hi
  else some v

/-! ## Presentation negotiation (`main.cc` lines 414-475) -/

/-- The range-for loop of `choose_swap_surface_format`: `some f` when the loop
returns `f` from inside, `none` when it runs to the end of the vector. -/
def choose_swap_surface_format_loop :
    List vk.SurfaceFormatKHR → Option vk.SurfaceFormatKHR
  | [] => none
  | available_format :: more =>
    if available_format.format = vk.Format.eB8G8R8A8Srgb ∧
        available_format.colorSpace = vk.ColorSpaceKHR.eSrgbNonlinear then
      some available_format
    else choose_swap_surface_format_loop more

/-- Function `choose_swap_surface_format`: what the loop returned, else
`available_formats[0]`, an element that an empty vector does not have
(`none`). -/
def choose_swap_surface_format (available_formats : List vk.SurfaceFormatKHR) :
    Option vk.SurfaceFormatKHR :=
  match choose_swap_surface_format_loop available_formats with
  | some available_format => some available_format
  | none => available_formats[0]?

/-- Function `choose_swap_present_mode`: the first element equal to mailbox is returned
from inside the loop, FIFO after it. -/
def choose_swap_present_mode : List vk.PresentModeKHR → vk.PresentModeKHR
  | [] => vk.PresentModeKHR.eFifo
  | available_present_mode :: more =>
    if available_present_mode = vk.PresentModeKHR.eMailbox then available_present_mode
    else choose_swap_present_mode more

/-- Function `choose_swap_extent`.  `width` and `height` are what
`glfwGetFramebufferSize` stores into the two `int` locals; that call is only
made in the `else` branch. -/
def choose_swap_extent (capabilities : vk.SurfaceCapabilitiesKHR) (width height : Int) :
    Option vk.Extent2D :=
  if capabilities.currentExtent.width ≠ UINT32_MAX then
    some capabilities.currentExtent
  else
    match std_clamp (static_cast_uint32 width) capabilities.minImageExtent.width
        capabilities.maxImageExtent.width with
    | none => none
    | some w =>
      match std_clamp (static_cast_uint32 height) capabilities.minImageExtent.height
          capabilities.maxImageExtent.height with
      | none => none
      | some h => some { width := w, height := h }

/-- The image count `create_swap_chain` puts into the create info
(lines 471-475): `minImageCount + 1` in `uint32_t` arithmetic, lowered to
`maxImageCount` when that is positive. -/
def create_swap_chain_image_count (capabilities : vk.SurfaceCapabilitiesKHR) : Nat :=
  let image_count := (capabilities.minImageCount + 1) % 4294967296
  if capabilities.maxImageCount > 0 then
    min image_count capabilities.maxImageCount
  else
    image_count

/-! ## How a method ends -/

/-- The ways a method of the program ends: it returns a value, it writes a
diagnostic to `std::cerr` and calls `exit(EXIT_FAILURE)`, it lets a C++
exception escape (which ends the process through `std::terminate`), or it
does something the language leaves undefined (an element access out of
range, a call on a null handle). -/
inductive Outcome (α : Type) where
  | returned (value : α)
  | exit_failure (diagnostic : String)
  | uncaught (exception : String)
  | undefined
deriving DecidableEq, Repr

/-! ## Device selection (`main.cc` lines 22-38, 118-176, 307-352) -/

/-- Type `QueueFamilyIndices`. -/
structure QueueFamilyIndices where
  graphics_family : Option Nat
  present_family : Option Nat
deriving DecidableEq, Repr

/-- Method `QueueFamilyIndices::is_complete`. -/
def QueueFamilyIndices.is_complete (indices : QueueFamilyIndices) : Bool :=
  indices.graphics_family.isSome && indices.present_family.isSome

/-- Type `SwapChainSupportDetails`. -/
structure SwapChainSupportDetails where
  capabilities : vk.SurfaceCapabilitiesKHR
  formats : List vk.SurfaceFormatKHR
  present_modes : List vk.PresentModeKHR
deriving DecidableEq, Repr

/-- One queue family of a physical device: its properties, and what
`getSurfaceSupportKHR` answers for its index and the application's surface. -/
structure QueueFamily where
  properties : vk.QueueFamilyProperties
  surfaceSupport : vk.ResultValue Bool
deriving DecidableEq, Repr

/-- A physical device as the program sees it: its non-null handle, its name,
and what the driver answers to the queries the program makes about it and the
application's surface. -/
structure PhysicalDevice where
  handle : Nat
  deviceName : String
  queueFamilies : List QueueFamily
  surfaceCapabilities : vk.ResultValue vk.SurfaceCapabilitiesKHR
  surfaceFormats : vk.ResultValue (List vk.SurfaceFormatKHR)
  surfacePresentModes : vk.ResultValue (List vk.PresentModeKHR)
deriving DecidableEq, Repr

/-- The loop of `find_queue_families` from family index `i` on, `indices`
being the value the local has when the loop reaches that family. -/
def find_queue_families_loop :
    List QueueFamily → Nat → QueueFamilyIndices → Outcome QueueFamilyIndices
  | [], _, indices => Outcome.returned indices
  | queueFamily :: more, i, indices =>
    let indices1 : QueueFamilyIndices :=
      if queueFamily.properties.queueFlags &&& vk.QueueFlagBits.eGraphics ≠ 0 then
        { indices with graphics_family := some i }
      else indices
    let res := queueFamily.surfaceSupport
    if res.result = vk.Result.eSuccess ∧ res.value = true then
      find_queue_families_loop more (i + 1) { indices1 with present_family := some i }
    else if res.result ≠ vk.Result.eSuccess then
      Outcome.exit_failure "failed to get surface support"
    else
      find_queue_families_loop more (i + 1) indices1

/-- Function `find_queue_families`. -/
def find_queue_families (device : PhysicalDevice) : Outcome QueueFamilyIndices :=
  find_queue_families_loop device.queueFamilies 0
    { graphics_family := none, present_family := none }

/-- Function `query_swap_chain_support`: three queries, each fatal when it
does not answer success. -/
def query_swap_chain_support (device : PhysicalDevice) : Outcome SwapChainSupportDetails :=
  if device.surfaceCapabilities.result ≠ vk.Result.eSuccess then
    Outcome.exit_failure "failed to get surface capabilities"
  else if device.surfaceFormats.result ≠ vk.Result.eSuccess then
    Outcome.exit_failure "failed to get surface formats"
  else if device.surfacePresentModes.result ≠ vk.Result.eSuccess then
    Outcome.exit_failure "failed to get surface present modes"
  else
    Outcome.returned
      { capabilities := device.surfaceCapabilities.value,
        formats := device.surfaceFormats.value,
        present_modes := device.surfacePresentModes.value }

/-- Function `is_device_suitable`. -/
def is_device_suitable (device : PhysicalDevice) : Outcome Bool :=
  match find_queue_families device with
  | Outcome.returned indices =>
    match query_swap_chain_support device with
    | Outcome.returned swap_chain_support =>
      let swap_chain_adequate : Bool :=
        !swap_chain_support.formats.isEmpty && !swap_chain_support.present_modes.isEmpty
      Outcome.returned (indices.is_complete && swap_chain_adequate)
    | Outcome.exit_failure diagnostic => Outcome.exit_failure diagnostic
    | Outcome.uncaught exception => Outcome.uncaught exception
    | Outcome.undefined => Outcome.undefined
  | Outcome.exit_failure diagnostic => Outcome.exit_failure diagnostic
  | Outcome.uncaught exception => Outcome.uncaught exception
  | Outcome.undefined => Outcome.undefined

/-- The loop of `pick_physical_device` over the enumerated devices, started
with the member `physical_device` (`none` is `VK_NULL_HANDLE`): the first
device for which `is_device_suitable` returns true is stored and the loop
left. -/
def pick_physical_device_loop :
    List PhysicalDevice → Option PhysicalDevice → Outcome (Option PhysicalDevice)
  | [], physical_device => Outcome.returned physical_device
  | device :: more, physical_device =>
    match is_device_suitable device with
    | Outcome.returned true => Outcome.returned (some device)
    | Outcome.returned false => pick_physical_device_loop more physical_device
    | Outcome.exit_failure diagnostic => Outcome.exit_failure diagnostic
    | Outcome.uncaught exception => Outcome.uncaught exception
    | Outcome.undefined => Outcome.undefined

/-- Function `pick_physical_device`.  `physical_device` is the member before
the call, `devices` what `vkEnumeratePhysicalDevices` enumerates; the result
is the member after the call. -/
def pick_physical_device (physical_device : Option PhysicalDevice)
    (devices : List PhysicalDevice) : Outcome PhysicalDevice :=
  if devices.length = 0 then
    Outcome.exit_failure "failed to find GPUs with Vulkan support"
  else
    match pick_physical_device_loop devices physical_device with
    | Outcome.returned (some picked) => Outcome.returned picked
    | Outcome.returned none => Outcome.exit_failure "failed to find a suitable GPU"
    | Outcome.exit_failure diagnostic => Outcome.exit_failure diagnostic
    | Outcome.uncaught exception => Outcome.uncaught exception
    | Outcome.undefined => Outcome.undefined

/-- What the claims about device selection call a suitable device: its queue
family search returns complete indices (a graphics and a present family) and
its surface support query returns a non-empty format list and a non-empty
present-mode list. -/
def suitable (device : PhysicalDevice) : Bool :=
  match find_queue_families device, query_swap_chain_support device with
  | Outcome.returned indices, Outcome.returned support =>
    indices.graphics_family.isSome && indices.present_family.isSome &&
      decide (support.formats ≠ []) && decide (support.present_modes ≠ [])
  | _, _ => false

/-- Every surface query the program makes about the device answers success. -/
def queries_succeed (device : PhysicalDevice) : Bool :=
  device.queueFamilies.all (fun queueFamily =>
    decide (queueFamily.surfaceSupport.result = vk.Result.eSuccess)) &&
  decide (device.surfaceCapabilities.result = vk.Result.eSuccess) &&
  decide (device.surfaceFormats.result = vk.Result.eSuccess) &&
  decide (device.surfacePresentModes.result = vk.Result.eSuccess)

/-! ## Calls into the libraries -/

/-- Value `VK_KHR_PORTABILITY_ENUMERATION_EXTENSION_NAME`. -/
def VK_KHR_PORTABILITY_ENUMERATION_EXTENSION_NAME : String := "VK_KHR_portability_enumeration"

/-- Value `VK_KHR_GET_PHYSICAL_DEVICE_PROPERTIES_2_EXTENSION_NAME`. -/
def VK_KHR_GET_PHYSICAL_DEVICE_PROPERTIES_2_EXTENSION_NAME : String :=
  "VK_KHR_get_physical_device_properties2"

/-- Value `VK_KHR_SWAPCHAIN_EXTENSION_NAME`. -/
def VK_KHR_SWAPCHAIN_EXTENSION_NAME : String := "VK_KHR_swapchain"

/-- The global `VALIDATION_LAYERS`. -/
def VALIDATION_LAYERS : List String := ["VK_LAYER_KHRONOS_validation"]

/-- Value `std::numeric_limits<uint64_t>::max()`. -/
def UINT64_MAX : Nat := 18446744073709551615

/-- Type `vk::SubmitInfo`, as `draw_frame` fills it. -/
structure SubmitInfo where
  waitSemaphores : List Nat
  waitDstStageMask : List Nat
  commandBuffers : List Nat
  signalSemaphores : List Nat
deriving DecidableEq, Repr

/-- Type `vk::PresentInfoKHR`, as `draw_frame` fills it. -/
structure PresentInfoKHR where
  waitSemaphores : List Nat
  swapchains : List Nat
  imageIndices : List Nat
deriving DecidableEq, Repr

/-- One shader stage of the pipeline create info. -/
structure PipelineShaderStageCreateInfo where
  stage : Nat
  module : Nat
  pName : String
deriving DecidableEq, Repr

/-- Type `vk::GraphicsPipelineCreateInfo` with the state objects it points
to, as `create_graphics_pipeline` fills them; the floating-point fields (line
width, depth bias, blend constants, viewport depth range) are left out. -/
structure GraphicsPipelineCreateInfo where
  stages : List PipelineShaderStageCreateInfo
  vertexBindingDescriptionCount : Nat
  vertexAttributeDescriptionCount : Nat
  topology : Nat
  viewportExtent : vk.Extent2D
  scissorExtent : vk.Extent2D
  polygonMode : Nat
  cullMode : Nat
  frontFace : Nat
  rasterizationSamples : Nat
  blendEnable : Bool
  colorWriteMask : Nat
  dynamicStates : List Nat
  layout : Nat
  renderPass : Nat
  subpass : Nat
deriving DecidableEq, Repr

/-- Type `vk::SwapchainCreateInfoKHR`, as `create_swap_chain` fills it. -/
structure SwapchainCreateInfoKHR where
  surface : Nat
  minImageCount : Nat
  imageFormat : vk.Format
  imageColorSpace : vk.ColorSpaceKHR
  imageExtent : vk.Extent2D
  imageArrayLayers : Nat
  imageUsage : Nat
  imageSharingMode : Nat
  preTransform : Nat
  compositeAlpha : Nat
  presentMode : vk.PresentModeKHR
  clipped : Bool
  oldSwapchain : Nat
deriving DecidableEq, Repr

/-- Type `vk::ImageViewCreateInfo`, as `create_image_views` fills it; the four
component swizzles are all identity. -/
structure ImageViewCreateInfo where
  image : Nat
  viewType : Nat
  format : vk.Format
  aspectMask : Nat
  baseMipLevel : Nat
  levelCount : Nat
  baseArrayLayer : Nat
  layerCount : Nat
deriving DecidableEq, Repr

/-- Type `vk::RenderPassCreateInfo` with its single attachment, subpass and
dependency, as `create_render_pass` fills them. -/
structure RenderPassCreateInfo where
  format : vk.Format
  samples : Nat
  loadOp : Nat
  storeOp : Nat
  initialLayout : Nat
  finalLayout : Nat
  colorAttachment : Nat
  colorAttachmentLayout : Nat
  srcSubpass : Nat
  dstSubpass : Nat
  srcStageMask : Nat
  srcAccessMask : Nat
  dstStageMask : Nat
  dstAccessMask : Nat
deriving DecidableEq, Repr

/-- Type `vk::FramebufferCreateInfo`, as `create_framebuffers` fills it. -/
structure FramebufferCreateInfo where
  renderPass : Nat
  attachments : List Nat
  width : Nat
  height : Nat
  layers : Nat
deriving DecidableEq, Repr

/-- A call the program makes only while it sets the application up or tears
it down: window and surface, the objects built on the swapchain,
synchronisation objects, and every destruction. -/
inductive LifecycleCall where
  | glfwInit
  | glfwCreateWindow (width height : Nat) (title : String)
  | glfwCreateWindowSurface (vkInstance window : Nat)
  | createSwapchainKHR (device : Nat) (info : SwapchainCreateInfoKHR)
  | getSwapchainImagesKHR (device swapchain : Nat)
  | createImageView (device : Nat) (info : ImageViewCreateInfo)
  | createRenderPass (device : Nat) (info : RenderPassCreateInfo)
  | createFramebuffer (device : Nat) (info : FramebufferCreateInfo)
  | createCommandPool (device flags queueFamilyIndex : Nat)
  | allocateCommandBuffers (device commandPool level commandBufferCount : Nat)
  | createSemaphore (device : Nat)
  | createFence (device flags : Nat)
  | waitIdle (device : Nat)
  | destroySemaphore (device semaphore : Nat)
  | destroyFence (device fence : Nat)
  | destroyCommandPool (device commandPool : Nat)
  | destroyFramebuffer (device framebuffer : Nat)
  | destroyPipeline (device pipeline : Nat)
  | destroyPipelineLayout (device pipelineLayout : Nat)
  | destroyRenderPass (device renderPass : Nat)
  | destroyImageView (device imageView : Nat)
  | destroySwapchainKHR (device swapchain : Nat)
  | destroySurfaceKHR (vkInstance surface : Nat)
  | destroyDevice (device : Nat)
  | destroyInstance (vkInstance : Nat)
  | glfwDestroyWindow (window : Nat)
  | glfwTerminate
deriving DecidableEq, Repr

/-- A call the program makes into Vulkan or GLFW, with the arguments that the
program chooses. -/
inductive Call where
  | enumerateInstanceExtensionProperties
  | enumerateInstanceLayerProperties
  | glfwVulkanSupported
  | glfwGetRequiredInstanceExtensions
  | createInstance (flags : Nat) (enabledExtensionNames enabledLayerNames : List String)
  | createDevice (physicalDevice queueFamilyIndex queueCount : Nat)
      (enabledExtensionNames enabledLayerNames : List String)
  | getQueue (device queueFamilyIndex queueIndex : Nat)
  | createShaderModule (device codeSize : Nat) (code : List Nat)
  | createPipelineLayout (device : Nat)
  | createGraphicsPipeline (device : Nat) (info : GraphicsPipelineCreateInfo)
  | destroyShaderModule (device module : Nat)
  | waitForFences (device : Nat) (fences : List Nat) (waitAll : Bool) (timeout : Nat)
  | resetFences (device : Nat) (fences : List Nat)
  | acquireNextImageKHR (device swapchain timeout semaphore fence : Nat)
  | commandBufferReset (commandBuffer flags : Nat)
  | commandBufferBegin (commandBuffer : Nat)
  | beginRenderPass (commandBuffer renderPass framebuffer : Nat) (renderArea : vk.Extent2D)
  | bindPipeline (commandBuffer pipeline : Nat)
  | setViewport (commandBuffer firstViewport : Nat) (extent : vk.Extent2D)
  | setScissor (commandBuffer firstScissor : Nat) (extent : vk.Extent2D)
  | draw (commandBuffer vertexCount instanceCount firstVertex firstInstance : Nat)
  | endRenderPass (commandBuffer : Nat)
  | commandBufferEnd (commandBuffer : Nat)
  | queueSubmit (queue : Nat) (submit : SubmitInfo) (fence : Nat)
  | queuePresentKHR (queue : Nat) (present : PresentInfoKHR)
  | glfwWindowShouldClose (window : Nat)
  | glfwPollEvents
  | lifecycle (c : LifecycleCall)
deriving DecidableEq, Repr

/-- Lifecycle call `glfwInit`, as a `Call`. -/
@[match_pattern] abbrev Call.glfwInit : Call :=
  Call.lifecycle (LifecycleCall.glfwInit)

/-- Lifecycle call `glfwCreateWindow`, as a `Call`. -/
@[match_pattern] abbrev Call.glfwCreateWindow (width height : Nat) (title : String) : Call :=
  Call.lifecycle (LifecycleCall.glfwCreateWindow width height title)

/-- Lifecycle call `glfwCreateWindowSurface`, as a `Call`. -/
@[match_pattern] abbrev Call.glfwCreateWindowSurface (vkInstance window : Nat) : Call :=
  Call.lifecycle (LifecycleCall.glfwCreateWindowSurface vkInstance window)

/-- Lifecycle call `createSwapchainKHR`, as a `Call`. -/
@[match_pattern] abbrev Call.createSwapchainKHR (device : Nat) (info : SwapchainCreateInfoKHR) : Call :=
  Call.lifecycle (LifecycleCall.createSwapchainKHR device info)

/-- Lifecycle call `getSwapchainImagesKHR`, as a `Call`. -/
@[match_pattern] abbrev Call.getSwapchainImagesKHR (device swapchain : Nat) : Call :=
  Call.lifecycle (LifecycleCall.getSwapchainImagesKHR device swapchain)

/-- Lifecycle call `createImageView`, as a `Call`. -/
@[match_pattern] abbrev Call.createImageView (device : Nat) (info : ImageViewCreateInfo) : Call :=
  Call.lifecycle (LifecycleCall.createImageView device info)

/-- Lifecycle call `createRenderPass`, as a `Call`. -/
@[match_pattern] abbrev Call.createRenderPass (device : Nat) (info : RenderPassCreateInfo) : Call :=
  Call.lifecycle (LifecycleCall.createRenderPass device info)

/-- Lifecycle call `createFramebuffer`, as a `Call`. -/
@[match_pattern] abbrev Call.createFramebuffer (device : Nat) (info : FramebufferCreateInfo) : Call :=
  Call.lifecycle (LifecycleCall.createFramebuffer device info)

/-- Lifecycle call `createCommandPool`, as a `Call`. -/
@[match_pattern] abbrev Call.createCommandPool (device flags queueFamilyIndex : Nat) : Call :=
  Call.lifecycle (LifecycleCall.createCommandPool device flags queueFamilyIndex)

/-- Lifecycle call `allocateCommandBuffers`, as a `Call`. -/
@[match_pattern] abbrev Call.allocateCommandBuffers (device commandPool level commandBufferCount : Nat) : Call :=
  Call.lifecycle (LifecycleCall.allocateCommandBuffers device commandPool level commandBufferCount)

/-- Lifecycle call `createSemaphore`, as a `Call`. -/
@[match_pattern] abbrev Call.createSemaphore (device : Nat) : Call :=
  Call.lifecycle (LifecycleCall.createSemaphore device)

/-- Lifecycle call `createFence`, as a `Call`. -/
@[match_pattern] abbrev Call.createFence (device flags : Nat) : Call :=
  Call.lifecycle (LifecycleCall.createFence device flags)

/-- Lifecycle call `waitIdle`, as a `Call`. -/
@[match_pattern] abbrev Call.waitIdle (device : Nat) : Call :=
  Call.lifecycle (LifecycleCall.waitIdle device)

/-- Lifecycle call `destroySemaphore`, as a `Call`. -/
@[match_pattern] abbrev Call.destroySemaphore (device semaphore : Nat) : Call :=
  Call.lifecycle (LifecycleCall.destroySemaphore device semaphore)

/-- Lifecycle call `destroyFence`, as a `Call`. -/
@[match_pattern] abbrev Call.destroyFence (device fence : Nat) : Call :=
  Call.lifecycle (LifecycleCall.destroyFence device fence)

/-- Lifecycle call `destroyCommandPool`, as a `Call`. -/
@[match_pattern] abbrev Call.destroyCommandPool (device commandPool : Nat) : Call :=
  Call.lifecycle (LifecycleCall.destroyCommandPool device commandPool)

/-- Lifecycle call `destroyFramebuffer`, as a `Call`. -/
@[match_pattern] abbrev Call.destroyFramebuffer (device framebuffer : Nat) : Call :=
  Call.lifecycle (LifecycleCall.destroyFramebuffer device framebuffer)

/-- Lifecycle call `destroyPipeline`, as a `Call`. -/
@[match_pattern] abbrev Call.destroyPipeline (device pipeline : Nat) : Call :=
  Call.lifecycle (LifecycleCall.destroyPipeline device pipeline)

/-- Lifecycle call `destroyPipelineLayout`, as a `Call`. -/
@[match_pattern] abbrev Call.destroyPipelineLayout (device pipelineLayout : Nat) : Call :=
  Call.lifecycle (LifecycleCall.destroyPipelineLayout device pipelineLayout)

/-- Lifecycle call `destroyRenderPass`, as a `Call`. -/
@[match_pattern] abbrev Call.destroyRenderPass (device renderPass : Nat) : Call :=
  Call.lifecycle (LifecycleCall.destroyRenderPass device renderPass)

/-- Lifecycle call `destroyImageView`, as a `Call`. -/
@[match_pattern] abbrev Call.destroyImageView (device imageView : Nat) : Call :=
  Call.lifecycle (LifecycleCall.destroyImageView device imageView)

/-- Lifecycle call `destroySwapchainKHR`, as a `Call`. -/
@[match_pattern] abbrev Call.destroySwapchainKHR (device swapchain : Nat) : Call :=
  Call.lifecycle (LifecycleCall.destroySwapchainKHR device swapchain)

/-- Lifecycle call `destroySurfaceKHR`, as a `Call`. -/
@[match_pattern] abbrev Call.destroySurfaceKHR (vkInstance surface : Nat) : Call :=
  Call.lifecycle (LifecycleCall.destroySurfaceKHR vkInstance surface)

/-- Lifecycle call `destroyDevice`, as a `Call`. -/
@[match_pattern] abbrev Call.destroyDevice (device : Nat) : Call :=
  Call.lifecycle (LifecycleCall.destroyDevice device)

/-- Lifecycle call `destroyInstance`, as a `Call`. -/
@[match_pattern] abbrev Call.destroyInstance (vkInstance : Nat) : Call :=
  Call.lifecycle (LifecycleCall.destroyInstance vkInstance)

/-- Lifecycle call `glfwDestroyWindow`, as a `Call`. -/
@[match_pattern] abbrev Call.glfwDestroyWindow (window : Nat) : Call :=
  Call.lifecycle (LifecycleCall.glfwDestroyWindow window)

/-- Lifecycle call `glfwTerminate`, as a `Call`. -/
@[match_pattern] abbrev Call.glfwTerminate : Call :=
  Call.lifecycle (LifecycleCall.glfwTerminate)

/-- A run of a method: the library calls it made, in order, and how it
ended. -/
structure Run (α : Type) where
  calls : List Call
  outcome : Outcome α
deriving DecidableEq, Repr

/-- A run that makes no call and returns. -/
def Run.pure {α : Type} (value : α) : Run α := ⟨[], Outcome.returned value⟩

/-- Sequencing: the second part runs only when the first returned. -/
def Run.bind {α β : Type} (first : Run α) (next : α → Run β) : Run β :=
  match first.outcome with
  | Outcome.returned value => ⟨first.calls ++ (next value).calls, (next value).outcome⟩
  | Outcome.exit_failure diagnostic => ⟨first.calls, Outcome.exit_failure diagnostic⟩
  | Outcome.uncaught exception => ⟨first.calls, Outcome.uncaught exception⟩
  | Outcome.undefined => ⟨first.calls, Outcome.undefined⟩

instance : Monad Run where
  pure := Run.pure
  bind := Run.bind

/-- One library call. -/
def call (c : Call) : Run Unit := ⟨[c], Outcome.returned ()⟩

/-- The program writes `diagnostic` to `std::cerr` and calls
`exit(EXIT_FAILURE)`. -/
def exit_failure {α : Type} (diagnostic : String) : Run α :=
  ⟨[], Outcome.exit_failure diagnostic⟩

/-- A method that makes no recorded call, as a run. -/
def Run.of {α : Type} (outcome : Outcome α) : Run α := ⟨[], outcome⟩

/-! ## The application object -/

/-- The data members of `LearnVulkanApp`.  Handles are naturals with `0` for
`VK_NULL_HANDLE`; the physical device is kept with the answers of its driver,
`none` being `VK_NULL_HANDLE`. -/
structure App where
  window : Nat
  instance_ : Nat
  supported_extensions : List vk.ExtensionProperties
  supported_layers : List vk.LayerProperties
  physical_device : Option PhysicalDevice
  surface : Nat
  device : Nat
  graphics_queue : Nat
  present_queue : Nat
  swapchain : Nat
  swapchain_image_format : vk.Format
  swapchain_extent : vk.Extent2D
  swapchain_images : List Nat
  swapchain_image_views : List Nat
  render_pass : Nat
  pipeline_layout : Nat
  graphics_pipeline : Nat
  swapchain_framebuffers : List Nat
  command_pool : Nat
  command_buffer : Nat
  sem_image_available : Nat
  sem_render_finished : Nat
  fence_in_flight : Nat
deriving DecidableEq, Repr

/-! ## Instance creation (`main.cc` lines 178-200, 224-305) -/

/-- Function `extension_supported`: `strcmp(...) == 0` is equality of the
names. -/
def extension_supported (supported_extensions : List vk.ExtensionProperties)
    (extension_name : String) : Bool :=
  match supported_extensions with
  | [] => false
  | extension :: more =>
    if extension.extensionName = extension_name then true
    else extension_supported more extension_name

/-- Function `layer_supported`. -/
def layer_supported (supported_layers : List vk.LayerProperties) (layer_name : String) : Bool :=
  match supported_layers with
  | [] => false
  | layer :: more =>
    if layer.layerName = layer_name then true
    else layer_supported more layer_name

/-- What the libraries answer during `create_instance`. -/
structure InstanceEnvironment where
  enumerateInstanceExtensionProperties : vk.ResultValue (List vk.ExtensionProperties)
  enumerateInstanceLayerProperties : vk.ResultValue (List vk.LayerProperties)
  glfwVulkanSupported : Bool
  glfwGetRequiredInstanceExtensions : Option (List String)
  createInstance : vk.ResultValue Nat
deriving DecidableEq, Repr

/-- The loop of `create_instance` over `required_extensions`. -/
def create_instance_extension_loop (supported_extensions : List vk.ExtensionProperties) :
    List String → Run Unit
  | [] => Run.pure ()
  | extension :: more =>
    if !extension_supported supported_extensions extension then
      exit_failure ("required extension not supported: " ++ extension)
    else create_instance_extension_loop supported_extensions more

/-- The loop of `create_instance` over `VALIDATION_LAYERS`. -/
def create_instance_layer_loop (supported_layers : List vk.LayerProperties) :
    List String → Run Unit
  | [] => Run.pure ()
  | layer :: more =>
    if !layer_supported supported_layers layer then
      exit_failure ("required layer not supported: " ++ layer)
    else create_instance_layer_loop supported_layers more

/-- Function `create_instance`.  `ENABLE_VALIDATION_LAYERS` is the global
that the build sets from `NDEBUG`; `glfwGetRequiredInstanceExtensions` is
`none` when GLFW answers a null pointer. -/
def create_instance (app : App) (ENABLE_VALIDATION_LAYERS : Bool) (env : InstanceEnvironment) :
    Run App := do
  call Call.enumerateInstanceExtensionProperties
  let app := { app with supported_extensions := env.enumerateInstanceExtensionProperties.value }
  call Call.enumerateInstanceLayerProperties
  let app := { app with supported_layers := env.enumerateInstanceLayerProperties.value }
  call Call.glfwVulkanSupported
  if !env.glfwVulkanSupported then
    exit_failure "GLFW failed to find Vulkan support"
  call Call.glfwGetRequiredInstanceExtensions
  match env.glfwGetRequiredInstanceExtensions with
  | none => exit_failure "failed to get GLFW Vulkan extensions"
  | some glfw_extensions =>
    let required_extensions := glfw_extensions ++
      [VK_KHR_PORTABILITY_ENUMERATION_EXTENSION_NAME,
       VK_KHR_GET_PHYSICAL_DEVICE_PROPERTIES_2_EXTENSION_NAME]
    create_instance_extension_loop app.supported_extensions required_extensions
    if ENABLE_VALIDATION_LAYERS then
      create_instance_layer_loop app.supported_layers VALIDATION_LAYERS
    call (Call.createInstance vk.InstanceCreateFlagBits.eEnumeratePortabilityKHR
      required_extensions (if ENABLE_VALIDATION_LAYERS then VALIDATION_LAYERS else []))
    if env.createInstance.result ≠ vk.Result.eSuccess then
      exit_failure ("failed to create Vulkan instance: " ++ vk.to_string env.createInstance.result)
    pure { app with instance_ := env.createInstance.value }

/-- The names `create_instance` requires of the supported extensions: each
name supplied by GLFW, then the portability-enumeration and the
physical-device-properties-2 extension. -/
def create_instance_required (env : InstanceEnvironment) : List String :=
  env.glfwGetRequiredInstanceExtensions.getD [] ++
    [VK_KHR_PORTABILITY_ENUMERATION_EXTENSION_NAME,
     VK_KHR_GET_PHYSICAL_DEVICE_PROPERTIES_2_EXTENSION_NAME]

/-- Supported extensions, windowing extensions and an instance answer under
which instance creation succeeds. -/
def sample_instance_environment : InstanceEnvironment :=
  { enumerateInstanceExtensionProperties := ⟨vk.Result.eSuccess,
      [⟨"VK_KHR_surface", 25⟩, ⟨"VK_EXT_metal_surface", 3⟩,
       ⟨"VK_KHR_portability_enumeration", 1⟩, ⟨"VK_KHR_get_physical_device_properties2", 2⟩]⟩,
    enumerateInstanceLayerProperties := ⟨vk.Result.eSuccess,
      [⟨"VK_LAYER_KHRONOS_validation", 1⟩]⟩,
    glfwVulkanSupported := true,
    glfwGetRequiredInstanceExtensions := some ["VK_KHR_surface", "VK_EXT_metal_surface"],
    createInstance := ⟨vk.Result.eSuccess, 2⟩ }

/-! ## Logical device (`main.cc` lines 354-400) -/

/-- What the driver answers during `create_logical_device`. -/
structure DeviceEnvironment where
  createDevice : vk.ResultValue Nat
  getQueue : Nat → Nat → Nat

/-- Function `create_logical_device`.  The queue families are searched again
on the stored physical device; `.value()` on an empty optional throws
`std::bad_optional_access`, which nothing catches. -/
def create_logical_device (app : App) (ENABLE_VALIDATION_LAYERS : Bool)
    (env : DeviceEnvironment) : Run App :=
  match app.physical_device with
  | none => Run.of Outcome.undefined
  | some physical_device => do
    let indices ← Run.of (find_queue_families physical_device)
    if indices.graphics_family ≠ indices.present_family then
      exit_failure "graphics and present queues are different"
    match indices.graphics_family with
    | none => Run.of (Outcome.uncaught "std::bad_optional_access")
    | some graphics_family =>
      let device_extensions := ["VK_KHR_portability_subset", VK_KHR_SWAPCHAIN_EXTENSION_NAME]
      call (Call.createDevice physical_device.handle graphics_family 1 device_extensions
        (if ENABLE_VALIDATION_LAYERS then VALIDATION_LAYERS else []))
      if env.createDevice.result ≠ vk.Result.eSuccess then
        exit_failure "failed to create logical device"
      let app := { app with device := env.createDevice.value }
      call (Call.getQueue app.device graphics_family 0)
      let app := { app with graphics_queue := env.getQueue graphics_family 0 }
      match indices.present_family with
      | none => Run.of (Outcome.uncaught "std::bad_optional_access")
      | some present_family =>
        call (Call.getQueue app.device present_family 0)
        pure { app with present_queue := env.getQueue present_family 0 }

/-! ## Graphics pipeline (`main.cc` lines 40-57, 544-564, 608-731) -/

/-- Function `read_file`: `files` is the storage, answering the bytes of a
file by name, `none` when the file cannot be opened. -/
def read_file (files : String → Option (List Nat)) (filename : String) : Run (List Nat) :=
  match files filename with
  | none => exit_failure ("failed to open file: " ++ filename)
  | some buffer => Run.pure buffer

/-- Function `create_shader_module`; `created` is what `createShaderModule`
answers if the call is made. -/
def create_shader_module (app : App) (code : List Nat) (created : vk.ResultValue Nat) :
    Run Nat := do
  if code.length % 4 ≠ 0 then
    exit_failure "shader code size is not a multiple of 4"
  call (Call.createShaderModule app.device code.length code)
  if created.result ≠ vk.Result.eSuccess then
    exit_failure "failed to create shader module"
  pure created.value

/-- What storage and driver answer during `create_graphics_pipeline`: the
files, and the answers to the first and second `createShaderModule` call, to
`createPipelineLayout` and to `createGraphicsPipeline`. -/
structure PipelineEnvironment where
  files : String → Option (List Nat)
  createShaderModule_first : vk.ResultValue Nat
  createShaderModule_second : vk.ResultValue Nat
  createPipelineLayout : vk.ResultValue Nat
  createGraphicsPipeline : vk.ResultValue Nat

/-- Function `create_graphics_pipeline`.  Enumerations are the codes of the
Vulkan headers: vertex stage 1, fragment stage 16, triangle list 3, fill 0,
back-face culling 2, clockwise 1, one sample 1, write mask RGBA 15, dynamic
viewport 0 and scissor 1. -/
def create_graphics_pipeline (app : App) (env : PipelineEnvironment) : Run App := do
  let vert_code ← read_file env.files "shaders/tri.vert.spv"
  let frag_code ← read_file env.files "shaders/tri.frag.spv"
  let vert_module ← create_shader_module app vert_code env.createShaderModule_first
  let frag_module ← create_shader_module app frag_code env.createShaderModule_second
  call (Call.createPipelineLayout app.device)
  if env.createPipelineLayout.result ≠ vk.Result.eSuccess then
    exit_failure "failed to create pipeline layout"
  let app := { app with pipeline_layout := env.createPipelineLayout.value }
  call (Call.createGraphicsPipeline app.device
    { stages := [⟨1, vert_module, "main"⟩, ⟨16, frag_module, "main"⟩],
      vertexBindingDescriptionCount := 0,
      vertexAttributeDescriptionCount := 0,
      topology := 3,
      viewportExtent := app.swapchain_extent,
      scissorExtent := app.swapchain_extent,
      polygonMode := 0,
      cullMode := 2,
      frontFace := 1,
      rasterizationSamples := 1,
      blendEnable := false,
      colorWriteMask := 15,
      dynamicStates := [0, 1],
      layout := app.pipeline_layout,
      renderPass := app.render_pass,
      subpass := 0 })
  if env.createGraphicsPipeline.result ≠ vk.Result.eSuccess then
    exit_failure "failed to create graphics pipeline"
  let app := { app with graphics_pipeline := env.createGraphicsPipeline.value }
  call (Call.destroyShaderModule app.device vert_module)
  call (Call.destroyShaderModule app.device frag_module)
  pure app

/-- Whether a call is a shader module creation. -/
def Call.is_createShaderModule : Call → Bool
  | Call.createShaderModule _ _ _ => true
  | _ => false

/-- Whether a call is the instance creation. -/
def Call.is_createInstance : Call → Bool
  | Call.createInstance _ _ _ => true
  | _ => false

/-! ## Frame loop (`main.cc` lines 788-830, 860-914) -/

/-- Value `VK_PIPELINE_STAGE_COLOR_ATTACHMENT_OUTPUT_BIT`. -/
def vk.PipelineStageFlagBits.eColorAttachmentOutput : Nat := 1024

/-- What the driver answers during one `draw_frame`. -/
structure FrameEnvironment where
  waitForFences : vk.Result
  acquireNextImageKHR : vk.ResultValue Nat
  commandBufferBegin : vk.Result
  commandBufferEnd : vk.Result
  queueSubmit : vk.Result
  queuePresentKHR : vk.Result
deriving DecidableEq, Repr

/-- Function `record_command_buffer`.  The element access
`swapchain_framebuffers[image_index]` is undefined for an index out of
range. -/
def record_command_buffer (app : App) (command_buffer image_index : Nat)
    (env : FrameEnvironment) : Run Unit := do
  call (Call.commandBufferBegin command_buffer)
  if env.commandBufferBegin ≠ vk.Result.eSuccess then
    exit_failure "failed to begin recording command buffer"
  match app.swapchain_framebuffers[image_index]? with
  | none => Run.of Outcome.undefined
  | some framebuffer =>
    call (Call.beginRenderPass command_buffer app.render_pass framebuffer app.swapchain_extent)
    call (Call.bindPipeline command_buffer app.graphics_pipeline)
    call (Call.setViewport command_buffer 0 app.swapchain_extent)
    call (Call.setScissor command_buffer 0 app.swapchain_extent)
    call (Call.draw command_buffer 3 1 0 0)
    call (Call.endRenderPass command_buffer)
    call (Call.commandBufferEnd command_buffer)
    if env.commandBufferEnd ≠ vk.Result.eSuccess then
      exit_failure "failed to record command buffer"

/-- Function `draw_frame`. -/
def draw_frame (app : App) (env : FrameEnvironment) : Run Unit := do
  call (Call.waitForFences app.device [app.fence_in_flight] true UINT64_MAX)
  if env.waitForFences ≠ vk.Result.eSuccess then
    exit_failure "failed to wait for fence"
  call (Call.resetFences app.device [app.fence_in_flight])
  call (Call.acquireNextImageKHR app.device app.swapchain UINT64_MAX app.sem_image_available 0)
  if env.acquireNextImageKHR.result ≠ vk.Result.eSuccess then
    exit_failure "failed to acquire next image"
  let image_index := env.acquireNextImageKHR.value
  call (Call.commandBufferReset app.command_buffer 0)
  record_command_buffer app app.command_buffer image_index env
  call (Call.queueSubmit app.graphics_queue
    { waitSemaphores := [app.sem_image_available],
      waitDstStageMask := [vk.PipelineStageFlagBits.eColorAttachmentOutput],
      commandBuffers := [app.command_buffer],
      signalSemaphores := [app.sem_render_finished] }
    app.fence_in_flight)
  if env.queueSubmit ≠ vk.Result.eSuccess then
    exit_failure "failed to submit draw command buffer"
  call (Call.queuePresentKHR app.present_queue
    { waitSemaphores := [app.sem_render_finished],
      swapchains := [app.swapchain],
      imageIndices := [image_index] })
  if env.queuePresentKHR ≠ vk.Result.eSuccess then
    exit_failure "failed to present image"

/-- Function `main_loop`, for a window that answers "do not close" once per
element of `frames` and "close" after that; each element is what the driver
answers during that iteration. -/
def main_loop (app : App) : List FrameEnvironment → Run Unit
  | [] => call (Call.glfwWindowShouldClose app.window)
  | env :: later => do
    call (Call.glfwWindowShouldClose app.window)
    call Call.glfwPollEvents
    draw_frame app env
    main_loop app later

/-- An application object after initialisation, with distinct handles, a
swapchain of three images and three framebuffers. -/
def sample_app : App :=
  { window := 1, instance_ := 2, supported_extensions := [], supported_layers := [],
    physical_device := none, surface := 3, device := 4, graphics_queue := 5,
    present_queue := 5, swapchain := 6, swapchain_image_format := vk.Format.eB8G8R8A8Srgb,
    swapchain_extent := ⟨800, 600⟩, swapchain_images := [10, 11, 12],
    swapchain_image_views := [20, 21, 22], render_pass := 7, pipeline_layout := 8,
    graphics_pipeline := 9, swapchain_framebuffers := [30, 31, 32], command_pool := 13,
    command_buffer := 14, sem_image_available := 15, sem_render_finished := 16,
    fence_in_flight := 17 }

/-- Driver answers of a frame in which every call succeeds and image 1 is
acquired. -/
def sample_frame : FrameEnvironment :=
  { waitForFences := vk.Result.eSuccess, acquireNextImageKHR := ⟨vk.Result.eSuccess, 1⟩,
    commandBufferBegin := vk.Result.eSuccess, commandBufferEnd := vk.Result.eSuccess,
    queueSubmit := vk.Result.eSuccess, queuePresentKHR := vk.Result.eSuccess }

/-! ## Initialisation (`main.cc` lines 102-116, 207-222, 402-412, 463-542,
566-606, 733-786, 832-858) -/

/-- What GLFW, the storage and the driver answer during `init_window` and
`init_vulkan`.  `createImageView i` and `createFramebuffer i` are the answers
to the call made in loop iteration `i`; `glfwCreateWindow` is the window
pointer, `0` for `nullptr`. -/
structure VulkanEnvironment where
  glfwCreateWindow : Nat
  instance_answers : InstanceEnvironment
  glfwCreateWindowSurface : vk.ResultValue Nat
  devices : List PhysicalDevice
  device_answers : DeviceEnvironment
  framebuffer_width : Int
  framebuffer_height : Int
  createSwapchainKHR : vk.ResultValue Nat
  getSwapchainImagesKHR : vk.ResultValue (List Nat)
  createImageView : Nat → vk.ResultValue Nat
  createRenderPass : vk.ResultValue Nat
  pipeline_answers : PipelineEnvironment
  createFramebuffer : Nat → vk.ResultValue Nat
  createCommandPool : vk.ResultValue Nat
  allocateCommandBuffers : vk.ResultValue (List Nat)
  createSemaphore_first : vk.ResultValue Nat
  createSemaphore_second : vk.ResultValue Nat
  createFence : vk.ResultValue Nat

/-- Function `init_window`. -/
def init_window (app : App) (env : VulkanEnvironment) : Run App := do
  call Call.glfwInit
  call (Call.glfwCreateWindow 800 600 "Learn Vulkan")
  let app := { app with window := env.glfwCreateWindow }
  if app.window = 0 then
    exit_failure "failed to create window"
  pure app

/-- Function `create_surface`. -/
def create_surface (app : App) (env : VulkanEnvironment) : Run App := do
  call (Call.glfwCreateWindowSurface app.instance_ app.window)
  if env.glfwCreateWindowSurface.result ≠ vk.Result.eSuccess then
    exit_failure "failed to create window surface"
  pure { app with surface := env.glfwCreateWindowSurface.value }

/-- Function `create_swap_chain`.  Codes of the headers: colour attachment
usage 16, exclusive sharing 0, composite alpha of the first bit 1. -/
def create_swap_chain (app : App) (env : VulkanEnvironment) : Run App :=
  match app.physical_device with
  | none => Run.of Outcome.undefined
  | some physical_device => do
    let swap_chain_support ← Run.of (query_swap_chain_support physical_device)
    match choose_swap_surface_format swap_chain_support.formats with
    | none => Run.of Outcome.undefined
    | some surface_format =>
      let present_mode := choose_swap_present_mode swap_chain_support.present_modes
      match choose_swap_extent swap_chain_support.capabilities env.framebuffer_width
          env.framebuffer_height with
      | none => Run.of Outcome.undefined
      | some extent =>
        let image_count := create_swap_chain_image_count swap_chain_support.capabilities
        call (Call.createSwapchainKHR app.device
          { surface := app.surface,
            minImageCount := image_count,
            imageFormat := surface_format.format,
            imageColorSpace := surface_format.colorSpace,
            imageExtent := extent,
            imageArrayLayers := 1,
            imageUsage := 16,
            imageSharingMode := 0,
            preTransform := swap_chain_support.capabilities.currentTransform,
            compositeAlpha := 1,
            presentMode := present_mode,
            clipped := true,
            oldSwapchain := 0 })
        if env.createSwapchainKHR.result ≠ vk.Result.eSuccess then
          exit_failure "failed to create swap chain"
        let app := { app with swapchain := env.createSwapchainKHR.value }
        call (Call.getSwapchainImagesKHR app.device app.swapchain)
        if env.getSwapchainImagesKHR.result ≠ vk.Result.eSuccess then
          exit_failure "failed to get swapchain images"
        pure { app with
          swapchain_images := env.getSwapchainImagesKHR.value,
          swapchain_image_format := surface_format.format,
          swapchain_extent := extent }

/-- Method `std::vector::resize` on a vector of handles: the first `n`
elements, filled up with null handles. -/
def vector_resize (v : List Nat) (n : Nat) : List Nat :=
  v.take n ++ List.replicate (n - v.length) 0

/-- The loop of `create_image_views` from index `i` on; `images` are the
elements `swapchain_images[i]`, `swapchain_images[i + 1]`, ... still to
visit.  View type 1 is 2D, aspect 1 is colour. -/
def create_image_views_loop (env : VulkanEnvironment) :
    App → List Nat → Nat → Run App
  | app, [], _ => Run.pure app
  | app, image :: more, i => do
    call (Call.createImageView app.device
      { image := image, viewType := 1, format := app.swapchain_image_format,
        aspectMask := 1, baseMipLevel := 0, levelCount := 1, baseArrayLayer := 0,
        layerCount := 1 })
    if (env.createImageView i).result ≠ vk.Result.eSuccess then
      exit_failure "failed to create image views"
    create_image_views_loop env
      { app with
        swapchain_image_views := app.swapchain_image_views.set i (env.createImageView i).value }
      more (i + 1)

/-- Function `create_image_views`. -/
def create_image_views (app : App) (env : VulkanEnvironment) : Run App :=
  create_image_views_loop env
    { app with
      swapchain_image_views :=
        vector_resize app.swapchain_image_views app.swapchain_images.length }
    app.swapchain_images 0

/-- Function `create_render_pass`.  Codes of the headers: one sample 1, clear
1, store 0, layouts undefined 0, present source 1000001002 and colour
attachment optimal 2, external subpass 0xFFFFFFFF, colour attachment output
stage 1024, colour attachment write access 256. -/
def create_render_pass (app : App) (env : VulkanEnvironment) : Run App := do
  call (Call.createRenderPass app.device
    { format := app.swapchain_image_format, samples := 1, loadOp := 1, storeOp := 0,
      initialLayout := 0, finalLayout := 1000001002, colorAttachment := 0,
      colorAttachmentLayout := 2, srcSubpass := 4294967295, dstSubpass := 0,
      srcStageMask := 1024, srcAccessMask := 0, dstStageMask := 1024,
      dstAccessMask := 256 })
  if env.createRenderPass.result ≠ vk.Result.eSuccess then
    exit_failure "failed to create render pass"
  pure { app with render_pass := env.createRenderPass.value }

/-- The loop of `create_framebuffers`; `image_views` are the elements of
`swapchain_image_views` still to visit and `i` counts the iterations made. -/
def create_framebuffers_loop (env : VulkanEnvironment) :
    App → List Nat → Nat → Run App
  | app, [], _ => Run.pure app
  | app, image_view :: more, i => do
    call (Call.createFramebuffer app.device
      { renderPass := app.render_pass, attachments := [image_view],
        width := app.swapchain_extent.width, height := app.swapchain_extent.height,
        layers := 1 })
    if (env.createFramebuffer i).result ≠ vk.Result.eSuccess then
      exit_failure "failed to create framebuffer"
    create_framebuffers_loop env
      { app with
        swapchain_framebuffers :=
          app.swapchain_framebuffers ++ [(env.createFramebuffer i).value] }
      more (i + 1)

/-- Function `create_framebuffers`. -/
def create_framebuffers (app : App) (env : VulkanEnvironment) : Run App :=
  create_framebuffers_loop env app app.swapchain_image_views 0

/-- Function `create_command_pool`; flag 2 is "reset command buffer". -/
def create_command_pool (app : App) (env : VulkanEnvironment) : Run App :=
  match app.physical_device with
  | none => Run.of Outcome.undefined
  | some physical_device => do
    let queue_family_indices ← Run.of (find_queue_families physical_device)
    match queue_family_indices.graphics_family with
    | none => Run.of (Outcome.uncaught "std::bad_optional_access")
    | some graphics_family =>
      call (Call.createCommandPool app.device 2 graphics_family)
      if env.createCommandPool.result ≠ vk.Result.eSuccess then
        exit_failure "failed to create command pool"
      pure { app with command_pool := env.createCommandPool.value }

/-- Function `create_command_buffer`; level 0 is primary. -/
def create_command_buffer (app : App) (env : VulkanEnvironment) : Run App := do
  call (Call.allocateCommandBuffers app.device app.command_pool 0 1)
  if env.allocateCommandBuffers.result ≠ vk.Result.eSuccess ∨
      env.allocateCommandBuffers.value.length ≠ 1 then
    exit_failure "failed to allocate command buffers"
  match env.allocateCommandBuffers.value[0]? with
  | none => Run.of Outcome.undefined
  | some buffer => pure { app with command_buffer := buffer }

/-- Value `VK_FENCE_CREATE_SIGNALED_BIT`. -/
def vk.FenceCreateFlagBits.eSignaled : Nat := 1

/-- Function `create_sync_objects`. -/
def create_sync_objects (app : App) (env : VulkanEnvironment) : Run App := do
  call (Call.createSemaphore app.device)
  if env.createSemaphore_first.result ≠ vk.Result.eSuccess then
    exit_failure "failed to create image available semaphore"
  let app := { app with sem_image_available := env.createSemaphore_first.value }
  call (Call.createSemaphore app.device)
  if env.createSemaphore_second.result ≠ vk.Result.eSuccess then
    exit_failure "failed to create render finished semaphore"
  let app := { app with sem_render_finished := env.createSemaphore_second.value }
  call (Call.createFence app.device vk.FenceCreateFlagBits.eSignaled)
  if env.createFence.result ≠ vk.Result.eSuccess then
    exit_failure "failed to create in flight fence"
  pure { app with fence_in_flight := env.createFence.value }

/-- Function `init_vulkan`. -/
def init_vulkan (app : App) (ENABLE_VALIDATION_LAYERS : Bool) (env : VulkanEnvironment) :
    Run App := do
  let app ← create_instance app ENABLE_VALIDATION_LAYERS env.instance_answers
  let app ← create_surface app env
  let picked ← Run.of (pick_physical_device app.physical_device env.devices)
  let app := { app with physical_device := some picked }
  let app ← create_logical_device app ENABLE_VALIDATION_LAYERS env.device_answers
  let app ← create_swap_chain app env
  let app ← create_image_views app env
  let app ← create_render_pass app env
  let app ← create_graphics_pipeline app env.pipeline_answers
  let app ← create_framebuffers app env
  let app ← create_command_pool app env
  let app ← create_command_buffer app env
  create_sync_objects app env

/-! ## Teardown (`main.cc` lines 916-952) -/

/-- The calls of a range-for loop whose body is one call on the element. -/
def for_each_call (body : Nat → Call) (elements : List Nat) : Run Unit :=
  match elements with
  | [] => Run.pure ()
  | element :: more => do
    call (body element)
    for_each_call body more

/-- Function `cleanup`; `waitIdle` is what `device.waitIdle()` answers. -/
def cleanup (app : App) (waitIdle : vk.Result) : Run Unit := do
  call (Call.waitIdle app.device)
  if waitIdle ≠ vk.Result.eSuccess then
    exit_failure "failed to wait for device idle"
  call (Call.destroySemaphore app.device app.sem_render_finished)
  call (Call.destroySemaphore app.device app.sem_image_available)
  call (Call.destroyFence app.device app.fence_in_flight)
  call (Call.destroyCommandPool app.device app.command_pool)
  for_each_call (Call.destroyFramebuffer app.device) app.swapchain_framebuffers
  call (Call.destroyPipeline app.device app.graphics_pipeline)
  call (Call.destroyPipelineLayout app.device app.pipeline_layout)
  call (Call.destroyRenderPass app.device app.render_pass)
  for_each_call (Call.destroyImageView app.device) app.swapchain_image_views
  call (Call.destroySwapchainKHR app.device app.swapchain)
  call (Call.destroySurfaceKHR app.instance_ app.surface)
  call (Call.destroyDevice app.device)
  call (Call.destroyInstance app.instance_)
  call (Call.glfwDestroyWindow app.window)
  call Call.glfwTerminate

/-- The application object as `LearnVulkanApp app;` constructs it: null
handles and empty vectors. -/
def App.constructed : App :=
  { window := 0, instance_ := 0, supported_extensions := [], supported_layers := [],
    physical_device := none, surface := 0, device := 0, graphics_queue := 0,
    present_queue := 0, swapchain := 0, swapchain_image_format := 0,
    swapchain_extent := ⟨0, 0⟩, swapchain_images := [], swapchain_image_views := [],
    render_pass := 0, pipeline_layout := 0, graphics_pipeline := 0,
    swapchain_framebuffers := [], command_pool := 0, command_buffer := 0,
    sem_image_available := 0, sem_render_finished := 0, fence_in_flight := 0 }

/-- Method `run`, for a window that stays open for `frames` iterations. -/
def run (ENABLE_VALIDATION_LAYERS : Bool) (env : VulkanEnvironment)
    (frames : List FrameEnvironment) (waitIdle : vk.Result) : Run Unit := do
  let app ← init_window App.constructed env
  let app ← init_vulkan app ENABLE_VALIDATION_LAYERS env
  main_loop app frames
  cleanup app waitIdle

/-- The kinds of object the program creates. -/
inductive ResourceKind where
  | window
  | vkInstance
  | surface
  | device
  | swapchain
  | image_view
  | render_pass
  | shader_module
  | pipeline_layout
  | pipeline
  | framebuffer
  | command_pool
  | command_buffer
  | semaphore
  | fence
deriving DecidableEq, Repr

/-- The kind of object a call creates, if it is a creation call. -/
def Call.creates : Call → Option ResourceKind
  | Call.glfwCreateWindow _ _ _ => some ResourceKind.window
  | Call.createInstance _ _ _ => some ResourceKind.vkInstance
  | Call.glfwCreateWindowSurface _ _ => some ResourceKind.surface
  | Call.createDevice _ _ _ _ _ => some ResourceKind.device
  | Call.createSwapchainKHR _ _ => some ResourceKind.swapchain
  | Call.createImageView _ _ => some ResourceKind.image_view
  | Call.createRenderPass _ _ => some ResourceKind.render_pass
  | Call.createShaderModule _ _ _ => some ResourceKind.shader_module
  | Call.createPipelineLayout _ => some ResourceKind.pipeline_layout
  | Call.createGraphicsPipeline _ _ => some ResourceKind.pipeline
  | Call.createFramebuffer _ _ => some ResourceKind.framebuffer
  | Call.createCommandPool _ _ _ => some ResourceKind.command_pool
  | Call.allocateCommandBuffers _ _ _ _ => some ResourceKind.command_buffer
  | Call.createSemaphore _ => some ResourceKind.semaphore
  | Call.createFence _ _ => some ResourceKind.fence
  | _ => none

/-- The kind of object a call destroys, if it is a destruction call. -/
def Call.destroys : Call → Option ResourceKind
  | Call.destroyShaderModule _ _ => some ResourceKind.shader_module
  | Call.destroySemaphore _ _ => some ResourceKind.semaphore
  | Call.destroyFence _ _ => some ResourceKind.fence
  | Call.destroyCommandPool _ _ => some ResourceKind.command_pool
  | Call.destroyFramebuffer _ _ => some ResourceKind.framebuffer
  | Call.destroyPipeline _ _ => some ResourceKind.pipeline
  | Call.destroyPipelineLayout _ _ => some ResourceKind.pipeline_layout
  | Call.destroyRenderPass _ _ => some ResourceKind.render_pass
  | Call.destroyImageView _ _ => some ResourceKind.image_view
  | Call.destroySwapchainKHR _ _ => some ResourceKind.swapchain
  | Call.destroySurfaceKHR _ _ => some ResourceKind.surface
  | Call.destroyDevice _ => some ResourceKind.device
  | Call.destroyInstance _ => some ResourceKind.vkInstance
  | Call.glfwDestroyWindow _ => some ResourceKind.window
  | _ => none

/-- The fourteen calls of a frame that runs to its end, having acquired
`image_index` and found `framebuffer` at that index: wait, fence reset,
acquire, command buffer reset, the eight recording calls, submission,
present request. -/
def frame_calls (app : App) (image_index framebuffer : Nat) : List Call :=
  [Call.waitForFences app.device [app.fence_in_flight] true UINT64_MAX,
   Call.resetFences app.device [app.fence_in_flight],
   Call.acquireNextImageKHR app.device app.swapchain UINT64_MAX app.sem_image_available 0,
   Call.commandBufferReset app.command_buffer 0,
   Call.commandBufferBegin app.command_buffer,
   Call.beginRenderPass app.command_buffer app.render_pass framebuffer app.swapchain_extent,
   Call.bindPipeline app.command_buffer app.graphics_pipeline,
   Call.setViewport app.command_buffer 0 app.swapchain_extent,
   Call.setScissor app.command_buffer 0 app.swapchain_extent,
   Call.draw app.command_buffer 3 1 0 0,
   Call.endRenderPass app.command_buffer,
   Call.commandBufferEnd app.command_buffer,
   Call.queueSubmit app.graphics_queue
     { waitSemaphores := [app.sem_image_available],
       waitDstStageMask := [vk.PipelineStageFlagBits.eColorAttachmentOutput],
       commandBuffers := [app.command_buffer],
       signalSemaphores := [app.sem_render_finished] }
     app.fence_in_flight,
   Call.queuePresentKHR app.present_queue
     { waitSemaphores := [app.sem_render_finished],
       swapchains := [app.swapchain],
       imageIndices := [image_index] }]

/-- Whether a call is a fence wait. -/
def Call.is_waitForFences : Call → Bool
  | Call.waitForFences _ _ _ _ => true
  | _ => false

/-- Whether a call is an image acquire. -/
def Call.is_acquireNextImageKHR : Call → Bool
  | Call.acquireNextImageKHR _ _ _ _ _ => true
  | _ => false

/-- Whether a call is a queue submission. -/
def Call.is_queueSubmit : Call → Bool
  | Call.queueSubmit _ _ _ => true
  | _ => false

/-- Whether a call is a present request. -/
def Call.is_queuePresentKHR : Call → Bool
  | Call.queuePresentKHR _ _ => true
  | _ => false

/-! ## The in-flight fence as a protocol -/

/-- What a call means for one fence: its creation (signaled or not), a wait
on it, its reset, a submission that will signal it, or nothing. -/
inductive FenceEvent where
  | created (signaled : Bool)
  | wait
  | reset
  | submit
  | other
deriving DecidableEq, Repr

/-- The event of a call for the fence with handle `fence`.  The program makes
one `createFence` call, whose answer is that handle. -/
def Call.fence_event (fence : Nat) : Call → FenceEvent
  | Call.createFence _ flags =>
    FenceEvent.created (decide (flags &&& vk.FenceCreateFlagBits.eSignaled ≠ 0))
  | Call.waitForFences _ fences _ _ =>
    if fence ∈ fences then FenceEvent.wait else FenceEvent.other
  | Call.resetFences _ fences =>
    if fence ∈ fences then FenceEvent.reset else FenceEvent.other
  | Call.queueSubmit _ _ submitted =>
    if submitted = fence then FenceEvent.submit else FenceEvent.other
  | _ => FenceEvent.other

/-- The fence events of a sequence of calls. -/
def fence_events (fence : Nat) (calls : List Call) : List FenceEvent :=
  calls.map (Call.fence_event fence)

/-- Where the fence stands between two calls: not created yet; signaled from
its creation; waited on by the last call; reset with no submission since;
armed by exactly one submission since its reset. -/
inductive FenceStatus where
  | absent
  | signaled
  | waited
  | unsignaled
  | armed
deriving DecidableEq, Repr

/-- The single-submission protocol of a fence.  A wait is allowed on a fence
that is signaled or armed (never on a reset fence without submission, which
would block for ever); the only event allowed after a wait is the reset; a
submission is allowed only on a reset fence without submission.  `none`
rejects the event. -/
def fence_step : FenceStatus → FenceEvent → Option FenceStatus
  | FenceStatus.absent, FenceEvent.created true => some FenceStatus.signaled
  | FenceStatus.absent, FenceEvent.created false => some FenceStatus.unsignaled
  | FenceStatus.absent, FenceEvent.other => some FenceStatus.absent
  | FenceStatus.signaled, FenceEvent.wait => some FenceStatus.waited
  | FenceStatus.signaled, FenceEvent.other => some FenceStatus.signaled
  | FenceStatus.armed, FenceEvent.wait => some FenceStatus.waited
  | FenceStatus.armed, FenceEvent.other => some FenceStatus.armed
  | FenceStatus.waited, FenceEvent.reset => some FenceStatus.unsignaled
  | FenceStatus.unsignaled, FenceEvent.submit => some FenceStatus.armed
  | FenceStatus.unsignaled, FenceEvent.other => some FenceStatus.unsignaled
  | _, _ => none

/-- The protocol over a sequence of events: the status reached, or `none` as
soon as an event is rejected. -/
def fence_run : FenceStatus → List FenceEvent → Option FenceStatus
  | status, [] => some status
  | status, event :: later =>
    match fence_step status event with
    | none => none
    | some next => fence_run next later

/-- The place of a kind in the order in which `init_window` and `init_vulkan`
create objects. -/
def ResourceKind.creation_rank : ResourceKind → Nat
  | ResourceKind.window => 0
  | ResourceKind.vkInstance => 1
  | ResourceKind.surface => 2
  | ResourceKind.device => 3
  | ResourceKind.swapchain => 4
  | ResourceKind.image_view => 5
  | ResourceKind.render_pass => 6
  | ResourceKind.shader_module => 7
  | ResourceKind.pipeline_layout => 8
  | ResourceKind.pipeline => 9
  | ResourceKind.framebuffer => 10
  | ResourceKind.command_pool => 11
  | ResourceKind.command_buffer => 12
  | ResourceKind.semaphore => 13
  | ResourceKind.fence => 14

/-- The place of a kind in the order in which `cleanup` destroys objects;
shader modules and the command buffer, which `cleanup` does not destroy, come
last. -/
def ResourceKind.destruction_rank : ResourceKind → Nat
  | ResourceKind.semaphore => 0
  | ResourceKind.fence => 1
  | ResourceKind.command_pool => 2
  | ResourceKind.framebuffer => 3
  | ResourceKind.pipeline => 4
  | ResourceKind.pipeline_layout => 5
  | ResourceKind.render_pass => 6
  | ResourceKind.image_view => 7
  | ResourceKind.swapchain => 8
  | ResourceKind.surface => 9
  | ResourceKind.device => 10
  | ResourceKind.vkInstance => 11
  | ResourceKind.window => 12
  | ResourceKind.shader_module => 13
  | ResourceKind.command_buffer => 14

/-- The kinds of the objects that `init_window` and `init_vulkan` create, in
the order of the creation calls, for a swapchain of `n` images. -/
def creation_order (n : Nat) : List ResourceKind :=
  [ResourceKind.window, ResourceKind.vkInstance, ResourceKind.surface, ResourceKind.device,
   ResourceKind.swapchain] ++
  List.replicate n ResourceKind.image_view ++
  [ResourceKind.render_pass, ResourceKind.shader_module, ResourceKind.shader_module,
   ResourceKind.pipeline_layout, ResourceKind.pipeline] ++
  List.replicate n ResourceKind.framebuffer ++
  [ResourceKind.command_pool, ResourceKind.command_buffer, ResourceKind.semaphore,
   ResourceKind.semaphore, ResourceKind.fence]

/-- The kinds of the objects that `cleanup` destroys, in the order of the
destruction calls, for `n` framebuffers and `n` image views. -/
def destruction_order (n : Nat) : List ResourceKind :=
  [ResourceKind.semaphore, ResourceKind.semaphore, ResourceKind.fence,
   ResourceKind.command_pool] ++
  List.replicate n ResourceKind.framebuffer ++
  [ResourceKind.pipeline, ResourceKind.pipeline_layout, ResourceKind.render_pass] ++
  List.replicate n ResourceKind.image_view ++
  [ResourceKind.swapchain, ResourceKind.surface, ResourceKind.device,
   ResourceKind.vkInstance, ResourceKind.window]

/-- Every driver call of the frame answers success, and the acquired image
index is the index of a framebuffer. -/
def frame_succeeds (app : App) (env : FrameEnvironment) : Bool :=
  decide (env.waitForFences = vk.Result.eSuccess) &&
  decide (env.acquireNextImageKHR.result = vk.Result.eSuccess) &&
  decide (env.commandBufferBegin = vk.Result.eSuccess) &&
  decide (env.commandBufferEnd = vk.Result.eSuccess) &&
  decide (env.queueSubmit = vk.Result.eSuccess) &&
  decide (env.queuePresentKHR = vk.Result.eSuccess) &&
  decide (env.acquireNextImageKHR.value < app.swapchain_framebuffers.length)

/-- Storage holding a vertex binary of 8 bytes and a fragment binary of 6
bytes. -/
def sample_files_short_fragment (filename : String) : Option (List Nat) :=
  if filename = "shaders/tri.vert.spv" then some [3, 2, 35, 7, 0, 0, 1, 0]
  else if filename = "shaders/tri.frag.spv" then some [3, 2, 35, 7, 0, 0]
  else none

/-- Driver answers under which every pipeline creation call succeeds, over
the storage with the short fragment binary. -/
def sample_pipeline_environment : PipelineEnvironment :=
  { files := sample_files_short_fragment,
    createShaderModule_first := ⟨vk.Result.eSuccess, 50⟩,
    createShaderModule_second := ⟨vk.Result.eSuccess, 51⟩,
    createPipelineLayout := ⟨vk.Result.eSuccess, 8⟩,
    createGraphicsPipeline := ⟨vk.Result.eSuccess, 9⟩ }

/-! ## Sample devices -/

/-- Surface capabilities of the sample devices. -/
def sample_capabilities : vk.SurfaceCapabilitiesKHR :=
  { minImageCount := 2, maxImageCount := 0, currentExtent := ⟨800, 600⟩,
    minImageExtent := ⟨1, 1⟩, maxImageExtent := ⟨4096, 4096⟩, currentTransform := 1 }

/-- A device with one queue family that is graphics-capable and can present,
one surface format and one present mode. -/
def sample_device_good : PhysicalDevice :=
  { handle := 1, deviceName := "good",
    queueFamilies := [⟨⟨7, 1⟩, ⟨vk.Result.eSuccess, true⟩⟩],
    surfaceCapabilities := ⟨vk.Result.eSuccess, sample_capabilities⟩,
    surfaceFormats := ⟨vk.Result.eSuccess,
      [⟨vk.Format.eB8G8R8A8Srgb, vk.ColorSpaceKHR.eSrgbNonlinear⟩]⟩,
    surfacePresentModes := ⟨vk.Result.eSuccess, [vk.PresentModeKHR.eFifo]⟩ }

/-- A device whose only queue family cannot present. -/
def sample_device_no_present : PhysicalDevice :=
  { sample_device_good with
    handle := 2, deviceName := "no present",
    queueFamilies := [⟨⟨7, 1⟩, ⟨vk.Result.eSuccess, false⟩⟩] }

/-- A device for which the surface support query answers
`VK_ERROR_SURFACE_LOST_KHR`. -/
def sample_device_surface_lost : PhysicalDevice :=
  { sample_device_good with
    handle := 3, deviceName := "surface lost",
    queueFamilies := [⟨⟨7, 1⟩, ⟨vk.Result.eErrorSurfaceLostKHR, false⟩⟩] }

/-- A device with a graphics-only family 0 and a present-only family 1. -/
def sample_device_split : PhysicalDevice :=
  { sample_device_good with
    handle := 4, deviceName := "split",
    queueFamilies := [⟨⟨1, 1⟩, ⟨vk.Result.eSuccess, false⟩⟩,
                      ⟨⟨4, 1⟩, ⟨vk.Result.eSuccess, true⟩⟩] }

/-- The last index, counted from `i`, of an element of the list that
satisfies `p`, or `found` when there is none: what a loop computes that
overwrites a variable at every element satisfying `p`. -/
def last_index_from (p : QueueFamily → Bool) : List QueueFamily → Nat → Option Nat → Option Nat
  | [], _, found => found
  | queueFamily :: more, i, found =>
    last_index_from p more (i + 1) (if p queueFamily then some i else found)

/-- Whether a queue family has the graphics flag. -/
def QueueFamily.is_graphics (queueFamily : QueueFamily) : Bool :=
  decide (queueFamily.properties.queueFlags &&& vk.QueueFlagBits.eGraphics ≠ 0)

/-- Whether a queue family can present to the surface. -/
def QueueFamily.can_present (queueFamily : QueueFamily) : Bool :=
  queueFamily.surfaceSupport.value

/-- A device with a family 0 that is graphics-capable and can present, and a
present-only family 1. -/
def sample_device_shared_then_present : PhysicalDevice :=
  { sample_device_good with
    handle := 5, deviceName := "shared then present",
    queueFamilies := [⟨⟨7, 1⟩, ⟨vk.Result.eSuccess, true⟩⟩,
                      ⟨⟨4, 1⟩, ⟨vk.Result.eSuccess, true⟩⟩] }

/-- Storage holding a vertex and a fragment binary of 8 bytes each. -/
def sample_files (filename : String) : Option (List Nat) :=
  if filename = "shaders/tri.vert.spv" then some [3, 2, 35, 7, 0, 0, 1, 0]
  else if filename = "shaders/tri.frag.spv" then some [3, 2, 35, 7, 0, 0, 1, 0]
  else none

/-- Answers under which `init_window` and `init_vulkan` run to their end on
one good device with a swapchain of three images. -/
def sample_environment : VulkanEnvironment :=
  { glfwCreateWindow := 1,
    instance_answers := sample_instance_environment,
    glfwCreateWindowSurface := ⟨vk.Result.eSuccess, 3⟩,
    devices := [sample_device_good],
    device_answers := ⟨⟨vk.Result.eSuccess, 4⟩, fun _ _ => 5⟩,
    framebuffer_width := 800,
    framebuffer_height := 600,
    createSwapchainKHR := ⟨vk.Result.eSuccess, 6⟩,
    getSwapchainImagesKHR := ⟨vk.Result.eSuccess, [10, 11, 12]⟩,
    createImageView := fun i => ⟨vk.Result.eSuccess, 20 + i⟩,
    createRenderPass := ⟨vk.Result.eSuccess, 7⟩,
    pipeline_answers :=
      { files := sample_files,
        createShaderModule_first := ⟨vk.Result.eSuccess, 50⟩,
        createShaderModule_second := ⟨vk.Result.eSuccess, 51⟩,
        createPipelineLayout := ⟨vk.Result.eSuccess, 8⟩,
        createGraphicsPipeline := ⟨vk.Result.eSuccess, 9⟩ },
    createFramebuffer := fun i => ⟨vk.Result.eSuccess, 30 + i⟩,
    createCommandPool := ⟨vk.Result.eSuccess, 13⟩,
    allocateCommandBuffers := ⟨vk.Result.eSuccess, [14]⟩,
    createSemaphore_first := ⟨vk.Result.eSuccess, 15⟩,
    createSemaphore_second := ⟨vk.Result.eSuccess, 16⟩,
    createFence := ⟨vk.Result.eSuccess, 17⟩ }

/-- The application object that initialisation produces under the sample
answers. -/
def sample_initialised : App :=
  { sample_app with
    supported_extensions := sample_instance_environment.enumerateInstanceExtensionProperties.value,
    supported_layers := sample_instance_environment.enumerateInstanceLayerProperties.value,
    physical_device := some sample_device_good }

/-! ## Theorems -/

/-- The loop of `choose_swap_surface_format` returns the preferred pair when
the list holds it. -/
theorem choose_swap_surface_format_loop_of_mem (fs : List vk.SurfaceFormatKHR)
    (h : (⟨vk.Format.eB8G8R8A8Srgb, vk.ColorSpaceKHR.eSrgbNonlinear⟩ : vk.SurfaceFormatKHR) ∈ fs) :
    choose_swap_surface_format_loop fs =
      some ⟨vk.Format.eB8G8R8A8Srgb, vk.ColorSpaceKHR.eSrgbNonlinear⟩ := by
  induction fs with
  | nil => simp at h
  | cons f more ih =>
    obtain ⟨fmt, cs⟩ := f
    by_cases hf : fmt = vk.Format.eB8G8R8A8Srgb ∧ cs = vk.ColorSpaceKHR.eSrgbNonlinear
    · simp [choose_swap_surface_format_loop, hf]
    · have hne : (⟨vk.Format.eB8G8R8A8Srgb, vk.ColorSpaceKHR.eSrgbNonlinear⟩ :
          vk.SurfaceFormatKHR) ≠ ⟨fmt, cs⟩ := by
        intro heq
        injection heq with h1 h2
        exact hf ⟨h1.symm, h2.symm⟩
      have hmem := (List.mem_cons.mp h).resolve_left hne
      simp only [choose_swap_surface_format_loop, if_neg hf]
      exact ih hmem

/-- The loop of `choose_swap_surface_format` runs to the end when the list
does not hold the preferred pair. -/
theorem choose_swap_surface_format_loop_of_not_mem (fs : List vk.SurfaceFormatKHR)
    (h : (⟨vk.Format.eB8G8R8A8Srgb, vk.ColorSpaceKHR.eSrgbNonlinear⟩ : vk.SurfaceFormatKHR) ∉ fs) :
    choose_swap_surface_format_loop fs = none := by
  induction fs with
  | nil => rfl
  | cons f more ih =>
    obtain ⟨fmt, cs⟩ := f
    have hf : ¬ (fmt = vk.Format.eB8G8R8A8Srgb ∧ cs = vk.ColorSpaceKHR.eSrgbNonlinear) := by
      rintro ⟨h1, h2⟩
      exact h (by simp [h1, h2])
    simp only [choose_swap_surface_format_loop, if_neg hf]
    exact ih (fun hm => h (List.mem_cons_of_mem _ hm))

/-- C1: for every non-empty list of supported surface formats,
`choose_swap_surface_format` returns the (B8G8R8A8 sRGB, sRGB-nonlinear) pair
whenever the pair is an element of the list, at any position, and the first
element of the list when it is not. -/
theorem choose_swap_surface_format_spec (available_formats : List vk.SurfaceFormatKHR)
    (hne : available_formats ≠ []) :
    ((⟨vk.Format.eB8G8R8A8Srgb, vk.ColorSpaceKHR.eSrgbNonlinear⟩ : vk.SurfaceFormatKHR)
        ∈ available_formats →
      choose_swap_surface_format available_formats =
        some ⟨vk.Format.eB8G8R8A8Srgb, vk.ColorSpaceKHR.eSrgbNonlinear⟩) ∧
    ((⟨vk.Format.eB8G8R8A8Srgb, vk.ColorSpaceKHR.eSrgbNonlinear⟩ : vk.SurfaceFormatKHR)
        ∉ available_formats →
      ∃ first rest, available_formats = first :: rest ∧
        choose_swap_surface_format available_formats = some first) := by
  constructor
  · intro h
    simp [choose_swap_surface_format, choose_swap_surface_format_loop_of_mem _ h]
  · intro h
    cases available_formats with
    | nil => exact absurd rfl hne
    | cons first rest =>
      refine ⟨first, rest, rfl, ?_⟩
      simp [choose_swap_surface_format, choose_swap_surface_format_loop_of_not_mem _ h]

/-- Witness of C1: the preferred pair in third position of a list is
chosen. -/
theorem choose_swap_surface_format_spec_witness :
    choose_swap_surface_format
        [⟨vk.Format.eB8G8R8A8Unorm, vk.ColorSpaceKHR.eSrgbNonlinear⟩,
         ⟨vk.Format.eB8G8R8A8Srgb, vk.ColorSpaceKHR.eDisplayP3NonlinearEXT⟩,
         ⟨vk.Format.eB8G8R8A8Srgb, vk.ColorSpaceKHR.eSrgbNonlinear⟩] =
      some ⟨vk.Format.eB8G8R8A8Srgb, vk.ColorSpaceKHR.eSrgbNonlinear⟩ :=
  (choose_swap_surface_format_spec
    [⟨vk.Format.eB8G8R8A8Unorm, vk.ColorSpaceKHR.eSrgbNonlinear⟩,
     ⟨vk.Format.eB8G8R8A8Srgb, vk.ColorSpaceKHR.eDisplayP3NonlinearEXT⟩,
     ⟨vk.Format.eB8G8R8A8Srgb, vk.ColorSpaceKHR.eSrgbNonlinear⟩]
    (by decide)).1 (by decide)

/-- C2: for every list of supported present modes, the empty list included,
`choose_swap_present_mode` returns mailbox if mailbox is an element of the
list and FIFO otherwise. -/
theorem choose_swap_present_mode_spec (available_present_modes : List vk.PresentModeKHR) :
    choose_swap_present_mode available_present_modes =
      if vk.PresentModeKHR.eMailbox ∈ available_present_modes then vk.PresentModeKHR.eMailbox
      else vk.PresentModeKHR.eFifo := by
  induction available_present_modes with
  | nil => simp [choose_swap_present_mode]
  | cons m more ih =>
    by_cases hm : m = vk.PresentModeKHR.eMailbox
    · simp [choose_swap_present_mode, hm]
    · have hm2 : ¬ vk.PresentModeKHR.eMailbox = m := fun h => hm h.symm
      simp only [choose_swap_present_mode, if_neg hm, ih, List.mem_cons, hm2, false_or]

/-- The cast of a non-negative C `int` to `uint32_t` keeps its value. -/
theorem static_cast_uint32_of_nonneg (x : Int) (h0 : 0 ≤ x) (h1 : x < 2147483648) :
    static_cast_uint32 x = x.toNat := by
  unfold static_cast_uint32
  rw [Int.emod_eq_of_lt h0 (by omega)]

/-- With `lo ≤ hi`, `std_clamp` is the usual clamp. -/
theorem std_clamp_of_le (v lo hi : Nat) (h : lo ≤ hi) :
    std_clamp v lo hi = some (max lo (min v hi)) := by
  unfold std_clamp
  split_ifs <;> first | omega | (simp only [Option.some.injEq]; omega)

/-- Counterexample to C3 as stated: the current extent (0xFFFFFFFF, 600) is
not the "any extent" sentinel, whose width and height are both 0xFFFFFFFF, yet
`choose_swap_extent` does not return it: the result is the clamped
framebuffer size and changes with the framebuffer size. -/
theorem choose_swap_extent_non_sentinel_counterexample :
    (⟨4294967295, 600⟩ : vk.Extent2D) ≠ ⟨UINT32_MAX, UINT32_MAX⟩ ∧
    choose_swap_extent
        { minImageCount := 2, maxImageCount := 0, currentExtent := ⟨4294967295, 600⟩,
          minImageExtent := ⟨1, 1⟩, maxImageExtent := ⟨4096, 4096⟩, currentTransform := 1 }
        800 480 = some ⟨800, 480⟩ ∧
    choose_swap_extent
        { minImageCount := 2, maxImageCount := 0, currentExtent := ⟨4294967295, 600⟩,
          minImageExtent := ⟨1, 1⟩, maxImageExtent := ⟨4096, 4096⟩, currentTransform := 1 }
        800 480 ≠ some ⟨4294967295, 600⟩ ∧
    choose_swap_extent
        { minImageCount := 2, maxImageCount := 0, currentExtent := ⟨4294967295, 600⟩,
          minImageExtent := ⟨1, 1⟩, maxImageExtent := ⟨4096, 4096⟩, currentTransform := 1 }
        1024 768 = some ⟨1024, 768⟩ := by
  decide

/-- C3, amended: for every surface capabilities value whose current extent has
a width other than 0xFFFFFFFF, and for every framebuffer size reported by the
window, `choose_swap_extent` returns exactly the surface-reported current
extent, independent of the framebuffer size. -/
theorem choose_swap_extent_current (capabilities : vk.SurfaceCapabilitiesKHR)
    (width height : Int) (h : capabilities.currentExtent.width ≠ UINT32_MAX) :
    choose_swap_extent capabilities width height = some capabilities.currentExtent := by
  unfold choose_swap_extent
  rw [if_pos h]

/-- Witness of C3 amended: an 800x600 current extent is returned whatever the
window reports. -/
theorem choose_swap_extent_current_witness :
    choose_swap_extent
        { minImageCount := 2, maxImageCount := 0, currentExtent := ⟨800, 600⟩,
          minImageExtent := ⟨1, 1⟩, maxImageExtent := ⟨4096, 4096⟩, currentTransform := 1 }
        1024 768 = some ⟨800, 600⟩ :=
  choose_swap_extent_current
    { minImageCount := 2, maxImageCount := 0, currentExtent := ⟨800, 600⟩,
      minImageExtent := ⟨1, 1⟩, maxImageExtent := ⟨4096, 4096⟩, currentTransform := 1 }
    1024 768 (by decide)

/-- C4: for every surface capabilities value whose current extent is the "any
extent" sentinel (0xFFFFFFFF, 0xFFFFFFFF), with minimum image extent
component-wise at most the maximum image extent, and for every non-negative
framebuffer size (W, H) of C `int`s, `choose_swap_extent` returns
(clamp(W, min.width, max.width), clamp(H, min.height, max.height)), and each
component of the result lies within the surface's [min, max] bounds. -/
theorem choose_swap_extent_any (capabilities : vk.SurfaceCapabilitiesKHR) (W H : Int)
    (hcur : capabilities.currentExtent = ⟨UINT32_MAX, UINT32_MAX⟩)
    (hw : capabilities.minImageExtent.width ≤ capabilities.maxImageExtent.width)
    (hh : capabilities.minImageExtent.height ≤ capabilities.maxImageExtent.height)
    (hW0 : 0 ≤ W) (hW1 : W < 2147483648) (hH0 : 0 ≤ H) (hH1 : H < 2147483648) :
    ∃ extent : vk.Extent2D,
      choose_swap_extent capabilities W H = some extent ∧
      extent.width = max capabilities.minImageExtent.width
        (min W.toNat capabilities.maxImageExtent.width) ∧
      extent.height = max capabilities.minImageExtent.height
        (min H.toNat capabilities.maxImageExtent.height) ∧
      capabilities.minImageExtent.width ≤ extent.width ∧
      extent.width ≤ capabilities.maxImageExtent.width ∧
      capabilities.minImageExtent.height ≤ extent.height ∧
      extent.height ≤ capabilities.maxImageExtent.height := by
  refine ⟨⟨max capabilities.minImageExtent.width (min W.toNat capabilities.maxImageExtent.width),
    max capabilities.minImageExtent.height (min H.toNat capabilities.maxImageExtent.height)⟩,
    ?_, rfl, rfl, ?_, ?_, ?_, ?_⟩
  · unfold choose_swap_extent
    rw [hcur, static_cast_uint32_of_nonneg W hW0 hW1, static_cast_uint32_of_nonneg H hH0 hH1,
      std_clamp_of_le _ _ _ hw, std_clamp_of_le _ _ _ hh]
    simp
  · simp only; omega
  · simp only; omega
  · simp only; omega
  · simp only; omega

/-- Witness of C4: a 5000x100 framebuffer against bounds [200, 4096] in both
directions is clamped to 4096x200. -/
theorem choose_swap_extent_any_witness :
    ∃ extent : vk.Extent2D,
      choose_swap_extent
          { minImageCount := 2, maxImageCount := 0,
            currentExtent := ⟨UINT32_MAX, UINT32_MAX⟩,
            minImageExtent := ⟨200, 200⟩, maxImageExtent := ⟨4096, 4096⟩,
            currentTransform := 1 }
          5000 100 = some extent ∧
      extent.width = 4096 ∧ extent.height = 200 := by
  obtain ⟨extent, h, hw, hh, _⟩ := choose_swap_extent_any
    { minImageCount := 2, maxImageCount := 0, currentExtent := ⟨UINT32_MAX, UINT32_MAX⟩,
      minImageExtent := ⟨200, 200⟩, maxImageExtent := ⟨4096, 4096⟩, currentTransform := 1 }
    5000 100 rfl (by decide) (by decide) (by decide) (by decide) (by decide) (by decide)
  exact ⟨extent, h, by simpa using hw, by simpa using hh⟩

/-- C5: for every minimum image count m < 2^32 - 1 and maximum image count M,
the image count requested by `create_swap_chain` is m + 1 when M = 0
(unbounded) or m + 1 ≤ M, and is M when M > 0 and m + 1 > M; in particular
(m = 2, M = 0) gives 3 and (m = 2, M = 2) gives 2. -/
theorem create_swap_chain_image_count_spec (capabilities : vk.SurfaceCapabilitiesKHR)
    (hm : capabilities.minImageCount < 2 ^ 32 - 1) :
    ((capabilities.maxImageCount = 0 ∨
        capabilities.minImageCount + 1 ≤ capabilities.maxImageCount) →
      create_swap_chain_image_count capabilities = capabilities.minImageCount + 1) ∧
    ((capabilities.maxImageCount > 0 ∧
        capabilities.minImageCount + 1 > capabilities.maxImageCount) →
      create_swap_chain_image_count capabilities = capabilities.maxImageCount) ∧
    (∀ extents transform,
      create_swap_chain_image_count
        { minImageCount := 2, maxImageCount := 0, currentExtent := extents,
          minImageExtent := extents, maxImageExtent := extents,
          currentTransform := transform } = 3 ∧
      create_swap_chain_image_count
        { minImageCount := 2, maxImageCount := 2, currentExtent := extents,
          minImageExtent := extents, maxImageExtent := extents,
          currentTransform := transform } = 2) := by
  have hmod : (capabilities.minImageCount + 1) % 4294967296 = capabilities.minImageCount + 1 :=
    Nat.mod_eq_of_lt (by omega)
  refine ⟨?_, ?_, ?_⟩
  · intro h
    unfold create_swap_chain_image_count
    simp only [hmod]
    split_ifs <;> omega
  · intro h
    unfold create_swap_chain_image_count
    simp only [hmod]
    split_ifs <;> omega
  · intro extents transform
    constructor <;> rfl

/-- Witness of C5: min = 3, max = 8 requests 4 images. -/
theorem create_swap_chain_image_count_spec_witness :
    create_swap_chain_image_count
      { minImageCount := 3, maxImageCount := 8, currentExtent := ⟨800, 600⟩,
        minImageExtent := ⟨1, 1⟩, maxImageExtent := ⟨4096, 4096⟩,
        currentTransform := 1 } = 4 :=
  (create_swap_chain_image_count_spec
    { minImageCount := 3, maxImageCount := 8, currentExtent := ⟨800, 600⟩,
      minImageExtent := ⟨1, 1⟩, maxImageExtent := ⟨4096, 4096⟩, currentTransform := 1 }
    (by decide)).1 (Or.inr (by decide))

/-- The queue family loop either returns or exits on a failed surface support
query. -/
theorem find_queue_families_loop_total (families : List QueueFamily) (i : Nat)
    (indices : QueueFamilyIndices) :
    (∃ found, find_queue_families_loop families i indices = Outcome.returned found) ∨
    find_queue_families_loop families i indices =
      Outcome.exit_failure "failed to get surface support" := by
  induction families generalizing i indices with
  | nil => exact Or.inl ⟨indices, rfl⟩
  | cons queueFamily more ih =>
    unfold find_queue_families_loop
    dsimp only
    split_ifs <;> first | exact ih _ _ | exact Or.inr rfl

/-- The queue family loop returns when every surface support query answers
success. -/
theorem find_queue_families_loop_returns (families : List QueueFamily) (i : Nat)
    (indices : QueueFamilyIndices)
    (h : ∀ queueFamily ∈ families, queueFamily.surfaceSupport.result = vk.Result.eSuccess) :
    ∃ found, find_queue_families_loop families i indices = Outcome.returned found := by
  induction families generalizing i indices with
  | nil => exact ⟨indices, rfl⟩
  | cons queueFamily more ih =>
    have hq := h queueFamily (List.mem_cons_self _ _)
    have hmore := fun q hmem => h q (List.mem_cons_of_mem _ hmem)
    unfold find_queue_families_loop
    dsimp only
    split_ifs <;> first | exact ih _ _ hmore | contradiction

/-- The swap chain support query either returns or exits. -/
theorem query_swap_chain_support_total (device : PhysicalDevice) :
    (∃ details, query_swap_chain_support device = Outcome.returned details) ∨
    (∃ diagnostic, query_swap_chain_support device = Outcome.exit_failure diagnostic) := by
  unfold query_swap_chain_support
  split_ifs
  · exact Or.inr ⟨_, rfl⟩
  · exact Or.inr ⟨_, rfl⟩
  · exact Or.inr ⟨_, rfl⟩
  · exact Or.inl ⟨_, rfl⟩

/-- Whatever `is_device_suitable` returns is what `suitable` says; when it
does not return, it exits and the device is not suitable. -/
theorem is_device_suitable_cases (device : PhysicalDevice) :
    is_device_suitable device = Outcome.returned (suitable device) ∨
    (suitable device = false ∧
      ∃ diagnostic, is_device_suitable device = Outcome.exit_failure diagnostic) := by
  unfold is_device_suitable suitable
  rcases find_queue_families_loop_total device.queueFamilies 0 ⟨none, none⟩ with
    ⟨found, hfound⟩ | hexit
  · rcases query_swap_chain_support_total device with ⟨details, hdetails⟩ | ⟨diagnostic, hdiag⟩
    · left
      simp only [find_queue_families, hfound, hdetails, QueueFamilyIndices.is_complete]
      cases details.formats <;> cases details.present_modes <;> simp
    · right
      simp [find_queue_families, hfound, hdiag]
  · right
    simp [find_queue_families, hexit]

/-- When all its queries succeed, `is_device_suitable` returns. -/
theorem is_device_suitable_of_queries_succeed (device : PhysicalDevice)
    (h : queries_succeed device = true) :
    is_device_suitable device = Outcome.returned (suitable device) := by
  rcases is_device_suitable_cases device with hret | ⟨_, diagnostic, hexit⟩
  · exact hret
  · exfalso
    simp only [queries_succeed, Bool.and_eq_true, List.all_eq_true, decide_eq_true_eq] at h
    obtain ⟨⟨⟨hfam, hcap⟩, hfmt⟩, hmodes⟩ := h
    obtain ⟨found, hfound⟩ :=
      find_queue_families_loop_returns device.queueFamilies 0 ⟨none, none⟩ hfam
    simp [is_device_suitable, find_queue_families, hfound, query_swap_chain_support,
      hcap, hfmt, hmodes] at hexit

/-- What the device loop returns is the first suitable device, or the member
it started with when it reached the end of the list. -/
theorem pick_physical_device_loop_returned (devices : List PhysicalDevice)
    (physical_device result : Option PhysicalDevice)
    (h : pick_physical_device_loop devices physical_device = Outcome.returned result) :
    (result = physical_device ∧ ∀ x ∈ devices, suitable x = false) ∨
    (∃ before picked after, devices = before ++ picked :: after ∧ result = some picked ∧
      suitable picked = true ∧ ∀ x ∈ before, suitable x = false) := by
  induction devices with
  | nil =>
    left
    simp only [pick_physical_device_loop, Outcome.returned.injEq] at h
    exact ⟨h.symm, by simp⟩
  | cons device more ih =>
    rcases is_device_suitable_cases device with hret | ⟨_, diagnostic, hexit⟩
    · cases hs : suitable device with
      | true =>
        right
        simp only [pick_physical_device_loop, hret, hs, Outcome.returned.injEq] at h
        exact ⟨[], device, more, rfl, h.symm, hs, by simp⟩
      | false =>
        simp only [pick_physical_device_loop, hret, hs] at h
        rcases ih h with ⟨hres, hall⟩ | ⟨before, picked, after, hsplit, hres, hpicked, hbefore⟩
        · left
          refine ⟨hres, ?_⟩
          intro x hx
          rcases List.mem_cons.mp hx with rfl | hx
          · exact hs
          · exact hall x hx
        · right
          refine ⟨device :: before, picked, after, by simp [hsplit], hres, hpicked, ?_⟩
          intro x hx
          rcases List.mem_cons.mp hx with rfl | hx
          · exact hs
          · exact hbefore x hx
    · simp [pick_physical_device_loop, hexit] at h

/-- The device loop stores the first suitable device when the queries of the
devices before it succeed. -/
theorem pick_physical_device_loop_first (before : List PhysicalDevice) (first : PhysicalDevice)
    (after : List PhysicalDevice) (physical_device : Option PhysicalDevice)
    (hfirst : suitable first = true)
    (hbefore : ∀ x ∈ before, suitable x = false ∧ queries_succeed x = true) :
    pick_physical_device_loop (before ++ first :: after) physical_device =
      Outcome.returned (some first) := by
  induction before with
  | nil =>
    rcases is_device_suitable_cases first with hret | ⟨hno, _⟩
    · simp [pick_physical_device_loop, hret, hfirst]
    · rw [hfirst] at hno
      exact absurd hno (by decide)
  | cons device more ih =>
    obtain ⟨hs, hq⟩ := hbefore device (List.mem_cons_self _ _)
    have hret := is_device_suitable_of_queries_succeed device hq
    rw [hs] at hret
    simp only [List.cons_append, pick_physical_device_loop, hret]
    exact ih (fun x hx => hbefore x (List.mem_cons_of_mem _ hx))

/-- The device loop, over devices none of which is suitable, reaches the end
of the list or exits on a failed query. -/
theorem pick_physical_device_loop_none (devices : List PhysicalDevice)
    (physical_device : Option PhysicalDevice)
    (h : ∀ x ∈ devices, suitable x = false) :
    pick_physical_device_loop devices physical_device = Outcome.returned physical_device ∨
    ∃ diagnostic,
      pick_physical_device_loop devices physical_device = Outcome.exit_failure diagnostic := by
  induction devices with
  | nil => exact Or.inl rfl
  | cons device more ih =>
    have hs := h device (List.mem_cons_self _ _)
    rcases is_device_suitable_cases device with hret | ⟨_, diagnostic, hexit⟩
    · rw [hs] at hret
      simp only [pick_physical_device_loop, hret]
      exact ih (fun x hx => h x (List.mem_cons_of_mem _ hx))
    · right
      exact ⟨diagnostic, by simp [pick_physical_device_loop, hexit]⟩

/-- A list holding a suitable device splits at its first suitable device. -/
theorem exists_first_suitable (devices : List PhysicalDevice)
    (h : ∃ x ∈ devices, suitable x = true) :
    ∃ before first after, devices = before ++ first :: after ∧ suitable first = true ∧
      ∀ x ∈ before, suitable x = false := by
  induction devices with
  | nil => simp at h
  | cons device more ih =>
    cases hs : suitable device with
    | true => exact ⟨[], device, more, rfl, hs, by simp⟩
    | false =>
      obtain ⟨x, hx, hsx⟩ := h
      rcases List.mem_cons.mp hx with rfl | hx
      · rw [hs] at hsx
        exact absurd hsx (by decide)
      · obtain ⟨before, first, after, hsplit, hfirst, hbefore⟩ := ih ⟨x, hx, hsx⟩
        refine ⟨device :: before, first, after, by simp [hsplit], hfirst, ?_⟩
        intro y hy
        rcases List.mem_cons.mp hy with rfl | hy
        · exact hs
        · exact hbefore y hy

/-- Selecting from a fresh application object returns the first suitable
device when the queries of the devices before it succeed. -/
theorem pick_physical_device_first (before : List PhysicalDevice) (first : PhysicalDevice)
    (after : List PhysicalDevice) (hfirst : suitable first = true)
    (hbefore : ∀ x ∈ before, suitable x = false ∧ queries_succeed x = true) :
    pick_physical_device none (before ++ first :: after) = Outcome.returned first := by
  unfold pick_physical_device
  rw [if_neg (by simp), pick_physical_device_loop_first before first after none hfirst hbefore]

/-- Selecting from a fresh application object exits when no device is
suitable. -/
theorem pick_physical_device_none (devices : List PhysicalDevice)
    (h : ∀ x ∈ devices, suitable x = false) :
    ∃ diagnostic, pick_physical_device none devices = Outcome.exit_failure diagnostic := by
  unfold pick_physical_device
  split_ifs
  · exact ⟨_, rfl⟩
  · rcases pick_physical_device_loop_none devices none h with hend | ⟨diagnostic, hexit⟩
    · exact ⟨_, by rw [hend]⟩
    · exact ⟨diagnostic, by rw [hexit]⟩

/-- Counterexample to C6 as stated: in the list (surface-lost device, good
device) the good device is the first, and only, device with complete queue
family indices and non-empty formats and present modes, but
`pick_physical_device` does not select it: the failed surface support query
of the device enumerated before it ends the process. -/
theorem pick_physical_device_query_failure_counterexample :
    suitable sample_device_surface_lost = false ∧
    suitable sample_device_good = true ∧
    sample_device_good ∈ [sample_device_surface_lost, sample_device_good] ∧
    pick_physical_device none [sample_device_surface_lost, sample_device_good] =
      Outcome.exit_failure "failed to get surface support" := by
  decide

/-- C6, amended: for every enumerated list of physical devices, a device that
`pick_physical_device` selects is the first device in enumeration order whose
QueueFamilyIndices is complete and whose surface support has non-empty format
and present-mode lists; that first suitable device is selected whenever the
surface queries of every device enumerated before it succeed; the operation
terminates fatally whenever the list holds no suitable device (the empty list
included); and when every surface query of every device succeeds it
terminates fatally exactly then. -/
theorem pick_physical_device_spec (devices : List PhysicalDevice) :
    (∀ picked, pick_physical_device none devices = Outcome.returned picked →
      ∃ before after, devices = before ++ picked :: after ∧ suitable picked = true ∧
        ∀ x ∈ before, suitable x = false) ∧
    (∀ before first after, devices = before ++ first :: after → suitable first = true →
      (∀ x ∈ before, suitable x = false ∧ queries_succeed x = true) →
      pick_physical_device none devices = Outcome.returned first) ∧
    ((∀ x ∈ devices, suitable x = false) →
      ∃ diagnostic, pick_physical_device none devices = Outcome.exit_failure diagnostic) ∧
    ((∀ x ∈ devices, queries_succeed x = true) →
      ((∃ diagnostic, pick_physical_device none devices = Outcome.exit_failure diagnostic) ↔
        ∀ x ∈ devices, suitable x = false)) := by
  refine ⟨?_, ?_, pick_physical_device_none devices, ?_⟩
  · intro picked h
    unfold pick_physical_device at h
    split_ifs at h
    cases hloop : pick_physical_device_loop devices none with
    | returned result =>
      rw [hloop] at h
      cases result with
      | none => simp at h
      | some stored =>
        simp only [Outcome.returned.injEq] at h
        subst h
        rcases pick_physical_device_loop_returned devices none (some stored) hloop with
          ⟨hres, _⟩ | ⟨before, picked, after, hsplit, hres, hpicked, hbefore⟩
        · simp at hres
        · simp only [Option.some.injEq] at hres
          subst hres
          exact ⟨before, after, hsplit, hpicked, hbefore⟩
    | exit_failure diagnostic => rw [hloop] at h; simp at h
    | uncaught exception => rw [hloop] at h; simp at h
    | undefined => rw [hloop] at h; simp at h
  · intro before first after hsplit hfirst hbefore
    rw [hsplit]
    exact pick_physical_device_first before first after hfirst hbefore
  · intro hq
    constructor
    · rintro ⟨diagnostic, hexit⟩
      by_contra hsome
      have hex : ∃ x ∈ devices, suitable x = true := by
        by_contra hnone
        apply hsome
        intro x hx
        cases hs : suitable x with
        | false => rfl
        | true => exact absurd ⟨x, hx, hs⟩ hnone
      obtain ⟨before, first, after, hsplit, hfirst, hbefore⟩ := exists_first_suitable devices hex
      have hpick := pick_physical_device_first before first after hfirst
        (fun x hx => ⟨hbefore x hx, hq x (by rw [hsplit]; simp [hx])⟩)
      rw [← hsplit, hexit] at hpick
      simp at hpick
    · exact pick_physical_device_none devices

/-- Witness of C6 amended: after a device that cannot present, whose queries
succeed, the good device is selected. -/
theorem pick_physical_device_spec_witness :
    pick_physical_device none [sample_device_no_present, sample_device_good] =
      Outcome.returned sample_device_good :=
  (pick_physical_device_spec [sample_device_no_present, sample_device_good]).2.1
    [sample_device_no_present] sample_device_good [] rfl (by decide) (by decide)

/-- Counterexample to C7 as stated: the sample device with a graphics-only
family 0 and a present-only family 1 has both indices present and different,
yet `is_device_suitable` returns true for it and `pick_physical_device`
selects it although a device with a shared family is enumerated after it. -/
theorem is_device_suitable_split_counterexample :
    find_queue_families sample_device_split = Outcome.returned ⟨some 0, some 1⟩ ∧
    is_device_suitable sample_device_split = Outcome.returned true ∧
    pick_physical_device none [sample_device_split, sample_device_good] =
      Outcome.returned sample_device_split := by
  decide

/-- C7, amended: a physical device whose computed graphics and present queue
family indices are both present but differ is not rejected by
`is_device_suitable`, which returns true for it exactly when its format and
present-mode lists are non-empty; in that case `pick_physical_device` selects
it when it is enumerated first; the difference is caught only by
`create_logical_device`, which terminates fatally for it before any device
creation call. -/
theorem is_device_suitable_split_spec (device : PhysicalDevice) (graphics present : Nat)
    (details : SwapChainSupportDetails)
    (hfind : find_queue_families device = Outcome.returned ⟨some graphics, some present⟩)
    (hne : graphics ≠ present)
    (hquery : query_swap_chain_support device = Outcome.returned details) :
    is_device_suitable device =
      Outcome.returned (decide (details.formats ≠ [] ∧ details.present_modes ≠ [])) ∧
    (details.formats ≠ [] → details.present_modes ≠ [] →
      ∀ after, pick_physical_device none (device :: after) = Outcome.returned device) ∧
    (∀ (app : App) (validation : Bool) (env : DeviceEnvironment),
      app.physical_device = some device →
      create_logical_device app validation env =
        ⟨[], Outcome.exit_failure "graphics and present queues are different"⟩) := by
  have hsuit : is_device_suitable device =
      Outcome.returned (decide (details.formats ≠ [] ∧ details.present_modes ≠ [])) := by
    simp only [is_device_suitable, hfind, hquery, QueueFamilyIndices.is_complete]
    cases details.formats <;> cases details.present_modes <;> simp
  refine ⟨hsuit, ?_, ?_⟩
  · intro hf hm after
    have htrue : is_device_suitable device = Outcome.returned true := by
      rw [hsuit]; simp [hf, hm]
    simp [pick_physical_device, pick_physical_device_loop, htrue]
  · intro app validation env hdev
    have hneq : (some graphics : Option Nat) ≠ some present := by
      intro h
      exact hne (Option.some.inj h)
    simp [create_logical_device, hdev, hfind, hneq, Run.of, bind, Run.bind, exit_failure]

/-- Witness of C7 amended, on the sample device with split families. -/
theorem is_device_suitable_split_spec_witness :
    is_device_suitable sample_device_split = Outcome.returned true ∧
    create_logical_device { sample_app with physical_device := some sample_device_split } true
        ⟨⟨vk.Result.eSuccess, 40⟩, fun _ _ => 41⟩ =
      ⟨[], Outcome.exit_failure "graphics and present queues are different"⟩ :=
  have h := is_device_suitable_split_spec sample_device_split 0 1
    { capabilities := sample_capabilities,
      formats := [⟨vk.Format.eB8G8R8A8Srgb, vk.ColorSpaceKHR.eSrgbNonlinear⟩],
      present_modes := [vk.PresentModeKHR.eFifo] }
    (by decide) (by decide) (by decide)
  ⟨h.1, h.2.2 _ true _ rfl⟩

/-- The extension search finds a name exactly when a supported entry has
it. -/
theorem extension_supported_iff (supported : List vk.ExtensionProperties) (name : String) :
    extension_supported supported name = true ↔
      ∃ e ∈ supported, e.extensionName = name := by
  induction supported with
  | nil => simp [extension_supported]
  | cons e more ih =>
    unfold extension_supported
    by_cases h : e.extensionName = name
    · simp [h]
    · simp [h, ih]

/-- The layer search finds a name exactly when a supported entry has it. -/
theorem layer_supported_iff (supported : List vk.LayerProperties) (name : String) :
    layer_supported supported name = true ↔ ∃ l ∈ supported, l.layerName = name := by
  induction supported with
  | nil => simp [layer_supported]
  | cons l more ih =>
    unfold layer_supported
    by_cases h : l.layerName = name
    · simp [h]
    · simp [h, ih]

/-- The extension loop returns when every name is supported and exits when
one is not; it makes no call. -/
theorem create_instance_extension_loop_cases (supported : List vk.ExtensionProperties)
    (names : List String) :
    ((∀ n ∈ names, extension_supported supported n = true) ∧
      create_instance_extension_loop supported names = ⟨[], Outcome.returned ()⟩) ∨
    ((∃ n ∈ names, extension_supported supported n = false) ∧
      ∃ diagnostic,
        create_instance_extension_loop supported names =
          ⟨[], Outcome.exit_failure diagnostic⟩) := by
  induction names with
  | nil => exact Or.inl ⟨by simp, rfl⟩
  | cons name more ih =>
    cases hs : extension_supported supported name with
    | false =>
      right
      exact ⟨⟨name, by simp, hs⟩, "required extension not supported: " ++ name,
        by simp [create_instance_extension_loop, hs, exit_failure]⟩
    | true =>
      rcases ih with ⟨hall, hret⟩ | ⟨⟨n, hn, hns⟩, diagnostic, hexit⟩
      · left
        refine ⟨?_, by simp [create_instance_extension_loop, hs, hret]⟩
        intro n hn
        rcases List.mem_cons.mp hn with rfl | hn
        · exact hs
        · exact hall n hn
      · right
        exact ⟨⟨n, List.mem_cons_of_mem _ hn, hns⟩, diagnostic,
          by simp [create_instance_extension_loop, hs, hexit]⟩

/-- The layer loop returns when every name is supported and exits when one is
not; it makes no call. -/
theorem create_instance_layer_loop_cases (supported : List vk.LayerProperties)
    (names : List String) :
    ((∀ n ∈ names, layer_supported supported n = true) ∧
      create_instance_layer_loop supported names = ⟨[], Outcome.returned ()⟩) ∨
    ((∃ n ∈ names, layer_supported supported n = false) ∧
      ∃ diagnostic,
        create_instance_layer_loop supported names = ⟨[], Outcome.exit_failure diagnostic⟩) := by
  induction names with
  | nil => exact Or.inl ⟨by simp, rfl⟩
  | cons name more ih =>
    cases hs : layer_supported supported name with
    | false =>
      right
      exact ⟨⟨name, by simp, hs⟩, "required layer not supported: " ++ name,
        by simp [create_instance_layer_loop, hs, exit_failure]⟩
    | true =>
      rcases ih with ⟨hall, hret⟩ | ⟨⟨n, hn, hns⟩, diagnostic, hexit⟩
      · left
        refine ⟨?_, by simp [create_instance_layer_loop, hs, hret]⟩
        intro n hn
        rcases List.mem_cons.mp hn with rfl | hn
        · exact hs
        · exact hall n hn
      · right
        exact ⟨⟨n, List.mem_cons_of_mem _ hn, hns⟩, diagnostic,
          by simp [create_instance_layer_loop, hs, hexit]⟩

/-- The four calls `create_instance` makes before it looks at the required
names. -/
theorem create_instance_no_glfw_vulkan (app : App) (validation : Bool)
    (env : InstanceEnvironment) (hv : env.glfwVulkanSupported = false) :
    create_instance app validation env =
      ⟨[Call.enumerateInstanceExtensionProperties, Call.enumerateInstanceLayerProperties,
        Call.glfwVulkanSupported],
       Outcome.exit_failure "GLFW failed to find Vulkan support"⟩ := by
  simp [create_instance, bind, Run.bind, call, exit_failure, hv]

/-- Without a list of windowing extensions `create_instance` exits. -/
theorem create_instance_no_glfw_extensions (app : App) (validation : Bool)
    (env : InstanceEnvironment) (hv : env.glfwVulkanSupported = true)
    (hg : env.glfwGetRequiredInstanceExtensions = none) :
    create_instance app validation env =
      ⟨[Call.enumerateInstanceExtensionProperties, Call.enumerateInstanceLayerProperties,
        Call.glfwVulkanSupported, Call.glfwGetRequiredInstanceExtensions],
       Outcome.exit_failure "failed to get GLFW Vulkan extensions"⟩ := by
  simp [create_instance, bind, Run.bind, call, exit_failure, hv, hg, pure, Run.pure]

/-- A failed extension loop ends `create_instance` after its four queries. -/
theorem create_instance_extension_missing (app : App) (validation : Bool)
    (env : InstanceEnvironment) (glfw_extensions : List String) (diagnostic : String)
    (hv : env.glfwVulkanSupported = true)
    (hg : env.glfwGetRequiredInstanceExtensions = some glfw_extensions)
    (hloop : create_instance_extension_loop env.enumerateInstanceExtensionProperties.value
      (glfw_extensions ++ [VK_KHR_PORTABILITY_ENUMERATION_EXTENSION_NAME,
        VK_KHR_GET_PHYSICAL_DEVICE_PROPERTIES_2_EXTENSION_NAME]) =
      ⟨[], Outcome.exit_failure diagnostic⟩) :
    create_instance app validation env =
      ⟨[Call.enumerateInstanceExtensionProperties, Call.enumerateInstanceLayerProperties,
        Call.glfwVulkanSupported, Call.glfwGetRequiredInstanceExtensions],
       Outcome.exit_failure diagnostic⟩ := by
  simp [create_instance, bind, Run.bind, call, exit_failure, hv, hg, pure, Run.pure, hloop]

/-- A failed layer loop ends `create_instance` after its four queries. -/
theorem create_instance_layer_missing (app : App)
    (env : InstanceEnvironment) (glfw_extensions : List String) (diagnostic : String)
    (hv : env.glfwVulkanSupported = true)
    (hg : env.glfwGetRequiredInstanceExtensions = some glfw_extensions)
    (hloop : create_instance_extension_loop env.enumerateInstanceExtensionProperties.value
      (glfw_extensions ++ [VK_KHR_PORTABILITY_ENUMERATION_EXTENSION_NAME,
        VK_KHR_GET_PHYSICAL_DEVICE_PROPERTIES_2_EXTENSION_NAME]) =
      ⟨[], Outcome.returned ()⟩)
    (hlayers : create_instance_layer_loop env.enumerateInstanceLayerProperties.value
      VALIDATION_LAYERS = ⟨[], Outcome.exit_failure diagnostic⟩) :
    create_instance app true env =
      ⟨[Call.enumerateInstanceExtensionProperties, Call.enumerateInstanceLayerProperties,
        Call.glfwVulkanSupported, Call.glfwGetRequiredInstanceExtensions],
       Outcome.exit_failure diagnostic⟩ := by
  simp [create_instance, bind, Run.bind, call, exit_failure, hv, hg, pure, Run.pure, hloop,
    hlayers]

/-- With every required name supported, `create_instance` makes the instance
creation call with the required extensions and, under validation, the
validation layers. -/
theorem create_instance_reaches_call (app : App) (validation : Bool)
    (env : InstanceEnvironment) (glfw_extensions : List String)
    (hv : env.glfwVulkanSupported = true)
    (hg : env.glfwGetRequiredInstanceExtensions = some glfw_extensions)
    (hloop : create_instance_extension_loop env.enumerateInstanceExtensionProperties.value
      (glfw_extensions ++ [VK_KHR_PORTABILITY_ENUMERATION_EXTENSION_NAME,
        VK_KHR_GET_PHYSICAL_DEVICE_PROPERTIES_2_EXTENSION_NAME]) =
      ⟨[], Outcome.returned ()⟩)
    (hlayers : validation = true →
      create_instance_layer_loop env.enumerateInstanceLayerProperties.value
        VALIDATION_LAYERS = ⟨[], Outcome.returned ()⟩) :
    (create_instance app validation env).calls =
      [Call.enumerateInstanceExtensionProperties, Call.enumerateInstanceLayerProperties,
        Call.glfwVulkanSupported, Call.glfwGetRequiredInstanceExtensions,
        Call.createInstance vk.InstanceCreateFlagBits.eEnumeratePortabilityKHR
          (glfw_extensions ++ [VK_KHR_PORTABILITY_ENUMERATION_EXTENSION_NAME,
            VK_KHR_GET_PHYSICAL_DEVICE_PROPERTIES_2_EXTENSION_NAME])
          (if validation = true then VALIDATION_LAYERS else [])] := by
  cases validation with
  | false =>
    by_cases hr : env.createInstance.result = vk.Result.eSuccess <;>
      simp [create_instance, bind, Run.bind, call, exit_failure, hv, hg, pure, Run.pure, hloop,
        hr]
  | true =>
    have hl := hlayers rfl
    by_cases hr : env.createInstance.result = vk.Result.eSuccess <;>
      simp [create_instance, bind, Run.bind, call, exit_failure, hv, hg, pure, Run.pure, hloop,
        hl, hr]

/-- None of the four queries that open `create_instance` is the instance
creation call. -/
theorem instance_queries_not_createInstance (c : Call)
    (h : c ∈ [Call.enumerateInstanceExtensionProperties, Call.enumerateInstanceLayerProperties,
      Call.glfwVulkanSupported, Call.glfwGetRequiredInstanceExtensions]) :
    c.is_createInstance = false := by
  simp only [List.mem_cons, List.mem_singleton, List.not_mem_nil, or_false] at h
  rcases h with rfl | rfl | rfl | rfl <;> rfl

/-- Every run of `create_instance` either exits without an instance creation
call, or has found every required name and made the call. -/
theorem create_instance_cases (app : App) (validation : Bool) (env : InstanceEnvironment) :
    ((∃ diagnostic,
        (create_instance app validation env).outcome = Outcome.exit_failure diagnostic) ∧
      ∀ c ∈ (create_instance app validation env).calls, c.is_createInstance = false) ∨
    ((∀ name ∈ create_instance_required env,
        extension_supported env.enumerateInstanceExtensionProperties.value name = true) ∧
      (validation = true → ∀ layer ∈ VALIDATION_LAYERS,
        layer_supported env.enumerateInstanceLayerProperties.value layer = true) ∧
      ∃ c ∈ (create_instance app validation env).calls, c.is_createInstance = true) := by
  cases hv : env.glfwVulkanSupported with
  | false =>
    left
    rw [create_instance_no_glfw_vulkan app validation env hv]
    exact ⟨⟨_, rfl⟩, fun c hc => instance_queries_not_createInstance c
      (by simp only [List.mem_cons, List.mem_singleton, List.not_mem_nil, or_false] at hc ⊢
          tauto)⟩
  | true =>
    cases hg : env.glfwGetRequiredInstanceExtensions with
    | none =>
      left
      rw [create_instance_no_glfw_extensions app validation env hv hg]
      exact ⟨⟨_, rfl⟩, fun c hc => instance_queries_not_createInstance c hc⟩
    | some glfw_extensions =>
      have hreq : create_instance_required env = glfw_extensions ++
          [VK_KHR_PORTABILITY_ENUMERATION_EXTENSION_NAME,
           VK_KHR_GET_PHYSICAL_DEVICE_PROPERTIES_2_EXTENSION_NAME] := by
        simp [create_instance_required, hg]
      rcases create_instance_extension_loop_cases env.enumerateInstanceExtensionProperties.value
          (glfw_extensions ++ [VK_KHR_PORTABILITY_ENUMERATION_EXTENSION_NAME,
            VK_KHR_GET_PHYSICAL_DEVICE_PROPERTIES_2_EXTENSION_NAME]) with
        ⟨hall, hret⟩ | ⟨_, diagnostic, hexit⟩
      · cases validation with
        | false =>
          right
          refine ⟨(by rw [hreq]; exact hall), (by intro h; cases h), ?_⟩
          rw [create_instance_reaches_call app false env glfw_extensions hv hg hret
            (by intro h; cases h)]
          exact ⟨Call.createInstance vk.InstanceCreateFlagBits.eEnumeratePortabilityKHR
            (glfw_extensions ++ [VK_KHR_PORTABILITY_ENUMERATION_EXTENSION_NAME,
              VK_KHR_GET_PHYSICAL_DEVICE_PROPERTIES_2_EXTENSION_NAME]) [], by simp, rfl⟩
        | true =>
          rcases create_instance_layer_loop_cases env.enumerateInstanceLayerProperties.value
              VALIDATION_LAYERS with ⟨hlall, hlret⟩ | ⟨_, diagnostic, hlexit⟩
          · right
            refine ⟨(by rw [hreq]; exact hall), fun _ => hlall, ?_⟩
            rw [create_instance_reaches_call app true env glfw_extensions hv hg hret
              (fun _ => hlret)]
            exact ⟨Call.createInstance vk.InstanceCreateFlagBits.eEnumeratePortabilityKHR
            (glfw_extensions ++ [VK_KHR_PORTABILITY_ENUMERATION_EXTENSION_NAME,
              VK_KHR_GET_PHYSICAL_DEVICE_PROPERTIES_2_EXTENSION_NAME]) VALIDATION_LAYERS,
              by simp, rfl⟩
          · left
            rw [create_instance_layer_missing app env glfw_extensions diagnostic hv hg hret
              hlexit]
            exact ⟨⟨_, rfl⟩, fun c hc => instance_queries_not_createInstance c hc⟩
      · left
        rw [create_instance_extension_missing app validation env glfw_extensions diagnostic
          hv hg hexit]
        exact ⟨⟨_, rfl⟩, fun c hc => instance_queries_not_createInstance c hc⟩

/-- C8: for every snapshot of supported instance extensions and layers and
every list of windowing-supplied extension names, `create_instance` reaches
the instance-creation call only if every required extension (each
windowing-supplied name, the portability-enumeration and the
physical-device-properties-2 extension) and, when validation is enabled,
every validation layer has a name equal to that of some entry of the
snapshot; if a required name is absent it terminates fatally without an
instance-creation call.  When GLFW supports Vulkan and supplies its list, and
every required name is present, the call is made. -/
theorem create_instance_spec (app : App) (validation : Bool) (env : InstanceEnvironment) :
    ((∃ c ∈ (create_instance app validation env).calls, c.is_createInstance = true) →
      (∀ name ∈ create_instance_required env,
        ∃ e ∈ env.enumerateInstanceExtensionProperties.value, e.extensionName = name) ∧
      (validation = true → ∀ layer ∈ VALIDATION_LAYERS,
        ∃ l ∈ env.enumerateInstanceLayerProperties.value, l.layerName = layer)) ∧
    (((∃ name ∈ create_instance_required env,
          ∀ e ∈ env.enumerateInstanceExtensionProperties.value, e.extensionName ≠ name) ∨
        (validation = true ∧ ∃ layer ∈ VALIDATION_LAYERS,
          ∀ l ∈ env.enumerateInstanceLayerProperties.value, l.layerName ≠ layer)) →
      (∃ diagnostic,
        (create_instance app validation env).outcome = Outcome.exit_failure diagnostic) ∧
      ∀ c ∈ (create_instance app validation env).calls, c.is_createInstance = false) ∧
    (env.glfwVulkanSupported = true → env.glfwGetRequiredInstanceExtensions ≠ none →
      (∀ name ∈ create_instance_required env,
        ∃ e ∈ env.enumerateInstanceExtensionProperties.value, e.extensionName = name) →
      (validation = true → ∀ layer ∈ VALIDATION_LAYERS,
        ∃ l ∈ env.enumerateInstanceLayerProperties.value, l.layerName = layer) →
      Call.createInstance vk.InstanceCreateFlagBits.eEnumeratePortabilityKHR
          (create_instance_required env)
          (if validation = true then VALIDATION_LAYERS else []) ∈
        (create_instance app validation env).calls) := by
  refine ⟨?_, ?_, ?_⟩
  · rintro ⟨c, hc, hci⟩
    rcases create_instance_cases app validation env with ⟨_, hno⟩ | ⟨hext, hlay, _⟩
    · rw [hno c hc] at hci
      exact absurd hci (by decide)
    · exact ⟨fun name hname => (extension_supported_iff _ _).mp (hext name hname),
        fun hval layer hlayer => (layer_supported_iff _ _).mp (hlay hval layer hlayer)⟩
  · intro hmissing
    rcases create_instance_cases app validation env with hexit | ⟨hext, hlay, _⟩
    · exact hexit
    · exfalso
      rcases hmissing with ⟨name, hname, habsent⟩ | ⟨hval, layer, hlayer, habsent⟩
      · obtain ⟨e, he, hen⟩ := (extension_supported_iff _ _).mp (hext name hname)
        exact habsent e he hen
      · obtain ⟨l, hl, hln⟩ := (layer_supported_iff _ _).mp (hlay hval layer hlayer)
        exact habsent l hl hln
  · intro hv hg hext hlay
    cases hgl : env.glfwGetRequiredInstanceExtensions with
    | none => exact absurd hgl hg
    | some glfw_extensions =>
      have hreq : create_instance_required env = glfw_extensions ++
          [VK_KHR_PORTABILITY_ENUMERATION_EXTENSION_NAME,
           VK_KHR_GET_PHYSICAL_DEVICE_PROPERTIES_2_EXTENSION_NAME] := by
        simp [create_instance_required, hgl]
      have hloop : create_instance_extension_loop env.enumerateInstanceExtensionProperties.value
          (glfw_extensions ++ [VK_KHR_PORTABILITY_ENUMERATION_EXTENSION_NAME,
            VK_KHR_GET_PHYSICAL_DEVICE_PROPERTIES_2_EXTENSION_NAME]) =
          ⟨[], Outcome.returned ()⟩ := by
        rcases create_instance_extension_loop_cases
            env.enumerateInstanceExtensionProperties.value
            (glfw_extensions ++ [VK_KHR_PORTABILITY_ENUMERATION_EXTENSION_NAME,
              VK_KHR_GET_PHYSICAL_DEVICE_PROPERTIES_2_EXTENSION_NAME]) with
          ⟨_, hret⟩ | ⟨⟨n, hn, hns⟩, _⟩
        · exact hret
        · have := (extension_supported_iff _ _).mpr (hext n (by rw [hreq]; exact hn))
          rw [hns] at this
          exact absurd this (by decide)
      have hlayers : validation = true →
          create_instance_layer_loop env.enumerateInstanceLayerProperties.value
            VALIDATION_LAYERS = ⟨[], Outcome.returned ()⟩ := by
        intro hval
        rcases create_instance_layer_loop_cases env.enumerateInstanceLayerProperties.value
            VALIDATION_LAYERS with ⟨_, hret⟩ | ⟨⟨n, hn, hns⟩, _⟩
        · exact hret
        · have := (layer_supported_iff _ _).mpr (hlay hval n hn)
          rw [hns] at this
          exact absurd this (by decide)
      rw [create_instance_reaches_call app validation env glfw_extensions hv hgl hloop hlayers,
        hreq]
      simp

/-- Witness of C8: with the sample snapshot every required name is present
and the call is made; without the validation layer in the snapshot the run
exits before it. -/
theorem create_instance_spec_witness :
    Call.createInstance 1
        ["VK_KHR_surface", "VK_EXT_metal_surface", "VK_KHR_portability_enumeration",
         "VK_KHR_get_physical_device_properties2"]
        ["VK_LAYER_KHRONOS_validation"] ∈
      (create_instance sample_app true sample_instance_environment).calls ∧
    ((∃ diagnostic,
        (create_instance sample_app true
          { sample_instance_environment with
            enumerateInstanceLayerProperties := ⟨vk.Result.eSuccess, []⟩ }).outcome =
          Outcome.exit_failure diagnostic) ∧
      ∀ c ∈ (create_instance sample_app true
          { sample_instance_environment with
            enumerateInstanceLayerProperties := ⟨vk.Result.eSuccess, []⟩ }).calls,
        c.is_createInstance = false) :=
  ⟨(create_instance_spec sample_app true sample_instance_environment).2.2
      rfl (by decide) (by decide) (by decide),
   (create_instance_spec sample_app true
      { sample_instance_environment with
        enumerateInstanceLayerProperties := ⟨vk.Result.eSuccess, []⟩ }).2.1
      (Or.inr ⟨rfl, "VK_LAYER_KHRONOS_validation", by decide, by decide⟩)⟩

/-- Counterexample to C9 as stated: with a vertex binary of 8 bytes and a
fragment binary of 6 bytes, the fragment length is not divisible by 4, yet
the run makes one shader-module-creation call (for the vertex binary) before
it terminates; the number of module-creation calls is 1, not 0. -/
theorem create_graphics_pipeline_short_fragment_counterexample :
    sample_pipeline_environment.files "shaders/tri.frag.spv" = some [3, 2, 35, 7, 0, 0] ∧
    [3, 2, 35, 7, 0, 0].length % 4 ≠ 0 ∧
    (create_graphics_pipeline sample_app sample_pipeline_environment).outcome =
      Outcome.exit_failure "shader code size is not a multiple of 4" ∧
    (create_graphics_pipeline sample_app sample_pipeline_environment).calls =
      [Call.createShaderModule 4 8 [3, 2, 35, 7, 0, 0, 1, 0]] ∧
    ((create_graphics_pipeline sample_app sample_pipeline_environment).calls.filter
      Call.is_createShaderModule).length = 1 := by
  decide

/-- C9, amended: for every pair of vertex and fragment shader binaries loaded
by `create_graphics_pipeline`, if either binary has a byte length not
divisible by 4 the process is terminated fatally before any
shader-module-creation call for that binary: when the vertex binary is the
one, the run makes no call at all; when the vertex length is divisible by 4
and the fragment length is not, the run makes exactly one call, the
module-creation call for the vertex binary, and then terminates. -/
theorem create_graphics_pipeline_shader_size_spec (app : App) (env : PipelineEnvironment)
    (vert_code frag_code : List Nat)
    (hvert : env.files "shaders/tri.vert.spv" = some vert_code)
    (hfrag : env.files "shaders/tri.frag.spv" = some frag_code) :
    (vert_code.length % 4 ≠ 0 →
      create_graphics_pipeline app env =
        ⟨[], Outcome.exit_failure "shader code size is not a multiple of 4"⟩) ∧
    (vert_code.length % 4 = 0 → frag_code.length % 4 ≠ 0 →
      (create_graphics_pipeline app env).calls =
        [Call.createShaderModule app.device vert_code.length vert_code] ∧
      ∃ diagnostic,
        (create_graphics_pipeline app env).outcome = Outcome.exit_failure diagnostic) := by
  constructor
  · intro hv
    simp [create_graphics_pipeline, read_file, create_shader_module, hvert, hfrag, hv, bind,
      Run.bind, Run.pure, exit_failure]
  · intro hv hf
    by_cases hr : env.createShaderModule_first.result = vk.Result.eSuccess
    · simp [create_graphics_pipeline, read_file, create_shader_module, hvert, hfrag, hv, hf,
        hr, bind, Run.bind, Run.pure, pure, exit_failure, call]
    · simp [create_graphics_pipeline, read_file, create_shader_module, hvert, hfrag, hv,
        hr, bind, Run.bind, Run.pure, pure, exit_failure, call]

/-- Witness of C9 amended: the sample storage with the 6-byte fragment
binary. -/
theorem create_graphics_pipeline_shader_size_spec_witness :
    (create_graphics_pipeline sample_app sample_pipeline_environment).calls =
      [Call.createShaderModule 4 8 [3, 2, 35, 7, 0, 0, 1, 0]] ∧
    ∃ diagnostic,
      (create_graphics_pipeline sample_app sample_pipeline_environment).outcome =
        Outcome.exit_failure diagnostic :=
  (create_graphics_pipeline_shader_size_spec sample_app sample_pipeline_environment
    [3, 2, 35, 7, 0, 0, 1, 0] [3, 2, 35, 7, 0, 0] rfl rfl).2 (by decide) (by decide)

/-- C10: for every iteration of the frame loop in which all GPU calls succeed
(the acquired index being that of a framebuffer), `draw_frame` performs
exactly one fence wait, one image acquire, one queue submission and one
present request, in that order, with the command buffer reset and re-recorded
between the acquire and the submission: its calls are exactly the fourteen
listed, and it returns. -/
theorem draw_frame_spec (app : App) (env : FrameEnvironment)
    (h : frame_succeeds app env = true) :
    ∃ framebuffer,
      app.swapchain_framebuffers[env.acquireNextImageKHR.value]? = some framebuffer ∧
      draw_frame app env =
        ⟨[Call.waitForFences app.device [app.fence_in_flight] true UINT64_MAX,
          Call.resetFences app.device [app.fence_in_flight],
          Call.acquireNextImageKHR app.device app.swapchain UINT64_MAX
            app.sem_image_available 0,
          Call.commandBufferReset app.command_buffer 0,
          Call.commandBufferBegin app.command_buffer,
          Call.beginRenderPass app.command_buffer app.render_pass framebuffer
            app.swapchain_extent,
          Call.bindPipeline app.command_buffer app.graphics_pipeline,
          Call.setViewport app.command_buffer 0 app.swapchain_extent,
          Call.setScissor app.command_buffer 0 app.swapchain_extent,
          Call.draw app.command_buffer 3 1 0 0,
          Call.endRenderPass app.command_buffer,
          Call.commandBufferEnd app.command_buffer,
          Call.queueSubmit app.graphics_queue
            { waitSemaphores := [app.sem_image_available],
              waitDstStageMask := [vk.PipelineStageFlagBits.eColorAttachmentOutput],
              commandBuffers := [app.command_buffer],
              signalSemaphores := [app.sem_render_finished] }
            app.fence_in_flight,
          Call.queuePresentKHR app.present_queue
            { waitSemaphores := [app.sem_render_finished],
              swapchains := [app.swapchain],
              imageIndices := [env.acquireNextImageKHR.value] }],
         Outcome.returned ()⟩ := by
  simp only [frame_succeeds, Bool.and_eq_true, decide_eq_true_eq] at h
  obtain ⟨⟨⟨⟨⟨⟨hwait, hacquire⟩, hbegin⟩, hend⟩, hsubmit⟩, hpresent⟩, hindex⟩ := h
  refine ⟨app.swapchain_framebuffers[env.acquireNextImageKHR.value], ?_, ?_⟩
  · exact List.getElem?_eq_getElem hindex
  · have hfb := List.getElem?_eq_getElem hindex
    simp [draw_frame, record_command_buffer, hwait, hacquire, hbegin, hend, hsubmit, hpresent,
      hfb, bind, Run.bind, Run.pure, pure, exit_failure, call]

/-- Witness of C10: the sample frame, which acquires image 1. -/
theorem draw_frame_spec_witness :
    ∃ framebuffer,
      sample_app.swapchain_framebuffers[sample_frame.acquireNextImageKHR.value]? =
        some framebuffer ∧
      (draw_frame sample_app sample_frame).calls.length = 14 ∧
      (draw_frame sample_app sample_frame).outcome = Outcome.returned () := by
  obtain ⟨framebuffer, hfb, hrun⟩ := draw_frame_spec sample_app sample_frame (by decide)
  exact ⟨framebuffer, hfb, by rw [hrun]; rfl, by rw [hrun]⟩

/-- A range-for loop of single calls makes one call per element, in the order
of the elements, and returns. -/
theorem for_each_call_eq (body : Nat → Call) (elements : List Nat) :
    for_each_call body elements = ⟨elements.map body, Outcome.returned ()⟩ := by
  induction elements with
  | nil => rfl
  | cons element more ih =>
    simp [for_each_call, ih, bind, Run.bind, call]

/-- The run of `cleanup` after a successful idle wait. -/
theorem cleanup_of_idle (app : App) :
    cleanup app vk.Result.eSuccess =
      ⟨[Call.waitIdle app.device,
        Call.destroySemaphore app.device app.sem_render_finished,
        Call.destroySemaphore app.device app.sem_image_available,
        Call.destroyFence app.device app.fence_in_flight,
        Call.destroyCommandPool app.device app.command_pool] ++
       app.swapchain_framebuffers.map (Call.destroyFramebuffer app.device) ++
       [Call.destroyPipeline app.device app.graphics_pipeline,
        Call.destroyPipelineLayout app.device app.pipeline_layout,
        Call.destroyRenderPass app.device app.render_pass] ++
       app.swapchain_image_views.map (Call.destroyImageView app.device) ++
       [Call.destroySwapchainKHR app.device app.swapchain,
        Call.destroySurfaceKHR app.instance_ app.surface,
        Call.destroyDevice app.device,
        Call.destroyInstance app.instance_,
        Call.glfwDestroyWindow app.window,
        Call.glfwTerminate],
       Outcome.returned ()⟩ := by
  simp [cleanup, for_each_call_eq, bind, Run.bind, call, pure, Run.pure]

/-- C15: after a successful idle wait, `cleanup` issues its destroy calls in
exactly this order: the semaphores (render-finished, image-available), the
fence, the command pool, every framebuffer, the pipeline, the pipeline
layout, the render pass, every image view, the swapchain, the surface, the
logical device, the instance, and finally the window; with pairwise distinct
framebuffers, image views and semaphores no call of the run occurs twice, so
each resource is destroyed exactly once. -/
theorem cleanup_order_spec (app : App) (waitIdle : vk.Result)
    (hidle : waitIdle = vk.Result.eSuccess) :
    cleanup app waitIdle =
      ⟨[Call.waitIdle app.device,
        Call.destroySemaphore app.device app.sem_render_finished,
        Call.destroySemaphore app.device app.sem_image_available,
        Call.destroyFence app.device app.fence_in_flight,
        Call.destroyCommandPool app.device app.command_pool] ++
       app.swapchain_framebuffers.map (Call.destroyFramebuffer app.device) ++
       [Call.destroyPipeline app.device app.graphics_pipeline,
        Call.destroyPipelineLayout app.device app.pipeline_layout,
        Call.destroyRenderPass app.device app.render_pass] ++
       app.swapchain_image_views.map (Call.destroyImageView app.device) ++
       [Call.destroySwapchainKHR app.device app.swapchain,
        Call.destroySurfaceKHR app.instance_ app.surface,
        Call.destroyDevice app.device,
        Call.destroyInstance app.instance_,
        Call.glfwDestroyWindow app.window,
        Call.glfwTerminate],
       Outcome.returned ()⟩ ∧
    (app.swapchain_framebuffers.Nodup → app.swapchain_image_views.Nodup →
      app.sem_render_finished ≠ app.sem_image_available →
      (cleanup app waitIdle).calls.Nodup) := by
  subst hidle
  refine ⟨cleanup_of_idle app, ?_⟩
  intro hfb hiv hsem
  rw [cleanup_of_idle]
  have hfbs : (app.swapchain_framebuffers.map (Call.destroyFramebuffer app.device)).Nodup :=
    hfb.map (fun a b h => by simpa using h)
  have hivs : (app.swapchain_image_views.map (Call.destroyImageView app.device)).Nodup :=
    hiv.map (fun a b h => by simpa using h)
  have hdisjoint : (app.swapchain_framebuffers.map (Call.destroyFramebuffer app.device)).Disjoint
      (app.swapchain_image_views.map (Call.destroyImageView app.device)) := by
    intro c h1 h2
    obtain ⟨a, _, rfl⟩ := List.mem_map.mp h1
    obtain ⟨b, _, hb⟩ := List.mem_map.mp h2
    cases hb
  simp [List.nodup_append, List.nodup_cons, hfbs, hivs, hsem, hdisjoint]

/-- Witness of C15: the sample application with three framebuffers and three
image views. -/
theorem cleanup_order_spec_witness :
    (cleanup sample_app vk.Result.eSuccess).calls =
      [Call.waitIdle 4, Call.destroySemaphore 4 16, Call.destroySemaphore 4 15,
       Call.destroyFence 4 17, Call.destroyCommandPool 4 13,
       Call.destroyFramebuffer 4 30, Call.destroyFramebuffer 4 31,
       Call.destroyFramebuffer 4 32, Call.destroyPipeline 4 9,
       Call.destroyPipelineLayout 4 8, Call.destroyRenderPass 4 7,
       Call.destroyImageView 4 20, Call.destroyImageView 4 21, Call.destroyImageView 4 22,
       Call.destroySwapchainKHR 4 6, Call.destroySurfaceKHR 2 3, Call.destroyDevice 4,
       Call.destroyInstance 2, Call.glfwDestroyWindow 1, Call.glfwTerminate] ∧
    (cleanup sample_app vk.Result.eSuccess).calls.Nodup :=
  ⟨congrArg Run.calls (cleanup_order_spec sample_app vk.Result.eSuccess rfl).1,
   (cleanup_order_spec sample_app vk.Result.eSuccess rfl).2
     (by decide) (by decide) (by decide)⟩

/-- C16: `cleanup` performs the device-idle wait before any destroy call: the
wait is the first call of every run; and if the wait answers a status other
than success the run is that one call followed by the fatal exit, with no
destroy call. -/
theorem cleanup_idle_wait_spec (app : App) (waitIdle : vk.Result) :
    (∃ rest, (cleanup app waitIdle).calls = Call.waitIdle app.device :: rest ∧
      (Call.waitIdle app.device).destroys = none) ∧
    (waitIdle ≠ vk.Result.eSuccess →
      cleanup app waitIdle =
        ⟨[Call.waitIdle app.device], Outcome.exit_failure "failed to wait for device idle"⟩ ∧
      ∀ c ∈ (cleanup app waitIdle).calls, c.destroys = none) := by
  constructor
  · by_cases h : waitIdle = vk.Result.eSuccess
    · subst h
      rw [cleanup_of_idle]
      exact ⟨_, rfl, rfl⟩
    · exact ⟨[], by simp [cleanup, h, bind, Run.bind, call, exit_failure], rfl⟩
  · intro h
    have hrun : cleanup app waitIdle =
        ⟨[Call.waitIdle app.device],
          Outcome.exit_failure "failed to wait for device idle"⟩ := by
      simp [cleanup, h, bind, Run.bind, call, exit_failure]
    refine ⟨hrun, ?_⟩
    rw [hrun]
    intro c hc
    simp only [List.mem_singleton] at hc
    subst hc
    rfl

/-- Witness of C16: an idle wait that answers `VK_ERROR_DEVICE_LOST`. -/
theorem cleanup_idle_wait_spec_witness :
    cleanup sample_app vk.Result.eErrorDeviceLost =
      ⟨[Call.waitIdle 4], Outcome.exit_failure "failed to wait for device idle"⟩ :=
  ((cleanup_idle_wait_spec sample_app vk.Result.eErrorDeviceLost).2 (by decide)).1

/-- The eight ways a frame can go. -/
theorem draw_frame_cases (app : App) (env : FrameEnvironment) :
    (env.waitForFences ≠ vk.Result.eSuccess ∧
      draw_frame app env =
        ⟨(frame_calls app env.acquireNextImageKHR.value 0).take 1,
          Outcome.exit_failure "failed to wait for fence"⟩) ∨
    (env.waitForFences = vk.Result.eSuccess ∧
      env.acquireNextImageKHR.result ≠ vk.Result.eSuccess ∧
      draw_frame app env =
        ⟨(frame_calls app env.acquireNextImageKHR.value 0).take 3,
          Outcome.exit_failure "failed to acquire next image"⟩) ∨
    (env.waitForFences = vk.Result.eSuccess ∧
      env.acquireNextImageKHR.result = vk.Result.eSuccess ∧
      env.commandBufferBegin ≠ vk.Result.eSuccess ∧
      draw_frame app env =
        ⟨(frame_calls app env.acquireNextImageKHR.value 0).take 5,
          Outcome.exit_failure "failed to begin recording command buffer"⟩) ∨
    (env.waitForFences = vk.Result.eSuccess ∧
      env.acquireNextImageKHR.result = vk.Result.eSuccess ∧
      env.commandBufferBegin = vk.Result.eSuccess ∧
      app.swapchain_framebuffers[env.acquireNextImageKHR.value]? = none ∧
      draw_frame app env =
        ⟨(frame_calls app env.acquireNextImageKHR.value 0).take 5, Outcome.undefined⟩) ∨
    (∃ framebuffer,
      env.waitForFences = vk.Result.eSuccess ∧
      env.acquireNextImageKHR.result = vk.Result.eSuccess ∧
      env.commandBufferBegin = vk.Result.eSuccess ∧
      app.swapchain_framebuffers[env.acquireNextImageKHR.value]? = some framebuffer ∧
      ((env.commandBufferEnd ≠ vk.Result.eSuccess ∧
        draw_frame app env =
          ⟨(frame_calls app env.acquireNextImageKHR.value framebuffer).take 12,
            Outcome.exit_failure "failed to record command buffer"⟩) ∨
       (env.commandBufferEnd = vk.Result.eSuccess ∧
        env.queueSubmit ≠ vk.Result.eSuccess ∧
        draw_frame app env =
          ⟨(frame_calls app env.acquireNextImageKHR.value framebuffer).take 13,
            Outcome.exit_failure "failed to submit draw command buffer"⟩) ∨
       (env.commandBufferEnd = vk.Result.eSuccess ∧
        env.queueSubmit = vk.Result.eSuccess ∧
        env.queuePresentKHR ≠ vk.Result.eSuccess ∧
        draw_frame app env =
          ⟨frame_calls app env.acquireNextImageKHR.value framebuffer,
            Outcome.exit_failure "failed to present image"⟩) ∨
       (env.commandBufferEnd = vk.Result.eSuccess ∧
        env.queueSubmit = vk.Result.eSuccess ∧
        env.queuePresentKHR = vk.Result.eSuccess ∧
        draw_frame app env =
          ⟨frame_calls app env.acquireNextImageKHR.value framebuffer,
            Outcome.returned ()⟩))) := by
  by_cases hwait : env.waitForFences = vk.Result.eSuccess
  swap
  · left
    exact ⟨hwait, by simp [draw_frame, frame_calls, hwait, bind, Run.bind, call, exit_failure]⟩
  right
  by_cases hacquire : env.acquireNextImageKHR.result = vk.Result.eSuccess
  swap
  · left
    exact ⟨hwait, hacquire, by
      simp [draw_frame, frame_calls, hwait, hacquire, bind, Run.bind, call, exit_failure,
        pure, Run.pure]⟩
  right
  by_cases hbegin : env.commandBufferBegin = vk.Result.eSuccess
  swap
  · left
    exact ⟨hwait, hacquire, hbegin, by
      simp [draw_frame, record_command_buffer, frame_calls, hwait, hacquire, hbegin, bind,
        Run.bind, call, exit_failure, pure, Run.pure]⟩
  right
  cases hfb : app.swapchain_framebuffers[env.acquireNextImageKHR.value]? with
  | none =>
    left
    exact ⟨hwait, hacquire, hbegin, rfl, by
      simp [draw_frame, record_command_buffer, frame_calls, hwait, hacquire, hbegin, hfb, bind,
        Run.bind, call, exit_failure, pure, Run.pure, Run.of]⟩
  | some framebuffer =>
    right
    refine ⟨framebuffer, hwait, hacquire, hbegin, rfl, ?_⟩
    by_cases hend : env.commandBufferEnd = vk.Result.eSuccess
    swap
    · left
      exact ⟨hend, by
        simp [draw_frame, record_command_buffer, frame_calls, hwait, hacquire, hbegin, hfb,
          hend, bind, Run.bind, call, exit_failure, pure, Run.pure, Run.of]⟩
    right
    by_cases hsubmit : env.queueSubmit = vk.Result.eSuccess
    swap
    · left
      exact ⟨hend, hsubmit, by
        simp [draw_frame, record_command_buffer, frame_calls, hwait, hacquire, hbegin, hfb,
          hend, hsubmit, bind, Run.bind, call, exit_failure, pure, Run.pure, Run.of]⟩
    right
    by_cases hpresent : env.queuePresentKHR = vk.Result.eSuccess
    swap
    · left
      exact ⟨hend, hsubmit, hpresent, by
        simp [draw_frame, record_command_buffer, frame_calls, hwait, hacquire, hbegin, hfb,
          hend, hsubmit, hpresent, bind, Run.bind, call, exit_failure, pure, Run.pure,
          Run.of]⟩
    right
    exact ⟨hend, hsubmit, hpresent, by
      simp [draw_frame, record_command_buffer, frame_calls, hwait, hacquire, hbegin, hfb,
        hend, hsubmit, hpresent, bind, Run.bind, call, exit_failure, pure, Run.pure,
        Run.of]⟩

/-- C12: in every frame, every submission that `draw_frame` makes waits on
exactly the image-available semaphore (the one passed to the acquire of that
frame) at the colour-attachment-output stage, carries exactly the one
command buffer that was recorded, signals exactly the render-finished
semaphore and is tied to the in-flight fence; every present request waits on
exactly the render-finished semaphore and presents exactly the image index
that the acquire of the same frame returned, which is the index whose
framebuffer the command buffer was recorded against.  In a frame whose calls
all succeed there is one such submission and one such present request. -/
theorem draw_frame_sync_spec (app : App) (env : FrameEnvironment) :
    (∀ device swapchain timeout semaphore fence,
      Call.acquireNextImageKHR device swapchain timeout semaphore fence ∈
          (draw_frame app env).calls →
        swapchain = app.swapchain ∧ semaphore = app.sem_image_available) ∧
    (∀ command_buffer,
      Call.commandBufferBegin command_buffer ∈ (draw_frame app env).calls →
        command_buffer = app.command_buffer) ∧
    (∀ command_buffer render_pass framebuffer area,
      Call.beginRenderPass command_buffer render_pass framebuffer area ∈
          (draw_frame app env).calls →
        command_buffer = app.command_buffer ∧
        app.swapchain_framebuffers[env.acquireNextImageKHR.value]? = some framebuffer) ∧
    (∀ queue submit fence,
      Call.queueSubmit queue submit fence ∈ (draw_frame app env).calls →
        queue = app.graphics_queue ∧
        submit =
          { waitSemaphores := [app.sem_image_available],
            waitDstStageMask := [vk.PipelineStageFlagBits.eColorAttachmentOutput],
            commandBuffers := [app.command_buffer],
            signalSemaphores := [app.sem_render_finished] } ∧
        fence = app.fence_in_flight) ∧
    (∀ queue present,
      Call.queuePresentKHR queue present ∈ (draw_frame app env).calls →
        queue = app.present_queue ∧
        present =
          { waitSemaphores := [app.sem_render_finished],
            swapchains := [app.swapchain],
            imageIndices := [env.acquireNextImageKHR.value] }) ∧
    (frame_succeeds app env = true →
      ((draw_frame app env).calls.filter Call.is_queueSubmit).length = 1 ∧
      ((draw_frame app env).calls.filter Call.is_queuePresentKHR).length = 1) := by
  rcases draw_frame_cases app env with
    ⟨h0, h⟩ | ⟨_, h0, h⟩ | ⟨_, _, h0, h⟩ | ⟨_, _, _, h0, h⟩ |
    ⟨framebuffer, _, _, _, hfb, ⟨h0, h⟩ | ⟨_, h0, h⟩ | ⟨_, _, h0, h⟩ | ⟨_, _, _, h⟩⟩
  all_goals
    rw [h]
    simp [frame_calls, frame_succeeds, Call.is_queueSubmit, Call.is_queuePresentKHR]
  all_goals
    try (clear h; simp_all)

/-- C13: in `draw_frame`, if the fence wait, the image acquire, the queue
submission or the present request answers a status other than success, the
run ends there with the fatal exit and none of the later steps is made: no
reset or acquire after a failed wait, no recording or submission after a
failed acquire, no present after a failed submission; no step occurs twice in
a frame, and `main_loop` runs no further frame after a fatal one. -/
theorem draw_frame_failure_spec (app : App) (env : FrameEnvironment) :
    (env.waitForFences ≠ vk.Result.eSuccess →
      draw_frame app env =
        ⟨[Call.waitForFences app.device [app.fence_in_flight] true UINT64_MAX],
          Outcome.exit_failure "failed to wait for fence"⟩) ∧
    (env.waitForFences = vk.Result.eSuccess →
      env.acquireNextImageKHR.result ≠ vk.Result.eSuccess →
      draw_frame app env =
        ⟨[Call.waitForFences app.device [app.fence_in_flight] true UINT64_MAX,
          Call.resetFences app.device [app.fence_in_flight],
          Call.acquireNextImageKHR app.device app.swapchain UINT64_MAX
            app.sem_image_available 0],
          Outcome.exit_failure "failed to acquire next image"⟩) ∧
    (∀ framebuffer,
      env.waitForFences = vk.Result.eSuccess →
      env.acquireNextImageKHR.result = vk.Result.eSuccess →
      env.commandBufferBegin = vk.Result.eSuccess →
      app.swapchain_framebuffers[env.acquireNextImageKHR.value]? = some framebuffer →
      env.commandBufferEnd = vk.Result.eSuccess →
      env.queueSubmit ≠ vk.Result.eSuccess →
      draw_frame app env =
        ⟨(frame_calls app env.acquireNextImageKHR.value framebuffer).take 13,
          Outcome.exit_failure "failed to submit draw command buffer"⟩ ∧
      ∀ c ∈ (draw_frame app env).calls, c.is_queuePresentKHR = false) ∧
    (∀ framebuffer,
      env.waitForFences = vk.Result.eSuccess →
      env.acquireNextImageKHR.result = vk.Result.eSuccess →
      env.commandBufferBegin = vk.Result.eSuccess →
      app.swapchain_framebuffers[env.acquireNextImageKHR.value]? = some framebuffer →
      env.commandBufferEnd = vk.Result.eSuccess →
      env.queueSubmit = vk.Result.eSuccess →
      env.queuePresentKHR ≠ vk.Result.eSuccess →
      draw_frame app env =
        ⟨frame_calls app env.acquireNextImageKHR.value framebuffer,
          Outcome.exit_failure "failed to present image"⟩) ∧
    (((draw_frame app env).calls.filter Call.is_waitForFences).length ≤ 1 ∧
      ((draw_frame app env).calls.filter Call.is_acquireNextImageKHR).length ≤ 1 ∧
      ((draw_frame app env).calls.filter Call.is_queueSubmit).length ≤ 1 ∧
      ((draw_frame app env).calls.filter Call.is_queuePresentKHR).length ≤ 1) ∧
    (∀ diagnostic, (draw_frame app env).outcome = Outcome.exit_failure diagnostic →
      ∀ later, main_loop app (env :: later) =
        ⟨Call.glfwWindowShouldClose app.window :: Call.glfwPollEvents ::
            (draw_frame app env).calls,
          Outcome.exit_failure diagnostic⟩) := by
  refine ⟨?_, ?_, ?_, ?_, ?_, ?_⟩
  · intro hwait
    simp [draw_frame, hwait, bind, Run.bind, call, exit_failure]
  · intro hwait hacquire
    simp [draw_frame, hwait, hacquire, bind, Run.bind, call, exit_failure, pure, Run.pure]
  · intro framebuffer hwait hacquire hbegin hfb hend hsubmit
    have hrun : draw_frame app env =
        ⟨(frame_calls app env.acquireNextImageKHR.value framebuffer).take 13,
          Outcome.exit_failure "failed to submit draw command buffer"⟩ := by
      simp [draw_frame, record_command_buffer, frame_calls, hwait, hacquire, hbegin, hfb,
        hend, hsubmit, bind, Run.bind, call, exit_failure, pure, Run.pure, Run.of]
    refine ⟨hrun, ?_⟩
    rw [hrun]
    simp [frame_calls, Call.is_queuePresentKHR]
  · intro framebuffer hwait hacquire hbegin hfb hend hsubmit hpresent
    simp [draw_frame, record_command_buffer, frame_calls, hwait, hacquire, hbegin, hfb,
      hend, hsubmit, hpresent, bind, Run.bind, call, exit_failure, pure, Run.pure, Run.of]
  · rcases draw_frame_cases app env with
      ⟨_, h⟩ | ⟨_, _, h⟩ | ⟨_, _, _, h⟩ | ⟨_, _, _, _, h⟩ |
      ⟨framebuffer, _, _, _, _, ⟨_, h⟩ | ⟨_, _, h⟩ | ⟨_, _, _, h⟩ | ⟨_, _, _, h⟩⟩
    all_goals
      rw [h]
      simp [frame_calls, Call.is_waitForFences, Call.is_acquireNextImageKHR,
        Call.is_queueSubmit, Call.is_queuePresentKHR]
  · intro diagnostic hexit later
    cases hrun : draw_frame app env with
    | mk calls outcome =>
      rw [hrun] at hexit
      simp only at hexit
      subst hexit
      simp [main_loop, hrun, bind, Run.bind, call]

/-- Witness of C12: the sample frame makes one submission and one present
request. -/
theorem draw_frame_sync_spec_witness :
    ((draw_frame sample_app sample_frame).calls.filter Call.is_queueSubmit).length = 1 ∧
    ((draw_frame sample_app sample_frame).calls.filter Call.is_queuePresentKHR).length = 1 :=
  (draw_frame_sync_spec sample_app sample_frame).2.2.2.2.2 (by decide)

/-- Witness of C13: a fence wait that answers `VK_TIMEOUT`. -/
theorem draw_frame_failure_spec_witness :
    draw_frame sample_app { sample_frame with waitForFences := vk.Result.eTimeout } =
      ⟨[Call.waitForFences 4 [17] true UINT64_MAX],
        Outcome.exit_failure "failed to wait for fence"⟩ :=
  (draw_frame_failure_spec sample_app
    { sample_frame with waitForFences := vk.Result.eTimeout }).1 (by decide)

/-- The protocol over a concatenation runs over the first part and then over
the second. -/
theorem fence_run_append (status : FenceStatus) (first second : List FenceEvent) :
    fence_run status (first ++ second) =
      (fence_run status first).bind (fun reached => fence_run reached second) := by
  induction first generalizing status with
  | nil => rfl
  | cons event later ih =>
    simp only [List.cons_append, fence_run]
    cases fence_step status event with
    | none => rfl
    | some next => exact ih next

/-- The protocol accepts a reset only right after a wait. -/
theorem fence_step_reset (status next : FenceStatus)
    (h : fence_step status FenceEvent.reset = some next) :
    status = FenceStatus.waited ∧ next = FenceStatus.unsignaled := by
  cases status <;> simp [fence_step] at h
  exact ⟨rfl, h.symm⟩

/-- Only a wait leads to the status `waited`. -/
theorem fence_step_to_waited (status : FenceStatus) (event : FenceEvent)
    (h : fence_step status event = some FenceStatus.waited) : event = FenceEvent.wait := by
  cases status <;> rcases event with (_ | _) | _ | _ | _ | _ <;> simp [fence_step] at h <;> rfl

/-- In an accepted sequence, the event before a reset is a wait. -/
theorem fence_run_reset_after_wait (status : FenceStatus) (before after : List FenceEvent)
    (h : (fence_run status (before ++ FenceEvent.reset :: after)).isSome = true) :
    (before = [] ∧ status = FenceStatus.waited) ∨
    ∃ earlier, before = earlier ++ [FenceEvent.wait] := by
  induction before generalizing status with
  | nil =>
    left
    simp only [List.nil_append, fence_run] at h
    cases hstep : fence_step status FenceEvent.reset with
    | none => rw [hstep] at h; simp at h
    | some next => exact ⟨rfl, (fence_step_reset status next hstep).1⟩
  | cons event later ih =>
    right
    simp only [List.cons_append, fence_run] at h
    cases hstep : fence_step status event with
    | none => rw [hstep] at h; simp at h
    | some next =>
      rw [hstep] at h
      rcases ih next h with ⟨hnil, hwaited⟩ | ⟨earlier, hearlier⟩
      · subst hnil hwaited
        exact ⟨[], by rw [fence_step_to_waited status event hstep]; rfl⟩
      · exact ⟨event :: earlier, by rw [hearlier]; rfl⟩

/-- From a reset fence, the accepted sequences without reset that end in a
wait hold exactly one submission; from an armed fence, none. -/
theorem fence_run_submissions (status : FenceStatus) (mid : List FenceEvent)
    (h : fence_run status mid = some FenceStatus.waited)
    (hreset : FenceEvent.reset ∉ mid) :
    (status = FenceStatus.unsignaled → mid.count FenceEvent.submit = 1) ∧
    (status = FenceStatus.armed → mid.count FenceEvent.submit = 0) ∧
    (status = FenceStatus.waited → mid = []) := by
  induction mid generalizing status with
  | nil => simp_all [fence_run]
  | cons event later ih =>
    simp only [fence_run] at h
    cases hstep : fence_step status event with
    | none => rw [hstep] at h; simp at h
    | some next =>
      rw [hstep] at h
      have hlater : FenceEvent.reset ∉ later := fun hm => hreset (List.mem_cons_of_mem _ hm)
      have hevent : event ≠ FenceEvent.reset := fun he => hreset (by simp [he])
      obtain ⟨h1, h2, h3⟩ := ih next h hlater
      cases status <;> rcases event with (_ | _) | _ | _ | _ | _ <;>
        simp [fence_step] at hstep <;>
        (subst hstep; simp_all)

/-- From an armed fence, an accepted sequence that reaches a reset fence
without submission holds a wait. -/
theorem fence_run_wait_between (status : FenceStatus) (mid : List FenceEvent)
    (h : fence_run status mid = some FenceStatus.unsignaled)
    (hstatus : status = FenceStatus.armed ∨ status = FenceStatus.signaled) :
    FenceEvent.wait ∈ mid := by
  induction mid generalizing status with
  | nil =>
    simp only [fence_run, Option.some.injEq] at h
    rcases hstatus with rfl | rfl <;> cases h
  | cons event later ih =>
    simp only [fence_run] at h
    cases hstep : fence_step status event with
    | none => rw [hstep] at h; simp at h
    | some next =>
      rw [hstep] at h
      rcases hstatus with rfl | rfl <;> rcases event with (_ | _) | _ | _ | _ | _ <;>
        simp [fence_step] at hstep <;>
        first
        | exact List.mem_cons_self _ _
        | (subst hstep; exact List.mem_cons_of_mem _ (ih _ h (by simp)))

/-- An accepted sequence splits at every point into two accepted parts. -/
theorem fence_run_append_some (status reached : FenceStatus) (first second : List FenceEvent)
    (h : fence_run status (first ++ second) = some reached) :
    ∃ middle, fence_run status first = some middle ∧ fence_run middle second = some reached := by
  rw [fence_run_append] at h
  cases hfirst : fence_run status first with
  | none => rw [hfirst] at h; simp at h
  | some middle =>
    rw [hfirst] at h
    exact ⟨middle, rfl, h⟩

/-- An accepted sequence that starts with an event accepts that event. -/
theorem fence_run_cons_some (status reached : FenceStatus) (event : FenceEvent)
    (later : List FenceEvent) (h : fence_run status (event :: later) = some reached) :
    ∃ next, fence_step status event = some next ∧ fence_run next later = some reached := by
  simp only [fence_run] at h
  cases hstep : fence_step status event with
  | none => rw [hstep] at h; simp at h
  | some next =>
    rw [hstep] at h
    exact ⟨next, rfl, h⟩

/-- The protocol accepts a submission only on a reset fence without
submission, and arms it. -/
theorem fence_step_submit (status next : FenceStatus)
    (h : fence_step status FenceEvent.submit = some next) :
    status = FenceStatus.unsignaled ∧ next = FenceStatus.armed := by
  cases status <;> simp [fence_step] at h
  exact ⟨rfl, h.symm⟩

/-- In an accepted sequence there is exactly one submission between two
consecutive resets. -/
theorem fence_run_between_resets (status reached : FenceStatus)
    (a mid b : List FenceEvent)
    (h : fence_run status (a ++ FenceEvent.reset :: (mid ++ FenceEvent.reset :: b)) =
      some reached)
    (hmid : FenceEvent.reset ∉ mid) :
    mid.count FenceEvent.submit = 1 := by
  obtain ⟨s1, _, h1⟩ := fence_run_append_some _ _ _ _ h
  obtain ⟨s2, hs2, h2⟩ := fence_run_cons_some _ _ _ _ h1
  obtain ⟨_, rfl⟩ := fence_step_reset _ _ hs2
  obtain ⟨s3, h3, h4⟩ := fence_run_append_some _ _ _ _ h2
  obtain ⟨s4, hs4, _⟩ := fence_run_cons_some _ _ _ _ h4
  obtain ⟨rfl, _⟩ := fence_step_reset _ _ hs4
  exact (fence_run_submissions _ mid h3 hmid).1 rfl

/-- In an accepted sequence there is a wait between two submissions. -/
theorem fence_run_between_submits (status reached : FenceStatus)
    (a mid b : List FenceEvent)
    (h : fence_run status (a ++ FenceEvent.submit :: (mid ++ FenceEvent.submit :: b)) =
      some reached) :
    FenceEvent.wait ∈ mid := by
  obtain ⟨s1, _, h1⟩ := fence_run_append_some _ _ _ _ h
  obtain ⟨s2, hs2, h2⟩ := fence_run_cons_some _ _ _ _ h1
  obtain ⟨_, rfl⟩ := fence_step_submit _ _ hs2
  obtain ⟨s3, h3, h4⟩ := fence_run_append_some _ _ _ _ h2
  obtain ⟨s4, hs4, _⟩ := fence_run_cons_some _ _ _ _ h4
  obtain ⟨rfl, _⟩ := fence_step_submit _ _ hs4
  exact fence_run_wait_between _ mid h3 (Or.inl rfl)

/-- A run of `create_sync_objects` that returns made its three creation
calls, the fence with the signaled flag, and stored the answers. -/
theorem create_sync_objects_returned (app : App) (env : VulkanEnvironment)
    (calls : List Call) (result : App)
    (h : create_sync_objects app env = ⟨calls, Outcome.returned result⟩) :
    calls = [Call.createSemaphore app.device, Call.createSemaphore app.device,
      Call.createFence app.device vk.FenceCreateFlagBits.eSignaled] ∧
    result = { app with
      sem_image_available := env.createSemaphore_first.value,
      sem_render_finished := env.createSemaphore_second.value,
      fence_in_flight := env.createFence.value } := by
  by_cases h1 : env.createSemaphore_first.result = vk.Result.eSuccess
  swap
  · simp [create_sync_objects, h1, bind, Run.bind, call, exit_failure] at h
  by_cases h2 : env.createSemaphore_second.result = vk.Result.eSuccess
  swap
  · simp [create_sync_objects, h1, h2, bind, Run.bind, call, exit_failure, pure,
      Run.pure] at h
  by_cases h3 : env.createFence.result = vk.Result.eSuccess
  swap
  · simp [create_sync_objects, h1, h2, h3, bind, Run.bind, call, exit_failure, pure,
      Run.pure] at h
  simp [create_sync_objects, h1, h2, h3, bind, Run.bind, call, exit_failure, pure,
    Run.pure] at h
  exact ⟨h.1.symm, h.2.symm⟩

/-- The fence events of a whole frame. -/
theorem fence_events_frame_calls (app : App) (image_index framebuffer : Nat) :
    fence_events app.fence_in_flight (frame_calls app image_index framebuffer) =
      [FenceEvent.wait, FenceEvent.reset, FenceEvent.other, FenceEvent.other,
       FenceEvent.other, FenceEvent.other, FenceEvent.other, FenceEvent.other,
       FenceEvent.other, FenceEvent.other, FenceEvent.other, FenceEvent.other,
       FenceEvent.submit, FenceEvent.other] := by
  simp [fence_events, frame_calls, Call.fence_event]

/-- The frame loop keeps to the fence protocol from a signaled or an armed
fence, whatever the driver answers. -/
theorem main_loop_fence_run (app : App) (frames : List FrameEnvironment)
    (status : FenceStatus)
    (hstatus : status = FenceStatus.signaled ∨ status = FenceStatus.armed) :
    (fence_run status
      (fence_events app.fence_in_flight (main_loop app frames).calls)).isSome = true := by
  induction frames generalizing status with
  | nil =>
    rcases hstatus with rfl | rfl <;>
      simp [main_loop, call, fence_events, Call.fence_event, fence_run, fence_step]
  | cons env later ih =>
    have hframe := fence_events_frame_calls app env.acquireNextImageKHR.value
    rcases draw_frame_cases app env with
      ⟨_, h⟩ | ⟨_, _, h⟩ | ⟨_, _, _, h⟩ | ⟨_, _, _, _, h⟩ |
      ⟨framebuffer, _, _, _, _, ⟨_, h⟩ | ⟨_, _, h⟩ | ⟨_, _, _, h⟩ | ⟨_, _, _, h⟩⟩
    case inr.inr.inr.inr.intro.intro.intro.intro.intro.inr.inr.inr.intro.intro.intro =>
      have harmed := ih FenceStatus.armed (Or.inr rfl)
      have hcalls : (main_loop app (env :: later)).calls =
          Call.glfwWindowShouldClose app.window :: Call.glfwPollEvents ::
            (frame_calls app env.acquireNextImageKHR.value framebuffer ++
              (main_loop app later).calls) := by
        simp [main_loop, h, bind, Run.bind, call]
      rw [hcalls]
      simp only [fence_events, List.map_cons, List.map_append] at harmed ⊢
      have hf := hframe framebuffer
      simp only [fence_events] at hf
      rw [hf]
      rcases hstatus with rfl | rfl <;>
        simpa [Call.fence_event, fence_run, fence_step] using harmed
    all_goals
      have hcalls : (main_loop app (env :: later)).calls =
          Call.glfwWindowShouldClose app.window :: Call.glfwPollEvents ::
            (draw_frame app env).calls := by
        simp [main_loop, h, bind, Run.bind, call]
      rw [hcalls, h]
      rcases hstatus with rfl | rfl <;>
        simp [fence_events, frame_calls, Call.fence_event, fence_run, fence_step]

/-- C11: starting from the state that `create_sync_objects` produces, with
the in-flight fence created signaled, the calls of every sequence of
frame-loop iterations keep to the single-submission protocol of the fence,
whatever the driver answers: a reset of the fence comes only immediately
after a wait on it, and that wait answered success; between two consecutive
resets there is exactly one submission that arms the fence; between two
submissions there is a wait, so that at most one submission is outstanding
on the fence and no two resets follow each other without the fence having
been armed and waited for. -/
theorem fence_protocol_spec (app : App) (env : VulkanEnvironment) (calls : List Call)
    (created : App) (frames : List FrameEnvironment)
    (hsync : create_sync_objects app env = ⟨calls, Outcome.returned created⟩) :
    fence_events created.fence_in_flight calls =
      [FenceEvent.other, FenceEvent.other, FenceEvent.created true] ∧
    (fence_run FenceStatus.absent
      (fence_events created.fence_in_flight
        (calls ++ (main_loop created frames).calls))).isSome = true ∧
    (∀ before after,
      fence_events created.fence_in_flight (calls ++ (main_loop created frames).calls) =
        before ++ FenceEvent.reset :: after →
      ∃ earlier, before = earlier ++ [FenceEvent.wait]) ∧
    (∀ frame, Call.resetFences created.device [created.fence_in_flight] ∈
        (draw_frame created frame).calls →
      frame.waitForFences = vk.Result.eSuccess) ∧
    (∀ a mid b,
      fence_events created.fence_in_flight (calls ++ (main_loop created frames).calls) =
        a ++ FenceEvent.reset :: (mid ++ FenceEvent.reset :: b) →
      FenceEvent.reset ∉ mid → mid.count FenceEvent.submit = 1) ∧
    (∀ a mid b,
      fence_events created.fence_in_flight (calls ++ (main_loop created frames).calls) =
        a ++ FenceEvent.submit :: (mid ++ FenceEvent.submit :: b) →
      FenceEvent.wait ∈ mid) := by
  obtain ⟨hcalls, _⟩ := create_sync_objects_returned app env calls created hsync
  have hcreated : fence_events created.fence_in_flight calls =
      [FenceEvent.other, FenceEvent.other, FenceEvent.created true] := by
    rw [hcalls]
    simp [fence_events, Call.fence_event, vk.FenceCreateFlagBits.eSignaled]
  have haccepted : (fence_run FenceStatus.absent
      (fence_events created.fence_in_flight
        (calls ++ (main_loop created frames).calls))).isSome = true := by
    have hloop := main_loop_fence_run created frames FenceStatus.signaled (Or.inl rfl)
    have happend : fence_events created.fence_in_flight
        (calls ++ (main_loop created frames).calls) =
        fence_events created.fence_in_flight calls ++
          fence_events created.fence_in_flight (main_loop created frames).calls := by
      simp [fence_events]
    rw [happend, hcreated]
    simpa [fence_run, fence_step] using hloop
  obtain ⟨reached, hreached⟩ := Option.isSome_iff_exists.mp haccepted
  refine ⟨hcreated, haccepted, ?_, ?_, ?_, ?_⟩
  · intro before after hsplit
    rw [hsplit] at haccepted
    rcases fence_run_reset_after_wait _ before after haccepted with ⟨_, habsent⟩ | hearlier
    · cases habsent
    · exact hearlier
  · intro frame hreset
    by_contra hwait
    rcases draw_frame_cases created frame with
      ⟨_, h⟩ | ⟨hok, _⟩ | ⟨hok, _⟩ | ⟨hok, _⟩ | ⟨_, hok, _⟩
    · rw [h] at hreset
      simp [frame_calls] at hreset
    all_goals exact hwait hok
  · intro a mid b hsplit hmid
    rw [hsplit] at hreached
    exact fence_run_between_resets _ _ a mid b hreached hmid
  · intro a mid b hsplit
    rw [hsplit] at hreached
    exact fence_run_between_submits _ _ a mid b hreached

/-- Witness of C11: the sample synchronisation objects followed by two
frames, the second of which fails at the acquire. -/
theorem fence_protocol_spec_witness :
    (fence_run FenceStatus.absent
      (fence_events 17
        ([Call.createSemaphore 4, Call.createSemaphore 4, Call.createFence 4 1] ++
          (main_loop sample_app
            [sample_frame,
             { sample_frame with
               acquireNextImageKHR := ⟨vk.Result.eErrorOutOfDateKHR, 0⟩ }]).calls))).isSome =
      true :=
  (fence_protocol_spec sample_app sample_environment
    [Call.createSemaphore 4, Call.createSemaphore 4, Call.createFence 4 1] sample_app
    [sample_frame,
     { sample_frame with acquireNextImageKHR := ⟨vk.Result.eErrorOutOfDateKHR, 0⟩ }]
    (by decide)).2.1

/-- The overwriting loop yields `none` exactly when it started with `none` and
no element satisfies the predicate. -/
theorem last_index_from_none (p : QueueFamily → Bool) (l : List QueueFamily) (i : Nat)
    (found : Option Nat) :
    last_index_from p l i found = none ↔ found = none ∧ ∀ q ∈ l, p q = false := by
  induction l generalizing i found with
  | nil => simp [last_index_from]
  | cons q more ih =>
    simp only [last_index_from, ih, List.mem_cons, forall_eq_or_imp]
    cases hp : p q <;> simp

/-- The overwriting loop yields the index of the last element that satisfies
the predicate, or what it started with. -/
theorem last_index_from_some (p : QueueFamily → Bool) (l : List QueueFamily) (i : Nat)
    (found : Option Nat) (k : Nat) :
    last_index_from p l i found = some k ↔
      (∃ j q, l[j]? = some q ∧ p q = true ∧ k = i + j ∧
        ∀ j2 q2, j < j2 → l[j2]? = some q2 → p q2 = false) ∨
      (found = some k ∧ ∀ q ∈ l, p q = false) := by
  induction l generalizing i found with
  | nil => simp [last_index_from]
  | cons q more ih =>
    simp only [last_index_from, ih]
    constructor
    · rintro (⟨j, q1, hj, hp, rfl, hlater⟩ | ⟨hfound, hnone⟩)
      · left
        refine ⟨j + 1, q1, by simpa using hj, hp, by omega, ?_⟩
        intro j2 q2 hlt hget
        cases j2 with
        | zero => omega
        | succ j3 => exact hlater j3 q2 (by omega) (by simpa using hget)
      · cases hpq : p q with
        | true =>
          left
          simp only [hpq, if_true, Option.some.injEq] at hfound
          refine ⟨0, q, by simp, hpq, by omega, ?_⟩
          intro j2 q2 hlt hget
          cases j2 with
          | zero => omega
          | succ j3 =>
            exact hnone q2 (List.mem_iff_getElem?.mpr ⟨j3, by simpa using hget⟩)
        | false =>
          right
          simp only [hpq, Bool.false_eq_true, if_false] at hfound
          refine ⟨hfound, ?_⟩
          intro x hx
          rcases List.mem_cons.mp hx with rfl | hx
          · exact hpq
          · exact hnone x hx
    · rintro (⟨j, q1, hj, hp, rfl, hlater⟩ | ⟨hfound, hnone⟩)
      · cases j with
        | zero =>
          right
          simp only [List.getElem?_cons_zero, Option.some.injEq] at hj
          subst hj
          refine ⟨by simp [hp], ?_⟩
          intro x hx
          obtain ⟨n, hn⟩ := List.mem_iff_getElem?.mp hx
          exact hlater (n + 1) x (by omega) (by simpa using hn)
        | succ j0 =>
          left
          refine ⟨j0, q1, by simpa using hj, hp, by omega, ?_⟩
          intro j2 q2 hlt hget
          exact hlater (j2 + 1) q2 (by omega) (by simpa using hget)
      · right
        have hq := hnone q (List.mem_cons_self _ _)
        simp only [hq, Bool.false_eq_true, if_false]
        exact ⟨hfound, fun x hx => hnone x (List.mem_cons_of_mem _ hx)⟩

/-- When every surface support query succeeds, the queue family loop returns
the last graphics index and the last present index, each found on its own. -/
theorem find_queue_families_loop_eq (families : List QueueFamily) (i : Nat)
    (indices : QueueFamilyIndices)
    (h : ∀ q ∈ families, q.surfaceSupport.result = vk.Result.eSuccess) :
    find_queue_families_loop families i indices =
      Outcome.returned
        ⟨last_index_from QueueFamily.is_graphics families i indices.graphics_family,
         last_index_from QueueFamily.can_present families i indices.present_family⟩ := by
  induction families generalizing i indices with
  | nil => rfl
  | cons q more ih =>
    have hq := h q (List.mem_cons_self _ _)
    have hmore := fun x hx => h x (List.mem_cons_of_mem _ hx)
    unfold find_queue_families_loop
    simp only [hq, true_and, ne_eq, not_true_eq_false, if_false]
    cases hv : q.surfaceSupport.value <;>
      by_cases hg : q.properties.queueFlags &&& vk.QueueFlagBits.eGraphics = 0 <;>
      simp [hg, ih _ _ hmore, last_index_from, QueueFamily.is_graphics,
        QueueFamily.can_present, hv]

/-- C18: for every list of queue families whose surface-support queries all
succeed, `find_queue_families` returns as graphics family the index of the
last family with the graphics flag (absent exactly when no family has it)
and as present family the index of the last family that can present to the
surface (absent exactly when none can); the two are found independently, so
that they can differ although one family is capable of both: the families
(graphics and present, present only) yield graphics 0 and present 1. -/
theorem find_queue_families_spec (device : PhysicalDevice)
    (h : ∀ q ∈ device.queueFamilies, q.surfaceSupport.result = vk.Result.eSuccess) :
    (∃ indices, find_queue_families device = Outcome.returned indices ∧
      (∀ k, indices.graphics_family = some k ↔
        ∃ q, device.queueFamilies[k]? = some q ∧ q.is_graphics = true ∧
          ∀ j q2, k < j → device.queueFamilies[j]? = some q2 → q2.is_graphics = false) ∧
      (indices.graphics_family = none ↔ ∀ q ∈ device.queueFamilies, q.is_graphics = false) ∧
      (∀ k, indices.present_family = some k ↔
        ∃ q, device.queueFamilies[k]? = some q ∧ q.can_present = true ∧
          ∀ j q2, k < j → device.queueFamilies[j]? = some q2 → q2.can_present = false) ∧
      (indices.present_family = none ↔
        ∀ q ∈ device.queueFamilies, q.can_present = false)) ∧
    ((sample_device_shared_then_present.queueFamilies.map
        (fun q => (q.is_graphics, q.can_present)) = [(true, true), (false, true)]) ∧
      find_queue_families sample_device_shared_then_present =
        Outcome.returned ⟨some 0, some 1⟩) := by
  refine ⟨⟨_, find_queue_families_loop_eq device.queueFamilies 0 ⟨none, none⟩ h, ?_, ?_, ?_, ?_⟩,
    by decide⟩
  · intro k
    rw [last_index_from_some]
    constructor
    · rintro (⟨j, q, hj, hp, hk, hlater⟩ | ⟨hnone, _⟩)
      · have hkj : k = j := by omega
        subst hkj
        exact ⟨q, hj, hp, hlater⟩
      · cases hnone
    · rintro ⟨q, hj, hp, hlater⟩
      exact Or.inl ⟨k, q, hj, hp, by omega, hlater⟩
  · simp [last_index_from_none]
  · intro k
    rw [last_index_from_some]
    constructor
    · rintro (⟨j, q, hj, hp, hk, hlater⟩ | ⟨hnone, _⟩)
      · have hkj : k = j := by omega
        subst hkj
        exact ⟨q, hj, hp, hlater⟩
      · cases hnone
    · rintro ⟨q, hj, hp, hlater⟩
      exact Or.inl ⟨k, q, hj, hp, by omega, hlater⟩
  · simp [last_index_from_none]

/-- Witness of C18: the device with a shared family 0 and a present-only
family 1. -/
theorem find_queue_families_spec_witness :
    ∃ indices, find_queue_families sample_device_shared_then_present =
        Outcome.returned indices ∧
      indices.graphics_family = some 0 ∧ indices.present_family = some 1 := by
  obtain ⟨indices, hrun, hg, _, hp, _⟩ :=
    (find_queue_families_spec sample_device_shared_then_present (by decide)).1
  refine ⟨indices, hrun, (hg 0).mpr ?_, (hp 1).mpr ?_⟩
  · exact ⟨_, rfl, by decide, by
      intro j q2 hlt hget
      cases j with
      | zero => omega
      | succ j1 =>
        cases j1 with
        | zero =>
          simp [sample_device_shared_then_present] at hget
          subst hget
          decide
        | succ j2 => simp [sample_device_shared_then_present] at hget⟩
  · exact ⟨_, rfl, by decide, by
      intro j q2 hlt hget
      cases j with
      | zero => omega
      | succ j1 =>
        cases j1 with
        | zero => omega
        | succ j2 => simp [sample_device_shared_then_present] at hget⟩

/-- A sequence that returns is made of a first part that returns and a second
part, run on its value, that returns. -/
theorem bind_returned {α β : Type} (first : Run α) (next : α → Run β) (calls : List Call)
    (value : β) (h : (first >>= next) = ⟨calls, Outcome.returned value⟩) :
    ∃ calls1 middle calls2, first = ⟨calls1, Outcome.returned middle⟩ ∧
      next middle = ⟨calls2, Outcome.returned value⟩ ∧ calls = calls1 ++ calls2 := by
  obtain ⟨calls1, outcome⟩ := first
  cases outcome with
  | returned middle =>
    simp only [bind, Run.bind, Run.mk.injEq] at h
    refine ⟨calls1, middle, (next middle).calls, rfl, ?_, h.1.symm⟩
    cases hnext : next middle with
    | mk calls2 outcome2 =>
      rw [hnext] at h
      simp only at h
      rw [h.2]
  | exit_failure diagnostic => simp [bind, Run.bind] at h
  | uncaught exception => simp [bind, Run.bind] at h
  | undefined => simp [bind, Run.bind] at h

/-- A run of `init_window` that returns. -/
theorem init_window_returned (app : App) (env : VulkanEnvironment) (calls : List Call)
    (result : App) (h : init_window app env = ⟨calls, Outcome.returned result⟩) :
    calls = [Call.glfwInit, Call.glfwCreateWindow 800 600 "Learn Vulkan"] ∧
    result = { app with window := env.glfwCreateWindow } := by
  by_cases h1 : env.glfwCreateWindow = 0
  · simp [init_window, h1, bind, Run.bind, call, exit_failure] at h
  · simp [init_window, h1, bind, Run.bind, call, exit_failure, pure, Run.pure] at h
    exact ⟨h.1.symm, h.2.symm⟩

/-- A run of `create_surface` that returns. -/
theorem create_surface_returned (app : App) (env : VulkanEnvironment) (calls : List Call)
    (result : App) (h : create_surface app env = ⟨calls, Outcome.returned result⟩) :
    calls = [Call.glfwCreateWindowSurface app.instance_ app.window] ∧
    result = { app with surface := env.glfwCreateWindowSurface.value } := by
  by_cases h1 : env.glfwCreateWindowSurface.result = vk.Result.eSuccess
  · simp [create_surface, h1, bind, Run.bind, call, exit_failure, pure, Run.pure] at h
    exact ⟨h.1.symm, h.2.symm⟩
  · simp [create_surface, h1, bind, Run.bind, call, exit_failure] at h

/-- A run of `create_render_pass` that returns. -/
theorem create_render_pass_returned (app : App) (env : VulkanEnvironment) (calls : List Call)
    (result : App) (h : create_render_pass app env = ⟨calls, Outcome.returned result⟩) :
    calls.filterMap Call.creates = [ResourceKind.render_pass] ∧
    result = { app with render_pass := env.createRenderPass.value } := by
  by_cases h1 : env.createRenderPass.result = vk.Result.eSuccess
  · simp [create_render_pass, h1, bind, Run.bind, call, exit_failure, pure, Run.pure] at h
    obtain ⟨hc, hr⟩ := h
    subst hc
    exact ⟨rfl, hr.symm⟩
  · simp [create_render_pass, h1, bind, Run.bind, call, exit_failure] at h

/-- A run of `create_command_buffer` that returns. -/
theorem create_command_buffer_returned (app : App) (env : VulkanEnvironment)
    (calls : List Call) (result : App)
    (h : create_command_buffer app env = ⟨calls, Outcome.returned result⟩) :
    calls = [Call.allocateCommandBuffers app.device app.command_pool 0 1] ∧
    ∃ buffer, result = { app with command_buffer := buffer } := by
  by_cases h1 : env.allocateCommandBuffers.result ≠ vk.Result.eSuccess ∨
      env.allocateCommandBuffers.value.length ≠ 1
  · simp [create_command_buffer, h1, bind, Run.bind, call, exit_failure] at h
  · cases hb : env.allocateCommandBuffers.value[0]? with
    | none =>
      simp [create_command_buffer, h1, hb, bind, Run.bind, call, exit_failure, pure,
        Run.pure, Run.of] at h
    | some buffer =>
      simp [create_command_buffer, h1, hb, bind, Run.bind, call, exit_failure, pure,
        Run.pure, Run.of] at h
      exact ⟨h.1.symm, buffer, h.2.symm⟩

/-- A run of `create_command_pool` that returns. -/
theorem create_command_pool_returned (app : App) (env : VulkanEnvironment)
    (calls : List Call) (result : App)
    (h : create_command_pool app env = ⟨calls, Outcome.returned result⟩) :
    calls.filterMap Call.creates = [ResourceKind.command_pool] ∧
    result = { app with command_pool := env.createCommandPool.value } := by
  unfold create_command_pool at h
  cases hpd : app.physical_device with
  | none => simp [hpd, Run.of] at h
  | some physical_device =>
    simp only [hpd] at h
    cases hfind : find_queue_families physical_device with
    | returned indices =>
      cases hg : indices.graphics_family with
      | none => simp [hfind, hg, Run.of, bind, Run.bind] at h
      | some graphics_family =>
        by_cases h1 : env.createCommandPool.result = vk.Result.eSuccess
        · simp [hfind, hg, h1, Run.of, bind, Run.bind, call, exit_failure, pure,
            Run.pure] at h
          obtain ⟨hc, hr⟩ := h
          subst hc
          exact ⟨rfl, hr.symm⟩
        · simp [hfind, hg, h1, Run.of, bind, Run.bind, call, exit_failure, pure,
            Run.pure] at h
    | exit_failure diagnostic => simp [hfind, Run.of, bind, Run.bind] at h
    | uncaught exception => simp [hfind, Run.of, bind, Run.bind] at h
    | undefined => simp [hfind, Run.of, bind, Run.bind] at h

/-- A run of `create_instance` that returns made one creation call, for
the instance. -/
theorem create_instance_returned (app : App) (validation : Bool) (env : InstanceEnvironment)
    (calls : List Call) (result : App)
    (h : create_instance app validation env = ⟨calls, Outcome.returned result⟩) :
    calls.filterMap Call.creates = [ResourceKind.vkInstance] ∧
    result = { app with
      supported_extensions := env.enumerateInstanceExtensionProperties.value,
      supported_layers := env.enumerateInstanceLayerProperties.value,
      instance_ := env.createInstance.value } := by
  cases hv : env.glfwVulkanSupported with
  | false =>
    rw [create_instance_no_glfw_vulkan app validation env hv] at h
    simp at h
  | true =>
    cases hg : env.glfwGetRequiredInstanceExtensions with
    | none =>
      rw [create_instance_no_glfw_extensions app validation env hv hg] at h
      simp at h
    | some glfw_extensions =>
      rcases create_instance_extension_loop_cases env.enumerateInstanceExtensionProperties.value
          (glfw_extensions ++ [VK_KHR_PORTABILITY_ENUMERATION_EXTENSION_NAME,
            VK_KHR_GET_PHYSICAL_DEVICE_PROPERTIES_2_EXTENSION_NAME]) with
        ⟨_, hret⟩ | ⟨_, diagnostic, hexit⟩
      · by_cases hr : env.createInstance.result = vk.Result.eSuccess
        · cases validation with
          | false =>
            simp [create_instance, bind, Run.bind, call, exit_failure, hv, hg, pure,
              Run.pure, hret, hr] at h
            obtain ⟨hc, hres⟩ := h
            subst hc
            exact ⟨rfl, hres.symm⟩
          | true =>
            rcases create_instance_layer_loop_cases
                env.enumerateInstanceLayerProperties.value VALIDATION_LAYERS with
              ⟨_, hlret⟩ | ⟨_, diagnostic, hlexit⟩
            · simp [create_instance, bind, Run.bind, call, exit_failure, hv, hg, pure,
                Run.pure, hret, hlret, hr] at h
              obtain ⟨hc, hres⟩ := h
              subst hc
              exact ⟨rfl, hres.symm⟩
            · rw [create_instance_layer_missing app env glfw_extensions diagnostic hv hg
                hret hlexit] at h
              simp at h
        · cases validation with
          | false =>
            simp [create_instance, bind, Run.bind, call, exit_failure, hv, hg, pure,
              Run.pure, hret, hr] at h
          | true =>
            rcases create_instance_layer_loop_cases
                env.enumerateInstanceLayerProperties.value VALIDATION_LAYERS with
              ⟨_, hlret⟩ | ⟨_, diagnostic, hlexit⟩
            · simp [create_instance, bind, Run.bind, call, exit_failure, hv, hg, pure,
                Run.pure, hret, hlret, hr] at h
            · rw [create_instance_layer_missing app env glfw_extensions diagnostic hv hg
                hret hlexit] at h
              simp at h
      · rw [create_instance_extension_missing app validation env glfw_extensions diagnostic
          hv hg hexit] at h
        simp at h

/-- A run of `create_logical_device` that returns made one creation call,
for the device. -/
theorem create_logical_device_returned (app : App) (validation : Bool)
    (env : DeviceEnvironment) (calls : List Call) (result : App)
    (h : create_logical_device app validation env = ⟨calls, Outcome.returned result⟩) :
    calls.filterMap Call.creates = [ResourceKind.device] ∧
    ∃ graphics_queue present_queue, result = { app with
      device := env.createDevice.value,
      graphics_queue := graphics_queue,
      present_queue := present_queue } := by
  unfold create_logical_device at h
  cases hpd : app.physical_device with
  | none => simp [hpd, Run.of] at h
  | some physical_device =>
    simp only [hpd] at h
    cases hfind : find_queue_families physical_device with
    | returned indices =>
      by_cases hne : indices.graphics_family = indices.present_family
      swap
      · simp [hfind, hne, Run.of, bind, Run.bind, exit_failure] at h
      cases hg : indices.graphics_family with
      | none =>
        rw [hg] at hne
        simp [hfind, hg, ← hne, Run.of, bind, Run.bind, pure, Run.pure] at h
      | some graphics_family =>
        rw [hg] at hne
        by_cases h1 : env.createDevice.result = vk.Result.eSuccess
        · simp [hfind, hg, ← hne, h1, Run.of, bind, Run.bind, call, exit_failure, pure,
            Run.pure] at h
          obtain ⟨hc, hr⟩ := h
          subst hc
          exact ⟨rfl, _, _, hr.symm⟩
        · simp [hfind, hg, ← hne, h1, Run.of, bind, Run.bind, call, exit_failure, pure,
            Run.pure] at h
    | exit_failure diagnostic => simp [hfind, Run.of, bind, Run.bind] at h
    | uncaught exception => simp [hfind, Run.of, bind, Run.bind] at h
    | undefined => simp [hfind, Run.of, bind, Run.bind] at h

/-- A run of `create_swap_chain` that returns made one creation call, for the
swapchain, and stored the images that the driver answered. -/
theorem create_swap_chain_returned (app : App) (env : VulkanEnvironment)
    (calls : List Call) (result : App)
    (h : create_swap_chain app env = ⟨calls, Outcome.returned result⟩) :
    calls.filterMap Call.creates = [ResourceKind.swapchain] ∧
    ∃ format extent, result = { app with
      swapchain := env.createSwapchainKHR.value,
      swapchain_images := env.getSwapchainImagesKHR.value,
      swapchain_image_format := format,
      swapchain_extent := extent } := by
  unfold create_swap_chain at h
  cases hpd : app.physical_device with
  | none => simp [hpd, Run.of] at h
  | some physical_device =>
    simp only [hpd] at h
    cases hquery : query_swap_chain_support physical_device with
    | returned support =>
      cases hformat : choose_swap_surface_format support.formats with
      | none => simp [hquery, hformat, Run.of, bind, Run.bind] at h
      | some surface_format =>
        cases hextent : choose_swap_extent support.capabilities env.framebuffer_width
            env.framebuffer_height with
        | none => simp [hquery, hformat, hextent, Run.of, bind, Run.bind] at h
        | some extent =>
          by_cases h1 : env.createSwapchainKHR.result = vk.Result.eSuccess
          swap
          · simp [hquery, hformat, hextent, h1, Run.of, bind, Run.bind, call,
              exit_failure] at h
          by_cases h2 : env.getSwapchainImagesKHR.result = vk.Result.eSuccess
          swap
          · simp [hquery, hformat, hextent, h1, h2, Run.of, bind, Run.bind, call,
              exit_failure, pure, Run.pure] at h
          simp [hquery, hformat, hextent, h1, h2, Run.of, bind, Run.bind, call,
            exit_failure, pure, Run.pure] at h
          obtain ⟨hc, hr⟩ := h
          subst hc
          exact ⟨rfl, _, _, hr.symm⟩
    | exit_failure diagnostic => simp [hquery, Run.of, bind, Run.bind] at h
    | uncaught exception => simp [hquery, Run.of, bind, Run.bind] at h
    | undefined => simp [hquery, Run.of, bind, Run.bind] at h

/-- A run of `create_graphics_pipeline` that returns made four creation
calls: two shader modules, the pipeline layout and the pipeline. -/
theorem create_graphics_pipeline_returned (app : App) (env : PipelineEnvironment)
    (calls : List Call) (result : App)
    (h : create_graphics_pipeline app env = ⟨calls, Outcome.returned result⟩) :
    calls.filterMap Call.creates =
      [ResourceKind.shader_module, ResourceKind.shader_module,
       ResourceKind.pipeline_layout, ResourceKind.pipeline] ∧
    result = { app with
      pipeline_layout := env.createPipelineLayout.value,
      graphics_pipeline := env.createGraphicsPipeline.value } := by
  unfold create_graphics_pipeline at h
  cases hvert : env.files "shaders/tri.vert.spv" with
  | none => simp [read_file, hvert, bind, Run.bind, exit_failure] at h
  | some vert_code =>
    cases hfrag : env.files "shaders/tri.frag.spv" with
    | none => simp [read_file, hvert, hfrag, bind, Run.bind, exit_failure, Run.pure] at h
    | some frag_code =>
      by_cases hv : vert_code.length % 4 = 0
      swap
      · simp [read_file, create_shader_module, hvert, hfrag, hv, bind, Run.bind,
          exit_failure, Run.pure] at h
      by_cases h1 : env.createShaderModule_first.result = vk.Result.eSuccess
      swap
      · simp [read_file, create_shader_module, hvert, hfrag, hv, h1, bind, Run.bind,
          exit_failure, Run.pure, pure, call] at h
      by_cases hf : frag_code.length % 4 = 0
      swap
      · simp [read_file, create_shader_module, hvert, hfrag, hv, h1, hf, bind, Run.bind,
          exit_failure, Run.pure, pure, call] at h
      by_cases h2 : env.createShaderModule_second.result = vk.Result.eSuccess
      swap
      · simp [read_file, create_shader_module, hvert, hfrag, hv, h1, hf, h2, bind, Run.bind,
          exit_failure, Run.pure, pure, call] at h
      by_cases h3 : env.createPipelineLayout.result = vk.Result.eSuccess
      swap
      · simp [read_file, create_shader_module, hvert, hfrag, hv, h1, hf, h2, h3, bind,
          Run.bind, exit_failure, Run.pure, pure, call] at h
      by_cases h4 : env.createGraphicsPipeline.result = vk.Result.eSuccess
      swap
      · simp [read_file, create_shader_module, hvert, hfrag, hv, h1, hf, h2, h3, h4, bind,
          Run.bind, exit_failure, Run.pure, pure, call] at h
      simp [read_file, create_shader_module, hvert, hfrag, hv, h1, hf, h2, h3, h4, bind,
        Run.bind, exit_failure, Run.pure, pure, call] at h
      obtain ⟨hc, hr⟩ := h
      subst hc
      exact ⟨rfl, hr.symm⟩

/-- The length of a resized vector is the requested one. -/
theorem vector_resize_length (v : List Nat) (n : Nat) : (vector_resize v n).length = n := by
  simp only [vector_resize, List.length_append, List.length_take, List.length_replicate]
  omega

/-- A run of the image view loop that returns made one creation call per
image still to visit and stored the answer to call `k` at index `k`, leaving
the other elements and members as they were. -/
theorem create_image_views_loop_returned (env : VulkanEnvironment) (images : List Nat)
    (app : App) (i : Nat) (calls : List Call) (result : App)
    (h : create_image_views_loop env app images i = ⟨calls, Outcome.returned result⟩) :
    calls.filterMap Call.creates = List.replicate images.length ResourceKind.image_view ∧
    ∃ views, result = { app with swapchain_image_views := views } ∧
      views.length = app.swapchain_image_views.length ∧
      ∀ k, views[k]? =
        if i ≤ k ∧ k < i + images.length ∧ k < app.swapchain_image_views.length then
          some (env.createImageView k).value
        else app.swapchain_image_views[k]? := by
  induction images generalizing app i calls result with
  | nil =>
    simp only [create_image_views_loop, Run.pure, Run.mk.injEq, Outcome.returned.injEq] at h
    obtain ⟨hc, hr⟩ := h
    subst hc hr
    refine ⟨rfl, app.swapchain_image_views, rfl, rfl, ?_⟩
    intro k
    rw [if_neg (by simp only [List.length_nil]; omega)]
  | cons image more ih =>
    by_cases h1 : (env.createImageView i).result = vk.Result.eSuccess
    swap
    · simp [create_image_views_loop, h1, bind, Run.bind, call, exit_failure] at h
    cases hrest : create_image_views_loop env
        { app with
          swapchain_image_views :=
            app.swapchain_image_views.set i (env.createImageView i).value }
        more (i + 1) with
    | mk calls2 outcome2 =>
      simp [create_image_views_loop, h1, hrest, bind, Run.bind, call, exit_failure, pure,
        Run.pure] at h
      obtain ⟨hc, ho⟩ := h
      subst hc ho
      obtain ⟨hkinds, views, hres, hlen, hget⟩ := ih _ _ _ _ hrest
      refine ⟨by simp [List.filterMap_cons, Call.creates, hkinds, List.replicate_succ],
        views, by rw [hres], by simpa using hlen, ?_⟩
      intro k
      rw [hget k]
      simp only [List.length_set, List.length_cons, List.getElem?_set]
      by_cases hk : i = k
      · subst hk
        by_cases hlt : i < app.swapchain_image_views.length
        · simp [hlt]
        · simp [hlt]
          omega
      · simp only [hk, if_false]
        by_cases hcond : i + 1 ≤ k ∧ k < i + 1 + more.length ∧
            k < app.swapchain_image_views.length
        · rw [if_pos hcond, if_pos (by omega)]
        · rw [if_neg hcond, if_neg (by omega)]

/-- A run of the framebuffer loop that returns made one creation call per
image view still to visit, each attaching that view alone at the swapchain
extent with one layer, and appended the answers in the order of the calls. -/
theorem create_framebuffers_loop_returned (env : VulkanEnvironment) (image_views : List Nat)
    (app : App) (i : Nat) (calls : List Call) (result : App)
    (h : create_framebuffers_loop env app image_views i = ⟨calls, Outcome.returned result⟩) :
    calls = image_views.map (fun image_view =>
      Call.createFramebuffer app.device
        { renderPass := app.render_pass, attachments := [image_view],
          width := app.swapchain_extent.width, height := app.swapchain_extent.height,
          layers := 1 }) ∧
    result = { app with
      swapchain_framebuffers := app.swapchain_framebuffers ++
        (List.range image_views.length).map
          (fun k => (env.createFramebuffer (i + k)).value) } := by
  induction image_views generalizing app i calls result with
  | nil =>
    simp only [create_framebuffers_loop, Run.pure, Run.mk.injEq, Outcome.returned.injEq] at h
    obtain ⟨hc, hr⟩ := h
    subst hc hr
    simp
  | cons image_view more ih =>
    by_cases h1 : (env.createFramebuffer i).result = vk.Result.eSuccess
    swap
    · simp [create_framebuffers_loop, h1, bind, Run.bind, call, exit_failure] at h
    cases hrest : create_framebuffers_loop env
        { app with
          swapchain_framebuffers :=
            app.swapchain_framebuffers ++ [(env.createFramebuffer i).value] }
        more (i + 1) with
    | mk calls2 outcome2 =>
      simp [create_framebuffers_loop, h1, hrest, bind, Run.bind, call, exit_failure, pure,
        Run.pure] at h
      obtain ⟨hc, ho⟩ := h
      subst hc ho
      obtain ⟨hcalls, hres⟩ := ih _ _ _ _ hrest
      refine ⟨by rw [hcalls]; rfl, ?_⟩
      rw [hres]
      simp only [List.length_cons, List.range_succ_eq_map, List.map_cons, List.map_map,
        List.append_assoc, List.singleton_append, Nat.add_zero]
      congr 2
      congr 1
      apply List.map_congr_left
      intro k _
      simp only [Function.comp]
      congr 2
      omega

/-- A run of `create_image_views` that returns made one creation call per
swapchain image and left as many image views as there are images, the view
at index `k` being the answer to call `k`. -/
theorem create_image_views_returned (app : App) (env : VulkanEnvironment)
    (calls : List Call) (result : App)
    (h : create_image_views app env = ⟨calls, Outcome.returned result⟩) :
    calls.filterMap Call.creates =
      List.replicate app.swapchain_images.length ResourceKind.image_view ∧
    ∃ views, result = { app with swapchain_image_views := views } ∧
      views.length = app.swapchain_images.length ∧
      ∀ k, k < app.swapchain_images.length →
        views[k]? = some (env.createImageView k).value := by
  obtain ⟨hkinds, views, hres, hlen, hget⟩ :=
    create_image_views_loop_returned env app.swapchain_images _ 0 calls result h
  simp only [vector_resize_length] at hlen hget
  refine ⟨hkinds, views, by rw [hres], hlen, ?_⟩
  intro k hk
  rw [hget k, if_pos (by omega)]

/-- A run of `create_framebuffers` that returns made one creation call per
image view and appended the answers in the order of the calls. -/
theorem create_framebuffers_returned (app : App) (env : VulkanEnvironment)
    (calls : List Call) (result : App)
    (h : create_framebuffers app env = ⟨calls, Outcome.returned result⟩) :
    calls = app.swapchain_image_views.map (fun image_view =>
      Call.createFramebuffer app.device
        { renderPass := app.render_pass, attachments := [image_view],
          width := app.swapchain_extent.width, height := app.swapchain_extent.height,
          layers := 1 }) ∧
    result = { app with
      swapchain_framebuffers := app.swapchain_framebuffers ++
        (List.range app.swapchain_image_views.length).map
          (fun k => (env.createFramebuffer k).value) } := by
  obtain ⟨hcalls, hres⟩ :=
    create_framebuffers_loop_returned env app.swapchain_image_views app 0 calls result h
  refine ⟨hcalls, ?_⟩
  rw [hres]
  simp

/-- Mapping every element to the same kind gives that kind once per
element. -/
theorem filterMap_const_kind (kind : ResourceKind) (l : List Nat) :
    l.filterMap (fun _ => some kind) = List.replicate l.length kind := by
  induction l with
  | nil => rfl
  | cons x more ih => simp [List.replicate_succ, ih]

/-- A run of `init_vulkan` that returns created, in this order: the instance,
the surface, the logical device, the swapchain, one image view per swapchain
image, the render pass, two shader modules, the pipeline layout, the
pipeline, one framebuffer per image view, the command pool, the command
buffer, two semaphores and the fence; and this is what it stored. -/
theorem init_vulkan_returned (app : App) (validation : Bool) (env : VulkanEnvironment)
    (calls : List Call) (result : App)
    (h : init_vulkan app validation env = ⟨calls, Outcome.returned result⟩) :
    calls.filterMap Call.creates =
      [ResourceKind.vkInstance, ResourceKind.surface, ResourceKind.device,
       ResourceKind.swapchain] ++
      List.replicate result.swapchain_images.length ResourceKind.image_view ++
      [ResourceKind.render_pass, ResourceKind.shader_module, ResourceKind.shader_module,
       ResourceKind.pipeline_layout, ResourceKind.pipeline] ++
      List.replicate result.swapchain_images.length ResourceKind.framebuffer ++
      [ResourceKind.command_pool, ResourceKind.command_buffer, ResourceKind.semaphore,
       ResourceKind.semaphore, ResourceKind.fence] ∧
    result.window = app.window ∧
    result.swapchain_images = env.getSwapchainImagesKHR.value ∧
    result.swapchain_image_views.length = result.swapchain_images.length ∧
    (∀ k, k < result.swapchain_images.length →
      result.swapchain_image_views[k]? = some (env.createImageView k).value) ∧
    result.swapchain_framebuffers = app.swapchain_framebuffers ++
      (List.range result.swapchain_images.length).map
        (fun k => (env.createFramebuffer k).value) ∧
    result.sem_image_available = env.createSemaphore_first.value ∧
    result.sem_render_finished = env.createSemaphore_second.value ∧
    result.fence_in_flight = env.createFence.value := by
  unfold init_vulkan at h
  obtain ⟨c1, a1, r1, h1, g1, rfl⟩ := bind_returned _ _ _ _ h
  obtain ⟨c2, a2, r2, h2, g2, rfl⟩ := bind_returned _ _ _ _ g1
  obtain ⟨c3, a3, r3, h3, g3, rfl⟩ := bind_returned _ _ _ _ g2
  obtain ⟨c4, a4, r4, h4, g4, rfl⟩ := bind_returned _ _ _ _ g3
  obtain ⟨c5, a5, r5, h5, g5, rfl⟩ := bind_returned _ _ _ _ g4
  obtain ⟨c6, a6, r6, h6, g6, rfl⟩ := bind_returned _ _ _ _ g5
  obtain ⟨c7, a7, r7, h7, g7, rfl⟩ := bind_returned _ _ _ _ g6
  obtain ⟨c8, a8, r8, h8, g8, rfl⟩ := bind_returned _ _ _ _ g7
  obtain ⟨c9, a9, r9, h9, g9, rfl⟩ := bind_returned _ _ _ _ g8
  obtain ⟨c10, a10, r10, h10, g10, rfl⟩ := bind_returned _ _ _ _ g9
  obtain ⟨c11, a11, r11, h11, g11, rfl⟩ := bind_returned _ _ _ _ g10
  obtain ⟨k1, e1⟩ := create_instance_returned _ _ _ _ _ h1
  obtain ⟨k2, e2⟩ := create_surface_returned _ _ _ _ h2
  have k3 : c3 = [] := by
    simp only [Run.of, Run.mk.injEq] at h3
    exact h3.1.symm
  obtain ⟨k4, gq, pq, e4⟩ := create_logical_device_returned _ _ _ _ _ h4
  obtain ⟨k5, fmt, ext, e5⟩ := create_swap_chain_returned _ _ _ _ h5
  obtain ⟨k6, views, e6, hlen, hget⟩ := create_image_views_returned _ _ _ _ h6
  obtain ⟨k7, e7⟩ := create_render_pass_returned _ _ _ _ h7
  obtain ⟨k8, e8⟩ := create_graphics_pipeline_returned _ _ _ _ h8
  obtain ⟨k9, e9⟩ := create_framebuffers_returned _ _ _ _ h9
  obtain ⟨k10, e10⟩ := create_command_pool_returned _ _ _ _ h10
  obtain ⟨k11, buffer, e11⟩ := create_command_buffer_returned _ _ _ _ h11
  obtain ⟨k12, e12⟩ := create_sync_objects_returned _ _ _ _ g11
  subst e1 e2 k2 k3 e4 e5 e6 e7 e8 e9 e10 k11 e11 k12 e12
  simp only at hlen hget
  refine ⟨?_, rfl, rfl, hlen, hget, ?_, rfl, rfl, rfl⟩
  · simp only [List.filterMap_append, k1, k4, k5, k6, k7, k8, k9, k10]
    simp [Call.creates, List.filterMap_map, Function.comp_def]
    rw [filterMap_const_kind, hlen]
  · simp [hlen]

/-- Recording against the index of a framebuffer is defined. -/
theorem record_command_buffer_defined (app : App) (command_buffer image_index : Nat)
    (env : FrameEnvironment) (framebuffer : Nat)
    (h : app.swapchain_framebuffers[image_index]? = some framebuffer) :
    (record_command_buffer app command_buffer image_index env).outcome ≠ Outcome.undefined := by
  by_cases hbegin : env.commandBufferBegin = vk.Result.eSuccess
  · by_cases hend : env.commandBufferEnd = vk.Result.eSuccess <;>
      simp [record_command_buffer, hbegin, hend, h, bind, Run.bind, call, exit_failure, pure,
        Run.pure]
  · simp [record_command_buffer, hbegin, bind, Run.bind, call, exit_failure]

/-- C17: when `create_framebuffers` runs on an empty framebuffer list and
returns (every creation call succeeded), the framebuffer list is as long as
the image-view list, and the framebuffer at index i is the answer to the
creation call i, which attaches exactly the image view i at the swapchain
extent with one layer; a returning `create_image_views` leaves as many image
views as swapchain images; consequently, after a returning `init_vulkan` on
an empty framebuffer list, for every image index smaller than the number of
swapchain images the lookup `swapchain_framebuffers[image_index]` of
`record_command_buffer` is in range. -/
theorem create_framebuffers_spec (env : VulkanEnvironment) :
    (∀ app calls result, app.swapchain_framebuffers = [] →
      create_framebuffers app env = ⟨calls, Outcome.returned result⟩ →
      result.swapchain_framebuffers.length = app.swapchain_image_views.length ∧
      result.swapchain_image_views = app.swapchain_image_views ∧
      ∀ i image_view, app.swapchain_image_views[i]? = some image_view →
        calls[i]? = some (Call.createFramebuffer app.device
          { renderPass := app.render_pass, attachments := [image_view],
            width := app.swapchain_extent.width, height := app.swapchain_extent.height,
            layers := 1 }) ∧
        result.swapchain_framebuffers[i]? = some (env.createFramebuffer i).value) ∧
    (∀ app calls result, create_image_views app env = ⟨calls, Outcome.returned result⟩ →
      result.swapchain_image_views.length = result.swapchain_images.length) ∧
    (∀ app validation calls result, app.swapchain_framebuffers = [] →
      init_vulkan app validation env = ⟨calls, Outcome.returned result⟩ →
      result.swapchain_framebuffers.length = result.swapchain_image_views.length ∧
      result.swapchain_image_views.length = result.swapchain_images.length ∧
      ∀ image_index, image_index < result.swapchain_images.length →
        result.swapchain_framebuffers[image_index]? =
          some (env.createFramebuffer image_index).value ∧
        ∀ command_buffer frame,
          (record_command_buffer result command_buffer image_index frame).outcome ≠
            Outcome.undefined) := by
  refine ⟨?_, ?_, ?_⟩
  · intro app calls result hempty hrun
    obtain ⟨hcalls, hres⟩ := create_framebuffers_returned app env calls result hrun
    subst hcalls hres
    simp only [hempty, List.nil_append, List.length_map, List.length_range, true_and]
    intro i image_view hview
    have hi : i < app.swapchain_image_views.length := by
      by_contra hge
      rw [List.getElem?_eq_none (by omega)] at hview
      cases hview
    simp [List.getElem?_map, hview, List.getElem?_range hi]
  · intro app calls result hrun
    obtain ⟨_, views, hres, hlen, _⟩ := create_image_views_returned app env calls result hrun
    subst hres
    exact hlen
  · intro app validation calls result hempty hrun
    obtain ⟨_, _, _, hviews, _, hfbs, _⟩ := init_vulkan_returned app validation env calls result hrun
    rw [hempty, List.nil_append] at hfbs
    refine ⟨by rw [hfbs, hviews]; simp, hviews, ?_⟩
    intro image_index hindex
    have hget : result.swapchain_framebuffers[image_index]? =
        some (env.createFramebuffer image_index).value := by
      rw [hfbs]
      simp [List.getElem?_map, List.getElem?_range hindex]
    exact ⟨hget, fun command_buffer frame =>
      record_command_buffer_defined result command_buffer image_index frame _ hget⟩

/-- Witness of C17: initialisation under the sample answers, and image index
2 of its three swapchain images. -/
theorem create_framebuffers_spec_witness :
    sample_initialised.swapchain_framebuffers.length =
      sample_initialised.swapchain_image_views.length ∧
    sample_initialised.swapchain_image_views.length =
      sample_initialised.swapchain_images.length ∧
    sample_initialised.swapchain_framebuffers[2]? = some 32 :=
  have h := (create_framebuffers_spec sample_environment).2.2
    { App.constructed with window := 1 } true
    (init_vulkan { App.constructed with window := 1 } true sample_environment).calls
    sample_initialised rfl (by decide)
  ⟨h.1, h.2.1, (h.2.2 2 (by decide)).1⟩

/-- The kinds that `cleanup` destroys after a successful idle wait, in
order. -/
theorem cleanup_destroyed_kinds (app : App) :
    (cleanup app vk.Result.eSuccess).calls.filterMap Call.destroys =
      [ResourceKind.semaphore, ResourceKind.semaphore, ResourceKind.fence,
       ResourceKind.command_pool] ++
      List.replicate app.swapchain_framebuffers.length ResourceKind.framebuffer ++
      [ResourceKind.pipeline, ResourceKind.pipeline_layout, ResourceKind.render_pass] ++
      List.replicate app.swapchain_image_views.length ResourceKind.image_view ++
      [ResourceKind.swapchain, ResourceKind.surface, ResourceKind.device,
       ResourceKind.vkInstance, ResourceKind.window] := by
  rw [cleanup_of_idle]
  simp [List.filterMap_append, Call.destroys, List.filterMap_map, Function.comp_def,
    filterMap_const_kind]

/-- In a list ordered by a rank, an element at an earlier index has at most
the rank of an element at a later index. -/
theorem rank_le_of_pairwise (rank : ResourceKind → Nat) (l : List ResourceKind)
    (h : l.Pairwise (fun x y => rank x ≤ rank y)) (i j : Nat) (x y : ResourceKind)
    (hi : l[i]? = some x) (hj : l[j]? = some y) (hij : i < j) : rank x ≤ rank y := by
  rw [List.pairwise_iff_getElem] at h
  obtain ⟨hi1, hi2⟩ := List.getElem?_eq_some.mp hi
  obtain ⟨hj1, hj2⟩ := List.getElem?_eq_some.mp hj
  have := h i j hi1 hj1 hij
  rw [hi2, hj2] at this
  exact this

/-- The creation order is ordered by the creation rank. -/
theorem creation_order_pairwise (n : Nat) :
    ([ResourceKind.window, ResourceKind.vkInstance, ResourceKind.surface,
      ResourceKind.device, ResourceKind.swapchain] ++
      List.replicate n ResourceKind.image_view ++
      [ResourceKind.render_pass, ResourceKind.shader_module, ResourceKind.shader_module,
       ResourceKind.pipeline_layout, ResourceKind.pipeline] ++
      List.replicate n ResourceKind.framebuffer ++
      [ResourceKind.command_pool, ResourceKind.command_buffer, ResourceKind.semaphore,
       ResourceKind.semaphore, ResourceKind.fence]).Pairwise
      (fun x y => x.creation_rank ≤ y.creation_rank) := by
  simp only [List.pairwise_append, List.pairwise_cons, List.pairwise_replicate,
    List.mem_append, List.mem_cons, List.mem_replicate, List.mem_singleton,
    List.not_mem_nil, List.Pairwise.nil]
  refine ⟨⟨⟨⟨?_, ?_, ?_⟩, ?_, ?_⟩, ?_, ?_⟩, ?_, ?_⟩
  all_goals
    first
    | exact Or.inr (Nat.le_refl _)
    | (intro a; cases a <;> simp [ResourceKind.creation_rank])
    | simp [ResourceKind.creation_rank]

/-- The destruction order is ordered by the destruction rank. -/
theorem destruction_order_pairwise (n m : Nat) :
    ([ResourceKind.semaphore, ResourceKind.semaphore, ResourceKind.fence,
       ResourceKind.command_pool] ++
      List.replicate n ResourceKind.framebuffer ++
      [ResourceKind.pipeline, ResourceKind.pipeline_layout, ResourceKind.render_pass] ++
      List.replicate m ResourceKind.image_view ++
      [ResourceKind.swapchain, ResourceKind.surface, ResourceKind.device,
       ResourceKind.vkInstance, ResourceKind.window]).Pairwise
      (fun x y => x.destruction_rank ≤ y.destruction_rank) := by
  simp only [List.pairwise_append, List.pairwise_cons, List.pairwise_replicate,
    List.mem_append, List.mem_cons, List.mem_replicate, List.mem_singleton,
    List.not_mem_nil, List.Pairwise.nil]
  refine ⟨⟨⟨⟨?_, ?_, ?_⟩, ?_, ?_⟩, ?_, ?_⟩, ?_, ?_⟩
  all_goals
    first
    | exact Or.inr (Nat.le_refl _)
    | (intro a; cases a <;> simp [ResourceKind.destruction_rank])
    | simp [ResourceKind.destruction_rank]

/-- Between two kinds that `cleanup` destroys, the one created later is
destroyed earlier, except that the fence is destroyed after the semaphores
and the logical device after the surface. -/
theorem rank_table (k1 k2 : ResourceKind)
    (h : k1.creation_rank < k2.creation_rank)
    (h1 : k1 ∈ destruction_order 1) (h2 : k2 ∈ destruction_order 1) :
    if (k1 = ResourceKind.semaphore ∧ k2 = ResourceKind.fence) ∨
        (k1 = ResourceKind.surface ∧ k2 = ResourceKind.device) then
      k1.destruction_rank < k2.destruction_rank
    else k2.destruction_rank < k1.destruction_rank := by
  cases k1 <;> cases k2 <;>
    simp [ResourceKind.creation_rank, ResourceKind.destruction_rank, destruction_order] at *

/-- A kind destroyed for some number of images is destroyed for one image. -/
theorem mem_destruction_order (n : Nat) (k : ResourceKind) (h : k ∈ destruction_order n) :
    k ∈ destruction_order 1 := by
  simp only [destruction_order, List.mem_append, List.mem_cons, List.mem_replicate,
    List.mem_singleton, List.not_mem_nil, or_false] at h ⊢
  tauto

/-- Different kinds have different creation ranks. -/
theorem creation_rank_injective (k1 k2 : ResourceKind)
    (h : k1.creation_rank = k2.creation_rank) : k1 = k2 := by
  cases k1 <;> cases k2 <;> simp [ResourceKind.creation_rank] at h <;> rfl

/-- Different kinds have different destruction ranks. -/
theorem destruction_rank_injective (k1 k2 : ResourceKind)
    (h : k1.destruction_rank = k2.destruction_rank) : k1 = k2 := by
  cases k1 <;> cases k2 <;> simp [ResourceKind.destruction_rank] at h <;> rfl

/-- How the destruction order stands to the creation order: two objects of
different kinds are destroyed in the reverse of their creation order, except
a semaphore and the fence, and the surface and the logical device, which are
destroyed in their creation order. -/
theorem destruction_against_creation (n : Nat) (i j a b : Nat) (k1 k2 : ResourceKind)
    (hi : (creation_order n)[i]? = some k1) (hj : (creation_order n)[j]? = some k2)
    (hij : i < j) (hne : k1 ≠ k2)
    (ha : (destruction_order n)[a]? = some k1) (hb : (destruction_order n)[b]? = some k2) :
    if (k1 = ResourceKind.semaphore ∧ k2 = ResourceKind.fence) ∨
        (k1 = ResourceKind.surface ∧ k2 = ResourceKind.device) then a < b
    else b < a := by
  have hc := rank_le_of_pairwise ResourceKind.creation_rank (creation_order n)
    (creation_order_pairwise n) i j k1 k2 hi hj hij
  have hclt : k1.creation_rank < k2.creation_rank := by
    rcases Nat.lt_or_ge k1.creation_rank k2.creation_rank with hlt | hge
    · exact hlt
    · exact absurd (creation_rank_injective k1 k2 (by omega)) hne
  have hm1 := mem_destruction_order n k1 (List.mem_iff_getElem?.mpr ⟨a, ha⟩)
  have hm2 := mem_destruction_order n k2 (List.mem_iff_getElem?.mpr ⟨b, hb⟩)
  have htable := rank_table k1 k2 hclt hm1 hm2
  have hab : a ≠ b := by
    rintro rfl
    rw [ha] at hb
    exact hne (Option.some.inj hb)
  have hd := destruction_order_pairwise n n
  split_ifs at htable ⊢ with hex
  · by_contra hnot
    have hba : b < a := by omega
    have := rank_le_of_pairwise ResourceKind.destruction_rank (destruction_order n) hd
      b a k2 k1 hb ha hba
    omega
  · by_contra hnot
    have hlt : a < b := by omega
    have := rank_le_of_pairwise ResourceKind.destruction_rank (destruction_order n) hd
      a b k1 k2 ha hb hlt
    omega

/-- The destruction calls of a kind among the framebuffer destructions. -/
theorem filter_destroys_framebuffers (device : Nat) (kind : ResourceKind) (l : List Nat) :
    (l.map (Call.destroyFramebuffer device)).filter
        (fun c => decide (c.destroys = some kind)) =
      if kind = ResourceKind.framebuffer then l.map (Call.destroyFramebuffer device) else [] := by
  induction l with
  | nil => simp
  | cons x more ih =>
    by_cases hk : kind = ResourceKind.framebuffer
    · subst hk
      simp [Call.destroys]
    · have hk2 : ¬ ResourceKind.framebuffer = kind := fun h => hk h.symm
      simp [Call.destroys, hk, hk2]

/-- The destruction calls of a kind among the image view destructions. -/
theorem filter_destroys_image_views (device : Nat) (kind : ResourceKind) (l : List Nat) :
    (l.map (Call.destroyImageView device)).filter
        (fun c => decide (c.destroys = some kind)) =
      if kind = ResourceKind.image_view then l.map (Call.destroyImageView device) else [] := by
  induction l with
  | nil => simp
  | cons x more ih =>
    by_cases hk : kind = ResourceKind.image_view
    · subst hk
      simp [Call.destroys]
    · have hk2 : ¬ ResourceKind.image_view = kind := fun h => hk h.symm
      simp [Call.destroys, hk, hk2]

/-- Counterexample to C14 as stated: under the sample answers initialisation
creates the surface before the logical device and the two semaphores before
the fence, and `cleanup` destroys the surface before the logical device and
the two semaphores before the fence; the sequence of destroyed kinds is not
the reverse of the sequence of created kinds, also when the shader modules
and the command buffer, which `cleanup` does not destroy, are left out. -/
theorem cleanup_not_reverse_counterexample :
    init_window App.constructed sample_environment =
      ⟨[Call.glfwInit, Call.glfwCreateWindow 800 600 "Learn Vulkan"],
        Outcome.returned { App.constructed with window := 1 }⟩ ∧
    (init_vulkan { App.constructed with window := 1 } true sample_environment).outcome =
      Outcome.returned sample_initialised ∧
    (([Call.glfwInit, Call.glfwCreateWindow 800 600 "Learn Vulkan"] ++
        (init_vulkan { App.constructed with window := 1 } true
          sample_environment).calls).filterMap Call.creates =
      [ResourceKind.window, ResourceKind.vkInstance, ResourceKind.surface,
       ResourceKind.device, ResourceKind.swapchain, ResourceKind.image_view,
       ResourceKind.image_view, ResourceKind.image_view, ResourceKind.render_pass,
       ResourceKind.shader_module, ResourceKind.shader_module,
       ResourceKind.pipeline_layout, ResourceKind.pipeline, ResourceKind.framebuffer,
       ResourceKind.framebuffer, ResourceKind.framebuffer, ResourceKind.command_pool,
       ResourceKind.command_buffer, ResourceKind.semaphore, ResourceKind.semaphore,
       ResourceKind.fence]) ∧
    ((cleanup sample_initialised vk.Result.eSuccess).calls.filterMap Call.destroys =
      [ResourceKind.semaphore, ResourceKind.semaphore, ResourceKind.fence,
       ResourceKind.command_pool, ResourceKind.framebuffer, ResourceKind.framebuffer,
       ResourceKind.framebuffer, ResourceKind.pipeline, ResourceKind.pipeline_layout,
       ResourceKind.render_pass, ResourceKind.image_view, ResourceKind.image_view,
       ResourceKind.image_view, ResourceKind.swapchain, ResourceKind.surface,
       ResourceKind.device, ResourceKind.vkInstance, ResourceKind.window]) ∧
    (cleanup sample_initialised vk.Result.eSuccess).calls.filterMap Call.destroys ≠
      ((([Call.glfwInit, Call.glfwCreateWindow 800 600 "Learn Vulkan"] ++
          (init_vulkan { App.constructed with window := 1 } true
            sample_environment).calls).filterMap Call.creates).filter
        (fun k => decide (k ≠ ResourceKind.shader_module ∧
          k ≠ ResourceKind.command_buffer))).reverse := by
  decide

/-- C14, amended: `cleanup` destroys the kinds of resources in the order
semaphores, fence, command pool, framebuffers, pipeline, pipeline layout,
render pass, image views, swapchain, surface, logical device, instance,
window, where `init_window` and `init_vulkan` created them in the order
window, instance, surface, logical device, swapchain, image views, render
pass, (shader modules,) pipeline layout, pipeline, framebuffers, command
pool, (command buffer,) semaphores, fence.  For any two owned resources of
different kinds, the one created later is destroyed earlier, except that the
fence is destroyed after the semaphores and the logical device after the
surface.  Of the two semaphores the one created later is destroyed earlier;
the framebuffers among themselves, and the image views among themselves, are
destroyed in the order of their creation. -/
theorem cleanup_order_against_creation_spec (validation : Bool) (env : VulkanEnvironment)
    (calls_window : List Call) (windowed : App) (calls_vulkan : List Call) (result : App)
    (hwindow : init_window App.constructed env = ⟨calls_window, Outcome.returned windowed⟩)
    (hvulkan : init_vulkan windowed validation env =
      ⟨calls_vulkan, Outcome.returned result⟩) :
    (calls_window ++ calls_vulkan).filterMap Call.creates =
      creation_order result.swapchain_images.length ∧
    (cleanup result vk.Result.eSuccess).calls.filterMap Call.destroys =
      destruction_order result.swapchain_images.length ∧
    (∀ (i j a b : Nat) (k1 k2 : ResourceKind),
      (creation_order result.swapchain_images.length)[i]? = some k1 →
      (creation_order result.swapchain_images.length)[j]? = some k2 →
      i < j → k1 ≠ k2 →
      (destruction_order result.swapchain_images.length)[a]? = some k1 →
      (destruction_order result.swapchain_images.length)[b]? = some k2 →
      if (k1 = ResourceKind.semaphore ∧ k2 = ResourceKind.fence) ∨
          (k1 = ResourceKind.surface ∧ k2 = ResourceKind.device) then a < b
      else b < a) ∧
    (cleanup result vk.Result.eSuccess).calls.filter
        (fun c => decide (c.destroys = some ResourceKind.semaphore)) =
      [Call.destroySemaphore result.device env.createSemaphore_second.value,
       Call.destroySemaphore result.device env.createSemaphore_first.value] ∧
    (cleanup result vk.Result.eSuccess).calls.filter
        (fun c => decide (c.destroys = some ResourceKind.framebuffer)) =
      (List.range result.swapchain_images.length).map
        (fun k => Call.destroyFramebuffer result.device (env.createFramebuffer k).value) ∧
    (cleanup result vk.Result.eSuccess).calls.filter
        (fun c => decide (c.destroys = some ResourceKind.image_view)) =
      (List.range result.swapchain_images.length).map
        (fun k => Call.destroyImageView result.device (env.createImageView k).value) := by
  obtain ⟨hcw, hw⟩ := init_window_returned _ _ _ _ hwindow
  obtain ⟨hkinds, _, _, hviews, hview, hfbs, hs1, hs2, _⟩ :=
    init_vulkan_returned _ _ _ _ _ hvulkan
  have hempty : windowed.swapchain_framebuffers = [] := by rw [hw]; rfl
  rw [hempty, List.nil_append] at hfbs
  have hfblen : result.swapchain_framebuffers.length = result.swapchain_images.length := by
    rw [hfbs]; simp
  have hviews_eq : result.swapchain_image_views =
      (List.range result.swapchain_images.length).map
        (fun k => (env.createImageView k).value) := by
    apply List.ext_getElem?
    intro k
    by_cases hk : k < result.swapchain_images.length
    · rw [hview k hk]
      simp [List.getElem?_map, List.getElem?_range hk]
    · rw [List.getElem?_eq_none (by omega), List.getElem?_eq_none (by simp; omega)]
  refine ⟨?_, ?_, ?_, ?_, ?_, ?_⟩
  · rw [List.filterMap_append, hkinds, hcw]
    simp [creation_order, Call.creates]
  · rw [cleanup_destroyed_kinds, hfblen, hviews]
    rfl
  · intro i j a b k1 k2 hi hj hij hne ha hb
    exact destruction_against_creation _ i j a b k1 k2 hi hj hij hne ha hb
  · rw [cleanup_of_idle]
    simp only [List.filter_append, filter_destroys_framebuffers, filter_destroys_image_views]
    simp [Call.destroys, hs1, hs2]
  · rw [cleanup_of_idle]
    simp only [List.filter_append, filter_destroys_framebuffers, filter_destroys_image_views]
    simp [Call.destroys, hfbs, Function.comp_def]
  · rw [cleanup_of_idle]
    simp only [List.filter_append, filter_destroys_framebuffers, filter_destroys_image_views]
    simp [Call.destroys, hviews_eq, Function.comp_def]

/-- Witness of C14 amended: initialisation under the sample answers, with
three swapchain images. -/
theorem cleanup_order_against_creation_spec_witness :
    (cleanup sample_initialised vk.Result.eSuccess).calls.filterMap Call.destroys =
      destruction_order 3 ∧
    (cleanup sample_initialised vk.Result.eSuccess).calls.filter
        (fun c => decide (c.destroys = some ResourceKind.framebuffer)) =
      [Call.destroyFramebuffer 4 30, Call.destroyFramebuffer 4 31,
       Call.destroyFramebuffer 4 32] :=
  have h := cleanup_order_against_creation_spec true sample_environment
    [Call.glfwInit, Call.glfwCreateWindow 800 600 "Learn Vulkan"]
    { App.constructed with window := 1 }
    (init_vulkan { App.constructed with window := 1 } true sample_environment).calls
    sample_initialised (by decide) (by decide)
  ⟨h.2.1, h.2.2.2.2.1⟩

end LearnVulkanApp
